import Mathlib

/-!
# tasks_sql.h: the SQL based task store of the manager

A shallow embedding of `src/tasks_sql.h`.

* Bytes are natural numbers and strings are lists of bytes (`List Nat`): 0 is
  the terminator, 39 the apostrophe, 32 the space, 10 the newline, 61 the
  equals sign.  A string argument is given by its bytes; where the code
  works on memory (`sql_nquote`, the RC text) the argument is the bytes of
  memory from the pointer on, terminator included.
* A function that can call `abort ()`, fail an `assert`, or read or write
  outside a buffer returns an `Option`; `none` stands for "does not return
  normally".  Where a string is put between quotes without quoting, an
  apostrophe in it changes the statement: `sql_raw` tells the cases in which
  the text does not parse (`sqlite3_prepare` fails) or has one more
  condition; for the other strings with an apostrophe the statement is not
  described and the result is `none`.
* Each statement handed to `sql`, `sql_int`, `sql_string` or `sql_int64` is
  embedded by its relational meaning on the tables that `init_manage`
  creates, for a process whose database is open.  A `SQLITE_BUSY` answer is
  retried by the code until the statement runs and has no effect on the
  tables, so the functions on the store describe the statement once it runs.
  The iterator functions and their busy loop are embedded on a statement
  that lists the answers of `sqlite3_step`.
* Declarations that live outside `tasks_sql.h` (`stop_task`, `delete_reports`,
  `make_report_uuid`, `g_base64_decode`, whether `NDEBUG` is set, the time)
  are parameters of the functions that use them.
-/

set_option maxRecDepth 100000

namespace TasksSql

/-! ## SQL helpers -/

/-- The apostrophe byte. -/
def APOSTROPHE : Nat := 39

/-- C `strlen`: the number of bytes before the first NUL; `none` when the
memory holds no NUL (the scan leaves the buffer). -/
def strlen : List Nat → Option Nat
  | [] => none
  | c :: rest => if c = 0 then some 0 else (strlen rest).map (· + 1)

/-- The C string at a pointer: the bytes before the first NUL. -/
def c_string : List Nat → Option (List Nat)
  | [] => none
  | c :: rest => if c = 0 then some [] else (c_string rest).map (c :: ·)

/-- The counting loop of `sql_nquote`,
`while ((start = strchr (start, 39))) start++, count++;`:
the number of apostrophes before the first NUL. -/
def count_apostrophes : List Nat → Option Nat
  | [] => none
  | c :: rest =>
    if c = 0 then some 0
    else if c = APOSTROPHE then (count_apostrophes rest).map (· + 1)
    else count_apostrophes rest

/-- The copy loop of `sql_nquote`, applied to the bytes `start .. end`:
the bytes stored through `new`, in order.  An apostrophe is stored twice,
any other byte once. -/
def nquote_copy : List Nat → List Nat
  | [] => []
  | ch :: rest =>
    if ch = APOSTROPHE then APOSTROPHE :: APOSTROPHE :: nquote_copy rest
    else ch :: nquote_copy rest

/-- The size handed to `g_malloc0` in `sql_nquote`: `length + count + 1`, for
a sum below 2^64 (a length beyond the memory of the string has no result in
`sql_nquote_buffer`, whatever the size). -/
def sql_nquote_alloc (string : List Nat) (length : Nat) : Option Nat :=
  (count_apostrophes string).map (fun count => length + count + 1)

/-- The zero filled buffer of `sql_nquote` after the copy loop; `none` when
the loop reads past the memory of `string` or stores past the allocation. -/
def sql_nquote_buffer (string : List Nat) (length : Nat) : Option (List Nat) :=
  match sql_nquote_alloc string length with
  | none => none
  | some size =>
    let written := nquote_copy (string.take length)
    if length ≤ string.length ∧ written.length ≤ size then
      some (written ++ List.replicate (size - written.length) 0)
    else none

/-- Embedding of `sql_nquote`: the C string the returned pointer refers to. -/
def sql_nquote (string : List Nat) (length : Nat) : Option (List Nat) :=
  (sql_nquote_buffer string length).bind c_string

/-- Embedding of `sql_quote (string)` is `sql_nquote (string, strlen (string))`. -/
def sql_quote (string : List Nat) : Option (List Nat) :=
  (strlen string).bind (sql_nquote string)

/-- How SQLite reads the body of a single-quoted literal: a pair of
apostrophes stands for one apostrophe; a lone apostrophe would close the
literal, so such a body is not the body of one literal (`none`). -/
def sql_unquote : List Nat → Option (List Nat)
  | [] => some []
  | [c] => if c = APOSTROPHE then none else some [c]
  | c :: d :: rest =>
    if c = APOSTROPHE then
      if d = APOSTROPHE then (sql_unquote rest).map (APOSTROPHE :: ·) else none
    else (sql_unquote (d :: rest)).map (c :: ·)

/-- The text denoted by `'%s'` in a statement when `%s` is filled with the
result of `sql_nquote` or `sql_quote`. -/
def sql_quoted_literal (quoted : Option (List Nat)) : Option (List Nat) :=
  quoted.bind sql_unquote

/-- The bytes of a string literal. -/
def str (s : String) : List Nat := s.toList.map Char.toNat

/-! ## Statements and iterators -/

/-- Result code `SQLITE_ERROR` of sqlite3.h. -/
def SQLITE_ERROR : Int := 1

/-- Result code `SQLITE_BUSY` of sqlite3.h. -/
def SQLITE_BUSY : Int := 5

/-- Result code `SQLITE_MISUSE` of sqlite3.h. -/
def SQLITE_MISUSE : Int := 21

/-- Result code `SQLITE_ROW` of sqlite3.h. -/
def SQLITE_ROW : Int := 100

/-- Result code `SQLITE_DONE` of sqlite3.h. -/
def SQLITE_DONE : Int := 101

/-- A value in a column of a result row. -/
inductive sql_value where
  | null
  | integer (i : Int)
  | text (s : List Nat)
  deriving DecidableEq, Repr

/-- A prepared statement, seen from its caller: `pending` lists what the
forthcoming calls of `sqlite3_step` answer (a result code and the row that is
current after the call), `row` is the current row and `steps` counts the calls
of `sqlite3_step` made so far. -/
structure sqlite3_stmt where
  pending : List (Int × List sql_value)
  row : List sql_value
  steps : Nat
  deriving DecidableEq, Repr

/-- One call of `sqlite3_step`.  A statement whose answers are used up
reports `SQLITE_DONE`. -/
def sqlite3_step (stmt : sqlite3_stmt) : Int × sqlite3_stmt :=
  match stmt.pending with
  | [] => (SQLITE_DONE, { stmt with steps := stmt.steps + 1 })
  | (code, row) :: rest => (code, { pending := rest, row := row, steps := stmt.steps + 1 })

/-- Embedding of `sqlite3_column_int64 (stmt, col)` on the current row (NULL reads as 0;
the conversion of text is not modelled and reads as 0). -/
def sqlite3_column_int64 (stmt : sqlite3_stmt) (col : Nat) : Int :=
  match stmt.row.get? col with
  | some (sql_value.integer i) => i
  | _ => 0

/-- The decimal text of a signed integer, as `%lld` prints it. -/
def format_lld (v : Int) : List Nat :=
  if v < 0 then 45 :: (Nat.toDigits 10 v.natAbs).map Char.toNat
  else (Nat.toDigits 10 v.natAbs).map Char.toNat

/-- Embedding of `sqlite3_column_text (stmt, col)` on the current row: NULL for a NULL
column and for a column the row does not have; an integer is converted to
its decimal text. -/
def sqlite3_column_text (stmt : sqlite3_stmt) (col : Nat) : Option (List Nat) :=
  match stmt.row.get? col with
  | some (sql_value.text s) => some s
  | some (sql_value.integer i) => some (format_lld i)
  | _ => none

/-- The loop `while ((ret = sqlite3_step (stmt)) == SQLITE_BUSY);` with a
bound on the number of rounds; `none` when the bound is reached. -/
def step_while_busy : Nat → sqlite3_stmt → Option (Int × sqlite3_stmt)
  | 0, _ => none
  | fuel + 1, stmt =>
    let r := sqlite3_step stmt
    if r.1 = SQLITE_BUSY then step_while_busy fuel r.2 else some r

/-- The generic iterator `iterator_t`. -/
structure iterator_t where
  stmt : sqlite3_stmt
  done : Bool
  deriving DecidableEq, Repr

/-- The task iterator `task_iterator_t`. -/
structure task_iterator_t where
  stmt : sqlite3_stmt
  done : Bool
  deriving DecidableEq, Repr

/-- Embedding of `next (iterator)`: the returned flag and the iterator afterwards; `none`
is `abort ()`. -/
def next (iterator : iterator_t) : Option (Bool × iterator_t) :=
  if iterator.done then some (false, iterator)
  else
    match step_while_busy (iterator.stmt.pending.length + 1) iterator.stmt with
    | none => none
    | some (ret, stmt) =>
      if ret = SQLITE_DONE then some (false, { stmt := stmt, done := true })
      else if ret = SQLITE_ERROR ∨ ret = SQLITE_MISUSE then none
      else some (true, { stmt := stmt, done := iterator.done })

/-- Embedding of `next_task (iterator, task)`: the returned flag, the iterator and the
contents of `*task` afterwards. -/
def next_task (iterator : task_iterator_t) (task : Int) :
    Option (Bool × task_iterator_t × Int) :=
  if iterator.done then some (false, iterator, task)
  else
    match step_while_busy (iterator.stmt.pending.length + 1) iterator.stmt with
    | none => none
    | some (ret, stmt) =>
      if ret = SQLITE_DONE then some (false, { stmt := stmt, done := true }, task)
      else if ret = SQLITE_ERROR ∨ ret = SQLITE_MISUSE then none
      else some (true, { stmt := stmt, done := iterator.done }, sqlite3_column_int64 stmt 0)

/-- Embedding of `next_report (iterator, report)`: the returned flag, the iterator and the
contents of `*report` afterwards. -/
def next_report (iterator : iterator_t) (report : Int) :
    Option (Bool × iterator_t × Int) :=
  if iterator.done then some (false, iterator, report)
  else
    match step_while_busy (iterator.stmt.pending.length + 1) iterator.stmt with
    | none => none
    | some (ret, stmt) =>
      if ret = SQLITE_DONE then some (false, { stmt := stmt, done := true }, report)
      else if ret = SQLITE_ERROR ∨ ret = SQLITE_MISUSE then none
      else some (true, { stmt := stmt, done := iterator.done }, sqlite3_column_int64 stmt 0)

/-- The outcome of call number `n + 1` of an iterator function `f`, counted
from the state `st`. -/
def later_call {σ : Type} (f : σ → Option (Bool × σ)) : Nat → σ → Option (Bool × σ)
  | 0, st => f st
  | n + 1, st =>
    match f st with
    | none => none
    | some (_, st2) => later_call f n st2

/-- The loop "Run statement" of `sql_x` for the row number `row`, with a
bound on the number of rounds: BUSY is stepped again, DONE gives 1, ERROR and
MISUSE give -1, any other answer is a row, which ends the loop with 0 when
`row` is 0 and else decrements `row`. -/
def sql_x_run : Nat → Nat → sqlite3_stmt → Option (Int × sqlite3_stmt)
  | 0, _, _ => none
  | fuel + 1, row, stmt =>
    let r := sqlite3_step stmt
    if r.1 = SQLITE_BUSY then sql_x_run fuel row r.2
    else if r.1 = SQLITE_DONE then some (1, r.2)
    else if r.1 = SQLITE_ERROR ∨ r.1 = SQLITE_MISUSE then some (-1, r.2)
    else if row = 0 then some (0, r.2)
    else sql_x_run fuel (row - 1) r.2

/-- Embedding of `sql_x (col, row, sql, args, stmt_return)`: the return code and the
statement afterwards.  `prepared` is the statement that `sqlite3_prepare`
gives once it does not answer BUSY, `none` when it fails or gives a NULL
statement. -/
def sql_x (row : Nat) (prepared : Option sqlite3_stmt) : Option (Int × Option sqlite3_stmt) :=
  match prepared with
  | none => some (-1, none)
  | some stmt => (sql_x_run (stmt.pending.length + 1) row stmt).map (fun r => (r.1, some r.2))

/-- The answers of a statement that are rows: the answers before the first
DONE, ERROR or MISUSE (a statement made with `sqlite3_prepare` answers a
step with BUSY, ROW, DONE, ERROR or MISUSE). -/
def rows_before_end (codes : List Int) : List Int :=
  codes.takeWhile (fun c => decide (c ≠ SQLITE_DONE ∧ c ≠ SQLITE_ERROR ∧ c ≠ SQLITE_MISUSE))

/-- The return value the description of `sql_x` gives for the answers `codes`
of the statement, BUSY answers left out: 0 when `row + 1` rows come first,
else 1 when the rows are followed by DONE (a statement with no further
answer reports DONE) and -1 when they are followed by ERROR or MISUSE. -/
def sql_x_outcome (row : Nat) (codes : List Int) : Int :=
  if row + 1 ≤ (rows_before_end codes).length then 0
  else
    match codes.get? (rows_before_end codes).length with
    | some c => if c = SQLITE_DONE then 1 else -1
    | none => 1

/-! ## The store -/

/-- Modelled from the spec: the enumeration `task_status_t` is declared
outside this file; these are the seven run states of section 4.5.  The
columns `tasks.run_status` and `reports.scan_run_status` hold its values. -/
inductive task_status_t where
  | TASK_STATUS_DELETE_REQUESTED
  | TASK_STATUS_DONE
  | TASK_STATUS_NEW
  | TASK_STATUS_REQUESTED
  | TASK_STATUS_RUNNING
  | TASK_STATUS_STOP_REQUESTED
  | TASK_STATUS_STOPPED
  deriving DecidableEq, Repr

export task_status_t (TASK_STATUS_DELETE_REQUESTED TASK_STATUS_DONE TASK_STATUS_NEW
  TASK_STATUS_REQUESTED TASK_STATUS_RUNNING TASK_STATUS_STOP_REQUESTED TASK_STATUS_STOPPED)

/-- A table: its rows with their ROWID, in ROWID order (the order of a scan
without ORDER BY). -/
abbrev Table (α : Type) := List (Int × α)

/-- The ROWID given to the next inserted row: one more than the largest
ROWID, 1 for an empty table. -/
def Table.next_rowid {α : Type} (t : Table α) : Int :=
  match t.map Prod.fst with
  | [] => 1
  | r :: rs => rs.foldl max r + 1

/-- Embedding of `INSERT INTO t ...`. -/
def Table.insert {α : Type} (t : Table α) (row : α) : Table α :=
  t ++ [(t.next_rowid, row)]

/-- Embedding of `UPDATE t SET ... WHERE p`. -/
def Table.update {α : Type} (t : Table α) (p : Int × α → Bool) (f : α → α) : Table α :=
  t.map (fun r => if p r then (r.1, f r.2) else r)

/-- Embedding of `DELETE FROM t WHERE p`. -/
def Table.delete {α : Type} (t : Table α) (p : Int × α → Bool) : Table α :=
  t.filter (fun r => !p r)

/-- Embedding of `SELECT count(*) FROM t WHERE p`: one row with the count. -/
def Table.count {α : Type} (t : Table α) (p : Int × α → Bool) : List (Option Int) :=
  [some ((t.filter p).length : Int)]

/-- A comparison `column = value` of a WHERE clause is true: never when a
side is NULL. -/
def sql_eq {α : Type} [DecidableEq α] (a b : Option α) : Bool :=
  match a, b with
  | some x, some y => decide (x = y)
  | _, _ => false

/-- The text denoted by `'%s'` when `%s` is filled with a string that was
not quoted: the string itself when it has no apostrophe.  A string with an
apostrophe changes the shape of the statement, which this model does not
describe (`none`). -/
def sql_raw_literal (raw : List Nat) : Option (List Nat) :=
  if APOSTROPHE ∈ raw then none else some raw

/-- What a statement is when a `'%s'` of its text is filled with a string that
was not quoted: the statement as written, with the string as the literal; a
text that does not parse, so that `sqlite3_prepare` fails; the statement with
the condition `column = 'text' OR 'left' = 'right'` in the place of
`column = '%s'`; or another text, which is not described here. -/
inductive raw_statement where
  | literal (text : List Nat)
  | malformed
  | or_equal (text left right : List Nat)
  | other
  deriving DecidableEq, Repr

/-- The bytes that, outside a literal, end a statement or start a comment or
a quoted name: the semicolon, the double quote, the minus sign, the slash,
the opening bracket and the backtick. -/
def sql_special (c : Nat) : Bool :=
  c = 59 || c = 34 || c = 45 || c = 47 || c = 91 || c = 96

/-- The three parts of a string of the form `text' OR 'left'='right`, where
no part has an apostrophe. -/
def or_equal_parts (raw : List Nat) : Option (List Nat × List Nat × List Nat) :=
  let text := raw.takeWhile (fun c => decide (c ≠ APOSTROPHE))
  let rest := raw.drop (text.length + 1)
  if rest.take 5 = str " OR '" then
    let left := (rest.drop 5).takeWhile (fun c => decide (c ≠ APOSTROPHE))
    let rest2 := rest.drop (5 + left.length + 1)
    if rest2.take 2 = str "='" ∧ APOSTROPHE ∉ rest2.drop 2 then
      some (text, left, rest2.drop 2)
    else none
  else none

/-- The statement that results when `'%s'` is filled with the string `raw`
without quoting.  Without an apostrophe the string is the literal.  With an
odd number of apostrophes and none of the bytes of `sql_special` the text
ends inside a literal, whatever comes before, so it does not parse.  A string
`text' OR 'left'='right` closes the literal and adds a condition. -/
def sql_raw (raw : List Nat) : raw_statement :=
  if APOSTROPHE ∉ raw then raw_statement.literal raw
  else if raw.count APOSTROPHE % 2 = 1 ∧ raw.all (fun c => !sql_special c) = true then
    raw_statement.malformed
  else
    match or_equal_parts raw with
    | some (text, left, right) => raw_statement.or_equal text left right
    | none => raw_statement.other

/-- Embedding of `sql_int (0, 0, query)`: the first row of the column read with
`sqlite3_column_int` (NULL reads as 0); `abort ()` when there is no row.  The
value is kept as it is stored, which is what `sqlite3_column_int` gives for
the counts and flags below 2^31 that the statements of this file read. -/
def sql_int (rows : List (Option Int)) : Option Int :=
  rows.head?.map (fun v => v.getD 0)

/-- Embedding of `sql_string (0, 0, query)`: the first row of the column, NULL when there
is no row or the value is NULL. -/
def sql_string (rows : List (Option (List Nat))) : Option (List Nat) :=
  rows.head?.join

/-- Embedding of `sql_int64 (ret, 0, 0, query)`: the return code (0 success, 1 too few
rows, -1 error) and the value stored in `*ret`, if any.  `query` is the
result of the statement, `none` when the statement does not parse, so that
`sqlite3_prepare` fails and `sql_x` returns -1. -/
def sql_int64 (query : Option (List (Option Int))) : Int × Option Int :=
  match query with
  | none => (-1, none)
  | some rows =>
    match rows.head? with
    | none => (1, none)
    | some v => (0, some (v.getD 0))

/-- Row of `meta (name UNIQUE, value)`. -/
structure meta_row where
  name : Option (List Nat)
  value : Option (List Nat)
  deriving DecidableEq, Repr

/-- Row of `users (name UNIQUE, password)`. -/
structure users_row where
  name : Option (List Nat)
  password : Option (List Nat)
  deriving DecidableEq, Repr

/-- Row of `nvt_selectors (name, exclude INTEGER, type INTEGER, family_or_nvt)`. -/
structure nvt_selectors_row where
  name : Option (List Nat)
  exclude : Option Int
  type : Option Int
  family_or_nvt : sql_value
  deriving DecidableEq, Repr

/-- Row of `configs (name UNIQUE, nvt_selector, comment, family_count
INTEGER, nvt_count INTEGER, families_growing INTEGER, nvts_growing INTEGER)`. -/
structure configs_row where
  name : Option (List Nat)
  nvt_selector : Option (List Nat)
  comment : Option (List Nat)
  family_count : Option Int
  nvt_count : Option Int
  families_growing : Option Int
  nvts_growing : Option Int
  deriving DecidableEq, Repr

/-- Row of `config_preferences (config INTEGER, type, name, value)`. -/
structure config_preferences_row where
  config : Option Int
  type : Option (List Nat)
  name : Option (List Nat)
  value : Option (List Nat)
  deriving DecidableEq, Repr

/-- Row of `tasks (uuid, name, hidden INTEGER, time, comment, description,
owner, run_status INTEGER, start_time, end_time, config, target)`. -/
structure tasks_row where
  uuid : Option (List Nat)
  name : Option (List Nat)
  hidden : Option Int
  time : Option Int
  comment : Option (List Nat)
  description : Option (List Nat)
  owner : Option Int
  run_status : task_status_t
  start_time : Option (List Nat)
  end_time : Option (List Nat)
  config : Option (List Nat)
  target : Option (List Nat)
  deriving DecidableEq, Repr

/-- Row of `results (task INTEGER, subnet, host, port, nvt, type, description)`. -/
structure results_row where
  task : Option Int
  subnet : Option (List Nat)
  host : Option (List Nat)
  port : Option (List Nat)
  nvt : Option (List Nat)
  type : Option (List Nat)
  description : Option (List Nat)
  deriving DecidableEq, Repr

/-- Row of `reports (uuid, hidden INTEGER, task INTEGER, date INTEGER,
start_time, end_time, nbefile, comment, scan_run_status INTEGER)`. -/
structure reports_row where
  uuid : Option (List Nat)
  hidden : Option Int
  task : Option Int
  date : Option Int
  start_time : Option (List Nat)
  end_time : Option (List Nat)
  nbefile : Option (List Nat)
  comment : Option (List Nat)
  scan_run_status : Option task_status_t
  deriving DecidableEq, Repr

/-- Row of `report_hosts (report INTEGER, host, start_time, end_time,
attack_state, current_port, max_port)`. -/
structure report_hosts_row where
  report : Option Int
  host : Option (List Nat)
  start_time : Option (List Nat)
  end_time : Option (List Nat)
  attack_state : Option (List Nat)
  current_port : Option Int
  max_port : Option Int
  deriving DecidableEq, Repr

/-- Row of `report_results (report INTEGER, result INTEGER)`. -/
structure report_results_row where
  report : Option Int
  result : Option Int
  deriving DecidableEq, Repr

/-- Row of `targets (name, hosts, comment)`. -/
structure targets_row where
  name : Option (List Nat)
  hosts : Option (List Nat)
  comment : Option (List Nat)
  deriving DecidableEq, Repr

/-- Row of `nvts (oid, version, name, summary, description, copyright, cve,
bid, xref, tag, sign_key_ids, category, family)`. -/
structure nvts_row where
  oid : Option (List Nat)
  version : Option (List Nat)
  name : Option (List Nat)
  summary : Option (List Nat)
  description : Option (List Nat)
  copyright : Option (List Nat)
  cve : Option (List Nat)
  bid : Option (List Nat)
  xref : Option (List Nat)
  tag : Option (List Nat)
  sign_key_ids : Option (List Nat)
  category : Option (List Nat)
  family : Option (List Nat)
  deriving DecidableEq, Repr

/-- The tables of the database `task_db`.  A table that was not created yet
is modelled as empty. -/
structure Tables where
  meta : Table meta_row
  users : Table users_row
  nvt_selectors : Table nvt_selectors_row
  configs : Table configs_row
  config_preferences : Table config_preferences_row
  tasks : Table tasks_row
  results : Table results_row
  reports : Table reports_row
  report_hosts : Table report_hosts_row
  report_results : Table report_results_row
  targets : Table targets_row
  nvts : Table nvts_row
  deriving DecidableEq, Repr

/-- The state the functions work on: the tables, the open transaction (the
tables as of its BEGIN, to which a ROLLBACK would return) and the process
wide variables `current_credentials.username`, `current_server_task` and
`current_report`, which are declared outside this file. -/
structure State where
  db : Tables
  transaction : Option Tables
  username : Option (List Nat)
  current_server_task : Int
  current_report : Int
  deriving DecidableEq, Repr

/-- Embedding of `sql ("BEGIN IMMEDIATE;")`: fails, and `sql` aborts, inside a
transaction. -/
def sql_begin (s : State) : Option State :=
  match s.transaction with
  | some _ => none
  | none => some { s with transaction := some s.db }

/-- Embedding of `sql ("COMMIT;")` and `sql ("END;")` (in SQLite END is another name of
COMMIT): the changes made since BEGIN stay; fails, and `sql` aborts, outside a
transaction. -/
def sql_commit (s : State) : Option State :=
  match s.transaction with
  | none => none
  | some _ => some { s with transaction := none }

/-! ## Task functions -/

/-- Embedding of `task_run_status (task)`:
`sql_int (0, 0, "SELECT run_status FROM tasks WHERE ROWID = %llu;", task)`;
`sql_int` aborts when the task has no row. -/
def task_run_status (task : Int) (s : State) : Option task_status_t :=
  ((s.db.tasks.filter (fun r => decide (r.1 = task))).map (fun r => r.2.run_status)).head?

/-- Embedding of `set_task_run_status (task, status)`. -/
def set_task_run_status (task : Int) (status : task_status_t) (s : State) : State :=
  let reports :=
    if task = s.current_server_task ∧ s.current_report ≠ 0 then
      s.db.reports.update (fun r => decide (r.1 = s.current_report))
        (fun r => { r with scan_run_status := some status })
    else s.db.reports
  { s with db := { s.db with
      reports := reports
      tasks := s.db.tasks.update (fun r => decide (r.1 = task))
        (fun r => { r with run_status := status }) } }

/-- The statement a SELECT prepares: one `SQLITE_ROW` answer for each row
of the result.  The rows are those of the tables at the time of the call. -/
def prepare_rows (rows : List (List sql_value)) : sqlite3_stmt :=
  { pending := rows.map (fun r => (SQLITE_ROW, r)), row := [], steps := 0 }

/-- Embedding of `init_task_iterator (iterator)`: `SELECT ROWID FROM tasks`, restricted to
the tasks owned by the current user when there is one. -/
def init_task_iterator (s : State) : Option task_iterator_t :=
  match s.username with
  | some username =>
    (sql_raw_literal username).map (fun name =>
      let owner : Option Int :=
        ((s.db.users.filter (fun u => sql_eq u.2.name (some name))).map (fun u => u.1)).head?
      { stmt := prepare_rows
          ((s.db.tasks.filter (fun r => sql_eq r.2.owner owner)).map
            (fun r => [sql_value.integer r.1])),
        done := false })
  | none =>
    some { stmt := prepare_rows (s.db.tasks.map (fun r => [sql_value.integer r.1])),
           done := false }

/-- The switch of `find_task` on the result of `sql_int64`: the returned
flag and the contents of `*task`; the default case is `assert (0)`. -/
def find_task_switch (r : Int × Option Int) (task : Int) : Option (Bool × Int) :=
  if r.1 = 0 then some (false, r.2.getD task)
  else if r.1 = 1 then some (false, 0)
  else if r.1 = -1 then some (true, task)
  else none

/-- Embedding of `find_task (uuid, task)`:
`sql_int64 (task, 0, 0, "SELECT ROWID FROM tasks WHERE uuid = '%s';", uuid)`,
where the UUID is not quoted. -/
def find_task (uuid : List Nat) (task : Int) (s : State) : Option (Bool × Int) :=
  match sql_raw uuid with
  | raw_statement.literal u =>
    find_task_switch
      (sql_int64 (some ((s.db.tasks.filter (fun r => sql_eq r.2.uuid (some u))).map
        (fun r => some r.1))))
      task
  | raw_statement.malformed => find_task_switch (sql_int64 none) task
  | raw_statement.or_equal text left right =>
    -- SELECT ROWID FROM tasks WHERE uuid = 'text' OR 'left'='right';
    find_task_switch
      (sql_int64 (some ((s.db.tasks.filter (fun r =>
          sql_eq r.2.uuid (some text) || decide (left = right))).map
        (fun r => some r.1))))
      task
  | raw_statement.other => none

/-! ## init_manage -/

/-- The name and value pairs that `setup_full_config_prefs` inserts, in
order, as SERVER_PREFS preferences. -/
def full_config_prefs (safe_checks optimize_test port_range : List Nat) :
    List (List Nat × List Nat) :=
  [ (str "max_hosts", str "20"),
    (str "max_checks", str "4"),
    (str "cgi_path", str "/cgi-bin:/scripts"),
    (str "port_range", port_range),
    (str "auto_enable_dependencies", str "yes"),
    (str "silent_dependencies", str "yes"),
    (str "host_expansion", str "ip"),
    (str "ping_hosts", str "no"),
    (str "reverse_lookup", str "no"),
    (str "optimize_test", optimize_test),
    (str "safe_checks", safe_checks),
    (str "use_mac_addr", str "no"),
    (str "unscanned_closed", str "no"),
    (str "save_knowledge_base", str "yes"),
    (str "only_test_hosts_whose_kb_we_dont_have", str "no"),
    (str "only_test_hosts_whose_kb_we_have", str "no"),
    (str "kb_restore", str "no"),
    (str "kb_dont_replay_scanners", str "no"),
    (str "kb_dont_replay_info_gathering", str "no"),
    (str "kb_dont_replay_attacks", str "no"),
    (str "kb_dont_replay_denials", str "no"),
    (str "kb_max_age", str "864000"),
    (str "log_whole_attack", str "no"),
    (str "language", str "english"),
    (str "checks_read_timeout", str "5"),
    (str "non_simult_ports", str "139, 445"),
    (str "plugins_timeout", str "320"),
    (str "slice_network_addresses", str "no"),
    (str "nasl_no_signature_check", str "yes"),
    (str "ping_hosts", str "no"),
    (str "reverse_lookup", str "no"),
    (str "use_mac_addr", str "no"),
    (str "unscanned_closed", str "no") ]

/-- Embedding of `setup_full_config_prefs (config, safe_checks, optimize_test,
port_range)`: one INSERT into config_preferences for each pair. -/
def setup_full_config_prefs (config : Int) (safe_checks optimize_test port_range : List Nat)
    (s : State) : State :=
  { s with db := { s.db with
      config_preferences :=
        (full_config_prefs safe_checks optimize_test port_range).foldl
          (fun t pref =>
            t.insert { config := some config, type := some (str "SERVER_PREFS"),
                       name := some pref.1, value := some pref.2 })
          s.db.config_preferences } }

/-- One of the four blocks of `init_manage` that ensure a predefined config:
when no config has the name, insert it with selector All and both growing
flags 1, then set up its preferences for the new ROWID
(`sqlite3_last_insert_rowid`). -/
def ensure_config (name comment safe_checks optimize_test port_range : List Nat)
    (s : State) : State :=
  if sql_int (s.db.configs.count (fun r => sql_eq r.2.name (some name))) = some 0 then
    let config := s.db.configs.next_rowid
    let s1 : State := { s with db := { s.db with
      configs := s.db.configs.insert
        { name := some name, nvt_selector := some (str "All"), comment := some comment,
          family_count := none, nvt_count := none,
          families_growing := some 1, nvts_growing := some 1 } } }
    setup_full_config_prefs config safe_checks optimize_test port_range s1
  else s

/-- Embedding of `G_STRINGIFY (DATABASE_VERSION)`: the text "0". -/
def DATABASE_VERSION : List Nat := [48]

/-- The query of `init_manage` for the stored version:
`sql_string (0, 0, "SELECT value FROM meta WHERE name = 'database_version';")`. -/
def database_version (s : State) : Option (List Nat) :=
  sql_string ((s.db.meta.filter (fun r => sql_eq r.2.name (some (str "database_version")))).map
    (fun r => r.2.value))

/-- Block "Ensure the version is set":
`INSERT OR REPLACE INTO meta (name, value) VALUES ('database_version', '0');`
replaces the row of that name, `name` being UNIQUE. -/
def set_database_version (s : State) : State :=
  { s with db := { s.db with
    meta := (s.db.meta.delete (fun r => sql_eq r.2.name (some (str "database_version")))).insert
      { name := some (str "database_version"), value := some DATABASE_VERSION } } }

/-- Block "Ensure the special om user exists". -/
def ensure_om_user (s : State) : State :=
  if sql_int (s.db.users.count (fun r => sql_eq r.2.name (some (str "om")))) = some 0 then
    { s with db := { s.db with
      users := s.db.users.insert { name := some (str "om"), password := some [] } } }
  else s

/-- Block "Ensure the predefined selectors ... exist": the selector All. -/
def ensure_all_selector (s : State) : State :=
  if sql_int (s.db.nvt_selectors.count (fun r => sql_eq r.2.name (some (str "All")))) = some 0
  then
    { s with db := { s.db with
      nvt_selectors := s.db.nvt_selectors.insert
        { name := some (str "All"), exclude := some 0, type := some 0,
          family_or_nvt := sql_value.null } } }
  else s

/-- Block "Ensure the predefined target exists". -/
def ensure_localhost_target (s : State) : State :=
  if sql_int (s.db.targets.count (fun r => sql_eq r.2.name (some (str "Localhost")))) = some 0
  then
    { s with db := { s.db with
      targets := s.db.targets.insert
        { name := some (str "Localhost"), hosts := some (str "localhost"),
          comment := none } } }
  else s

/-- The example task that `init_manage` inserts. -/
def example_task : tasks_row :=
  { uuid := some (str "343435d6-91b0-11de-9478-ffd71f4c6f29"),
    name := some (str "Example task"), hidden := some 1, time := none,
    comment := some (str "This is an example task for the help pages."),
    description := none, owner := none, run_status := TASK_STATUS_DONE,
    start_time := some (str "Tue Aug 25 21:48:25 2009"),
    end_time := some (str "Tue Aug 25 21:52:16 2009"),
    config := some (str "Full"), target := some (str "Localhost") }

/-- Block "Ensure the predefined example task ... exists": inserted when no task
has `hidden = 1`. -/
def ensure_example_task (s : State) : State :=
  if sql_int (s.db.tasks.count (fun r => sql_eq r.2.hidden (some 1))) = some 0 then
    { s with db := { s.db with tasks := s.db.tasks.insert example_task } }
  else s

/-- Block "Ensure the predefined example ... report exists": the report, its
result, their link and the host row, for the task that `find_task` gives. -/
def ensure_example_report (s : State) : Option State :=
  if sql_int (s.db.reports.count
      (fun r => sql_eq r.2.uuid (some (str "343435d6-91b0-11de-9478-ffd71f4c6f30")))) = some 0
  then
    match find_task (str "343435d6-91b0-11de-9478-ffd71f4c6f29") 0 s with
    | none => none
    | some (true, _) => some s
    | some (false, task) =>
      let report := s.db.reports.next_rowid
      let result := s.db.results.next_rowid
      some { s with db := { s.db with
        reports := s.db.reports.insert
          { uuid := some (str "343435d6-91b0-11de-9478-ffd71f4c6f30"), hidden := some 1,
            task := some task, date := none,
            start_time := some (str "Tue Aug 25 21:48:25 2009"),
            end_time := some (str "Tue Aug 25 21:52:16 2009"), nbefile := none,
            comment := some (str "This is an example report for the help pages."),
            scan_run_status := none }
        results := s.db.results.insert
          { task := some task, subnet := some [], host := some (str "localhost"),
            port := some (str "telnet (23/tcp)"),
            nvt := some (str "1.3.6.1.4.1.25623.1.0.10330"),
            type := some (str "Security Note"),
            description := some (str "A telnet server seems to be running on this port") }
        report_results := s.db.report_results.insert
          { report := some report, result := some result }
        report_hosts := s.db.report_hosts.insert
          { report := some report, host := some (str "localhost"),
            start_time := some (str "Tue Aug 25 21:48:26 2009"),
            end_time := some (str "Tue Aug 25 21:52:15 2009"),
            attack_state := none, current_port := none, max_port := none } } }
  else some s

/-- The part of `init_manage` between the version check and the task loop:
the version row, the user om, the selector All, the four predefined
configs, the target Localhost and the example task and report. -/
def init_manage_setup (s : State) : Option State :=
  let s := set_database_version s
  let s := ensure_om_user s
  let s := ensure_all_selector s
  let s := ensure_config (str "Full and fast")
    (str "All NVT's; optimized by using previously collected information.")
    (str "yes") (str "yes") (str "default") s
  let s := ensure_config (str "Full and fast ultimate")
    (str ("All NVT's including those that can stop services/hosts;"
      ++ " optimized by using previously collected information."))
    (str "no") (str "yes") (str "default") s
  let s := ensure_config (str "Full and very deep")
    (str "All NVT's; don't trust previously collected information; slow.")
    (str "yes") (str "no") (str "1-65535") s
  let s := ensure_config (str "Full and very deep ultimate")
    (str ("All NVT's including those that can stop services/hosts;"
      ++ " don't trust previously collected information; slow."))
    (str "no") (str "no") (str "1-65535") s
  let s := ensure_localhost_target s
  let s := ensure_example_task s
  ensure_example_report s

/-- The loop of `init_manage` over the task iterator, with a bound on the
number of rounds: a task found in one of the four active states is set to
`TASK_STATUS_STOPPED`. -/
def init_manage_loop : Nat → task_iterator_t → Int → State → Option State
  | 0, _, _, _ => none
  | fuel + 1, iterator, index, s =>
    match next_task iterator index with
    | none => none
    | some (false, _, _) => some s
    | some (true, iterator2, index2) =>
      match task_run_status index2 s with
      | none => none
      | some TASK_STATUS_DELETE_REQUESTED
      | some TASK_STATUS_REQUESTED
      | some TASK_STATUS_RUNNING
      | some TASK_STATUS_STOP_REQUESTED =>
        init_manage_loop fuel iterator2 index2
          (set_task_run_status index2 TASK_STATUS_STOPPED s)
      | some _ => init_manage_loop fuel iterator2 index2 s

/-- The run status `init_manage` leaves a task in, by its run status before. -/
def restart_status : task_status_t → task_status_t
  | TASK_STATUS_DELETE_REQUESTED => TASK_STATUS_STOPPED
  | TASK_STATUS_REQUESTED => TASK_STATUS_STOPPED
  | TASK_STATUS_RUNNING => TASK_STATUS_STOPPED
  | TASK_STATUS_STOP_REQUESTED => TASK_STATUS_STOPPED
  | status => status

/-- The rows of `tasks` after the loop of `init_manage` has visited the
tasks `ids`. -/
def restart_tasks (ids : List Int) (t : Table tasks_row) : Table tasks_row :=
  t.map (fun r =>
    if r.1 ∈ ids then (r.1, { r.2 with run_status := restart_status r.2.run_status }) else r)

/-- Part from "Ensure the tables exist" to the end of `init_manage`. -/
def init_manage_rest (ndebug : Bool) (s : State) : Option (Int × State) :=
  match init_manage_setup s with
  | none => none
  | some s1 =>
    -- assert (current_credentials.username == NULL);
    if ¬ ndebug ∧ s1.username ≠ none then none
    else
      match init_task_iterator s1 with
      | none => none
      | some iterator =>
        (init_manage_loop (iterator.stmt.pending.length + 1) iterator 0 s1).map
          (fun s2 => (0, s2))

/-- Embedding of `init_manage (log_config)` on an opened database: the return code and
the state afterwards.  `ndebug` tells whether assertions are compiled out. -/
def init_manage (ndebug : Bool) (s : State) : Option (Int × State) :=
  match database_version s with
  | some v => if v ≠ DATABASE_VERSION then some (-2, s) else init_manage_rest ndebug s
  | none => init_manage_rest ndebug s

/-! ## Configs: the RC file reader -/

/-- C `strchr (mem, c)` for a byte `c` other than NUL: the offset of the
first `c` before the first NUL, if any. -/
def strchr : List Nat → Nat → Option Nat
  | [], _ => none
  | x :: rest, c =>
    if x = c then some 0 else if x = 0 then none else (strchr rest c).map (· + 1)

/-- C `memchr (mem, c, n)`: the offset of the first `c` among the first `n`
bytes, if any. -/
def memchr : List Nat → Nat → Nat → Option Nat
  | [], _, _ => none
  | _, _, 0 => none
  | x :: rest, c, n + 1 => if x = c then some 0 else (memchr rest c n).map (· + 1)

/-- C `tolower` on ASCII. -/
def tolower (c : Nat) : Nat := if 65 ≤ c ∧ c ≤ 90 then c + 32 else c

/-- Embedding of `strncmp (mem, lit, strlen (lit)) == 0` for a literal without NUL. -/
def strncmp_eq (mem lit : List Nat) : Bool := decide (mem.take lit.length = lit)

/-- Embedding of `strncasecmp (mem, lit, strlen (lit)) == 0` for a lower case literal
without NUL. -/
def strncasecmp_eq (mem lit : List Nat) : Bool :=
  decide ((mem.take lit.length).map tolower = lit)

/-- Embedding of `strcasecmp (a, b) == 0` on two strings. -/
def strcasecmp_eq (a b : List Nat) : Bool := decide (a.map tolower = b.map tolower)

/-- The conversion of a pointer difference to `size_t`. -/
def size_t (v : Int) : Nat := (v % 2 ^ 64).toNat

/-- Embedding of `rc_end = eq; rc_end--; while (*rc_end == 32) rc_end--; rc_end++;`
for `eq` at offset `eq` of the buffer: the final `rc_end`; `none` when the
scan leaves the buffer at its start. -/
def trim_back (buf : List Nat) : Nat → Option Nat
  | 0 => none
  | i + 1 =>
    match buf.get? i with
    | none => none
    | some c => if c = 32 then trim_back buf i else some (i + 1)

/-- Embedding of `while (*rc == 32) rc++;`: the final `rc`. -/
def skip_spaces (buf : List Nat) (rc : Nat) : Nat :=
  rc + ((buf.drop rc).takeWhile (fun c => decide (c = 32))).length

/-- The local variables of `insert_rc_into_config` that outlive a line: the
text buffer (the code stores NUL bytes in it), the arrays `yes` and `no` of
pointers into the buffer (as offsets), `family_count`, and the store. -/
structure rc_state where
  buf : List Nat
  yes : List Nat
  no : List Nat
  family_count : Int
  s : State
  deriving DecidableEq, Repr

/-- The body of `if (eq)` (outside a section) and of `if (eq2)` (inside a
generic section): trim the name, quote name and value, and insert the
preference with the given `type`.  `rc`, `eq` and `seek` are offsets into the
buffer, `seek` being the newline that ends the line, if any.  The statement
is `INSERT OR REPLACE INTO config_preferences`; the table is created as
`config_preferences (config INTEGER, type, name, value)`, with no UNIQUE
column and no index, so no row conflicts with the new one and the statement
adds a row. -/
def rc_preference (config : Int) (type : Option (List Nat)) (st : rc_state)
    (rc eq : Nat) (seek : Option Nat) : Option rc_state :=
  match trim_back st.buf eq with
  | none => none
  | some rc_end =>
    let rc := skip_spaces st.buf rc
    if rc < rc_end then
      let value_length : Option Nat :=
        match seek with
        | some seek => some (size_t ((seek : Int) - ((eq : Int) + 2)))
        | none => strlen (st.buf.drop (eq + 2))
      match sql_quoted_literal (sql_nquote (st.buf.drop rc) (rc_end - rc)),
            sql_quoted_literal (value_length.bind (sql_nquote (st.buf.drop (eq + 2)))) with
      | some name, some value =>
        some { st with s := { st.s with db := { st.s.db with
          config_preferences := st.s.db.config_preferences.insert
            { config := some config, type := type, name := some name,
              value := some value } } } }
      | _, _ => none
    else some st

/-- The body of `if (eq2)` inside a PLUGIN_SET or SCANNER_SET section: the
name is terminated in place, its family is looked up in `nvts` and counted
when the hash table `families` of the section does not hold it yet, and the
pointer to the name goes to `yes` when the value is "yes" (in any case),
else to `no`. -/
def rc_plugin_line (st : rc_state) (families : List (List Nat)) (rc eq2 seek : Nat) :
    Option (rc_state × List (List Nat)) :=
  match trim_back st.buf eq2 with
  | none => none
  | some rc_end =>
    let rc := skip_spaces st.buf rc
    if rc < rc_end then
      let value_len : Int := (seek : Int) - ((eq2 : Int) + 2)
      let buf := st.buf.set rc_end 0
      match (c_string (buf.drop rc)).bind sql_raw_literal with
      | none => none
      | some oid =>
        let family := sql_string
          ((st.s.db.nvts.filter (fun r => sql_eq r.2.oid (some oid))).map (fun r => r.2.family))
        let counted : List (List Nat) × Int :=
          match family with
          | none => (families, st.family_count)
          | some family =>
            if family ∈ families then (families, st.family_count)
            else (family :: families, st.family_count + 1)
        if value_len = 3 ∧ strncasecmp_eq (buf.drop (eq2 + 2)) (str "yes") = true then
          some ({ st with buf := buf, family_count := counted.2, yes := st.yes ++ [rc] },
                counted.1)
        else
          some ({ st with buf := buf, family_count := counted.2, no := st.no ++ [rc] },
                counted.1)
    else some (st, families)

/-- The loop over the lines of a PLUGIN_SET or SCANNER_SET section, with a
bound on the number of lines: the state and the value of `seek` when the
loop ends (NULL at the end of the text, the newline of the `end(` line
after a break). -/
def rc_plugin_section : Nat → rc_state → List (List Nat) → Nat →
    Option (rc_state × Option Nat)
  | 0, _, _, _ => none
  | fuel + 1, st, families, rc =>
    match (strchr (st.buf.drop rc) 10).map (· + rc) with
    | none => some (st, none)
    | some seek =>
      if seek - rc > 5 ∧ strncmp_eq (st.buf.drop rc) (str "end(") = true then
        some (st, some seek)
      else
        match (memchr (st.buf.drop rc) 61 (seek - rc)).map (· + rc) with
        | some eq2 =>
          match rc_plugin_line st families rc eq2 seek with
          | none => none
          | some (st2, families2) => rc_plugin_section fuel st2 families2 (seek + 1)
        | none => rc_plugin_section fuel st families (seek + 1)

/-- The loop over the lines of a generic section named `section_name`, with
a bound on the number of lines. -/
def rc_section : Nat → Int → Option (List Nat) → rc_state → Nat →
    Option (rc_state × Option Nat)
  | 0, _, _, _, _ => none
  | fuel + 1, config, section_name, st, rc =>
    match (strchr (st.buf.drop rc) 10).map (· + rc) with
    | none => some (st, none)
    | some seek =>
      if seek - rc > 5 ∧ strncmp_eq (st.buf.drop rc) (str "end(") = true then
        some (st, some seek)
      else
        match (memchr (st.buf.drop rc) 61 (seek - rc)).map (· + rc) with
        | some eq2 =>
          match rc_preference config section_name st rc eq2 (some seek) with
          | none => none
          | some st2 => rc_section fuel config section_name st2 (seek + 1)
        | none => rc_section fuel config section_name st (seek + 1)

/-- The test of `insert_rc_into_config` for the line `begin(NAME)` of one
of the two plugin sections, `NAME` being PLUGIN_SET or SCANNER_SET. -/
def is_plugin_begin (buf : List Nat) (rc : Nat) (seek : Option Nat) (name : List Nat) : Bool :=
  (match seek with
    | some seek => decide (seek - rc ≥ 7 + name.length)
    | none => false)
  && strncmp_eq (buf.drop rc) (str "begin(")
  && strncmp_eq (buf.drop (rc + 6)) name
  && decide (buf.get? (rc + 6 + name.length) = some 41)

/-- The `while (1)` loop of `insert_rc_into_config` over the lines of the
text, with a bound on the number of lines. -/
def rc_lines : Nat → Int → rc_state → Nat → Option rc_state
  | 0, _, _, _ => none
  | fuel + 1, config, st, rc =>
    let seek := (strchr (st.buf.drop rc) 10).map (· + rc)
    let eq :=
      match seek with
      | some seek => (memchr (st.buf.drop rc) 61 (seek - rc)).map (· + rc)
      | none => (strchr (st.buf.drop rc) 61).map (· + rc)
    let after : Option (rc_state × Option Nat) :=
      match eq with
      | some eq => (rc_preference config none st rc eq seek).map (fun st2 => (st2, seek))
      | none =>
        if is_plugin_begin st.buf rc seek (str "PLUGIN_SET")
            || is_plugin_begin st.buf rc seek (str "SCANNER_SET") then
          match seek with
          | some seek => rc_plugin_section (st.buf.length + 1) st [] (seek + 1)
          | none => some (st, none)
        else
          match seek with
          | some seek =>
            if seek - rc > 7 ∧ strncmp_eq (st.buf.drop rc) (str "begin(") = true then
              match sql_nquote (st.buf.drop (rc + 6)) (seek - (rc + 6) - 1) with
              | none => none
              | some section_name =>
                match sql_unquote section_name with
                | none => none
                | some type => rc_section (st.buf.length + 1) config (some type) st (seek + 1)
            else some (st, some seek)
          | none => some (st, none)
    match after with
    | none => none
    | some (st2, none) => some st2
    | some (st2, some seek) => rc_lines fuel config st2 (seek + 1)

/-- Embedding of `config_preference (config, type, preference)`.  The query does not
restrict the rows to `config`, and with `type` NULL its condition is
`type = NULL`, which is true for no row. -/
def config_preference (_config : Int) (type : Option (List Nat)) (preference : List Nat)
    (s : State) : Option (List Nat) :=
  match type with
  | some type =>
    sql_string ((s.db.config_preferences.filter (fun r =>
        sql_eq r.2.type (sql_raw_literal type) && sql_eq r.2.name (sql_raw_literal preference))).map
      (fun r => r.2.value))
  | none =>
    sql_string ((s.db.config_preferences.filter (fun r =>
        sql_eq r.2.type none && sql_eq r.2.name (sql_raw_literal preference))).map
      (fun r => r.2.value))

/-- Embedding of `clude (config_name, array, array_size, exclude)`: one row of type 2
(NVT) in `nvt_selectors` for each pointer of the array, bound to the C
string at the pointer.  `selector` is the text that `'%s'` filled with
`config_name` denotes. -/
def clude (selector : List Nat) (buf : List Nat) (array : List Nat) (exclude : Int)
    (s : State) : State :=
  { s with db := { s.db with
    nvt_selectors := array.foldl
      (fun t ptr =>
        t.insert { name := some selector, exclude := some exclude, type := some 2,
                   family_or_nvt :=
                     match c_string (buf.drop ptr) with
                     | some id => sql_value.text id
                     | none => sql_value.null })
      s.db.nvt_selectors } }

/-- The last block of `insert_rc_into_config`: the selector rules and the
cached counts and growth flags of the config, by the preference
auto_enable_new_plugins. -/
def rc_finish (config : Int) (selector : List Nat) (st : rc_state) : State :=
  let auto_enable := config_preference config none (str "auto_enable_new_plugins") st.s
  if auto_enable.isSome ∧ auto_enable ≠ some (str "no") ∧ auto_enable ≠ some (str "0") then
    let s : State := { st.s with db := { st.s.db with
      nvt_selectors := st.s.db.nvt_selectors.insert
        { name := some selector, exclude := some 0, type := some 0,
          family_or_nvt := sql_value.integer 0 } } }
    let s := clude selector st.buf st.no 1 s
    { s with db := { s.db with
      configs := s.db.configs.update (fun r => sql_eq r.2.name (some selector))
        (fun r => { r with families_growing := some 1, nvts_growing := some 1 }) } }
  else
    let s := clude selector st.buf st.yes 0 st.s
    let s := clude selector st.buf st.no 1 s
    { s with db := { s.db with
      configs := s.db.configs.update (fun r => sql_eq r.2.name (some selector))
        (fun r => { r with nvt_count := some (st.yes.length : Int),
                           family_count := some st.family_count,
                           families_growing := some 0, nvts_growing := some 0 }) } }

/-- Embedding of `insert_rc_into_config (config, config_name, rc)`: the return code and
the state afterwards.  `config_name` is the quoted name that `create_config`
passes, `rc` the text (without its terminator), either may be NULL. -/
def insert_rc_into_config (config : Int) (config_name : Option (List Nat))
    (rc : Option (List Nat)) (s : State) : Option (Int × State) :=
  match rc with
  | none => some (-1, s)
  | some rc =>
    match config_name with
    | none => some (-1, s)
    | some config_name =>
      match rc_lines (rc.length + 2) config
          { buf := rc ++ [0], yes := [], no := [], family_count := 0, s := s } 0 with
      | none => none
      | some st =>
        match sql_unquote config_name with
        | none => none
        | some selector => some (0, rc_finish config selector st)

/-- Embedding of `create_config (name, comment, rc)`: the return code and the state
afterwards. -/
def create_config (name : List Nat) (comment : Option (List Nat)) (rc : Option (List Nat))
    (s : State) : Option (Int × State) :=
  let quoted_name := sql_nquote (name ++ [0]) name.length
  match sql_begin s, sql_quoted_literal quoted_name with
  | some s, some name_lit =>
    if sql_int (s.db.configs.count (fun r => sql_eq r.2.name (some name_lit))) ≠ some 0 then
      (sql_commit s).map (fun s => (1, s))
    else if sql_int (s.db.nvt_selectors.count (fun r => sql_eq r.2.name (some name_lit)))
        ≠ some 0 then
      (sql_commit s).map (fun s => (-1, s))
    else
      let comment_lit : Option (List Nat) :=
        match comment with
        | some comment => sql_quoted_literal (sql_nquote (comment ++ [0]) comment.length)
        | none => some []
      match comment_lit with
      | none => none
      | some comment_lit =>
        let config := s.db.configs.next_rowid
        let s : State := { s with db := { s.db with
          configs := s.db.configs.insert
            { name := some name_lit, nvt_selector := some name_lit,
              comment := some comment_lit, family_count := none, nvt_count := none,
              families_growing := none, nvts_growing := none } } }
        match insert_rc_into_config config quoted_name rc s with
        | none => none
        | some (ret, s) =>
          if ret ≠ 0 then (sql_commit s).map (fun s => (-1, s))
          else (sql_commit s).map (fun s => (0, s))
  | _, _ => none

/-- Embedding of `delete_config (name)`: the return code and the state afterwards. -/
def delete_config (name : List Nat) (s : State) : Option (Int × State) :=
  let quoted_name := sql_nquote (name ++ [0]) name.length
  match sql_begin s, sql_quoted_literal quoted_name with
  | some s, some name_lit =>
    if sql_int (s.db.tasks.count (fun r => sql_eq r.2.config (some name_lit))) ≠ some 0 then
      (sql_commit s).map (fun s => (1, s))
    else
      let config : Option Int :=
        ((s.db.configs.filter (fun r => sql_eq r.2.name (some name_lit))).map
          (fun r => r.1)).head?
      let s : State := { s with db := { s.db with
        nvt_selectors := s.db.nvt_selectors.delete (fun r => sql_eq r.2.name (some name_lit))
        config_preferences := s.db.config_preferences.delete
          (fun r => sql_eq r.2.config config) } }
      let s : State := { s with db := { s.db with
        configs := s.db.configs.delete (fun r => sql_eq r.2.name (some name_lit)) } }
      (sql_commit s).map (fun s => (0, s))
  | _, _ => none

/-! ## Reports -/

/-- Embedding of `make_report (task, uuid)`: the new ROWID (`sqlite3_last_insert_rowid`)
and the state afterwards.  `now` is the value of `time (NULL)`. -/
def make_report (now : Int) (task : Int) (uuid : List Nat) (s : State) :
    Option (Int × State) :=
  (sql_raw_literal uuid).map (fun uuid =>
    (s.db.reports.next_rowid,
     { s with db := { s.db with
        reports := s.db.reports.insert
          { uuid := some uuid, hidden := some 0, task := some task, date := some now,
            start_time := none, end_time := none, nbefile := some [], comment := some [],
            scan_run_status := none } } }))

/-- Embedding of `create_report (task)`: the return code and the state afterwards.
`make_report_uuid` is the answer of the function of that name, which is
declared outside this file (NULL on failure); `ndebug` tells whether
assertions are compiled out. -/
def create_report (ndebug : Bool) (make_report_uuid : Option (List Nat)) (now : Int)
    (task : Int) (s : State) : Option (Int × State) :=
  -- assert (current_report == (report_t) 0);
  if ¬ ndebug ∧ s.current_report ≠ 0 then none
  else if s.current_report ≠ 0 then some (-1, s)
  else
    match make_report_uuid with
    | none => some (-2, s)
    | some report_id =>
      (make_report now task report_id s).map
        (fun r => (0, { r.2 with current_report := r.1 }))

/-- The rows of `FROM results, report_results WHERE results.ROWID =
report_results.result AND report_results.report = report`: the result of
each matching pair of rows.  `report` is NULL when it comes from a subquery
without a row. -/
def report_result_rows (report : Option Int) (s : State) : List (Int × results_row) :=
  s.db.results.flatMap (fun r =>
    (s.db.report_results.filter (fun rr =>
      sql_eq rr.2.result (some r.1) && sql_eq rr.2.report report)).map (fun _ => r))

/-- Embedding of `report_warnings (report, host, warnings)`: the return code and the
contents of `*warnings`.  With a host the statement has a `'%s'` for which no
argument is passed, which is not described here (`none`). -/
def report_warnings (report : Int) (host : Option (List Nat)) (s : State) :
    Option (Int × Int) :=
  match host with
  | some _ => none
  | none =>
    (sql_int [some (((report_result_rows (some report) s).filter
        (fun r => sql_eq r.2.type (some (str "Security Warning")))).length : Int)]).map
      (fun warnings => (0, warnings))

/-- Embedding of the statement of the macro `REPORT_COUNT (var, name)`: the number of
results of type `name` that are linked to the report given by
`(SELECT ROWID FROM reports WHERE uuid = '%s')`. -/
def REPORT_COUNT (name report_id : List Nat) (s : State) : Option Int :=
  (sql_raw_literal report_id).bind (fun uuid =>
    let report : Option Int :=
      ((s.db.reports.filter (fun r => sql_eq r.2.uuid (some uuid))).map (fun r => r.1)).head?
    sql_int [some (((report_result_rows report s).filter
      (fun r => sql_eq r.2.type (some name))).length : Int)])

/-- The output parameters of `report_counts`. -/
structure message_counts where
  debugs : Int
  holes : Int
  infos : Int
  logs : Int
  warnings : Int
  deriving DecidableEq, Repr

/-- Embedding of `report_counts (report_id, debugs, holes, infos, logs, warnings)`: the
return code and the contents of the five output parameters. -/
def report_counts (report_id : List Nat) (s : State) : Option (Int × message_counts) :=
  match REPORT_COUNT (str "Debug Message") report_id s,
        REPORT_COUNT (str "Security Hole") report_id s,
        REPORT_COUNT (str "Security Warning") report_id s,
        REPORT_COUNT (str "Log Message") report_id s,
        REPORT_COUNT (str "Security Note") report_id s with
  | some debugs, some holes, some infos, some logs, some warnings =>
    some (0, { debugs := debugs, holes := holes, infos := infos, logs := logs,
               warnings := warnings })
  | _, _, _, _, _ => none

/-- The comparison of two texts by their bytes (`memcmp`, the shorter text
first when it is a prefix of the other). -/
def bytes_le : List Nat → List Nat → Bool
  | [], _ => true
  | _ :: _, [] => false
  | x :: xs, y :: ys => if x < y then true else if x = y then bytes_le xs ys else false

/-- The order of ORDER BY on a column of texts: NULL comes first. -/
def sql_le (a b : Option (List Nat)) : Bool :=
  match a, b with
  | none, _ => true
  | some _, none => false
  | some x, some y => bytes_le x y

/-- The order `ORDER BY port, type` on results. -/
def port_type_le (a b : Int × results_row) : Bool :=
  if a.2.port = b.2.port then sql_le a.2.type b.2.type else sql_le a.2.port b.2.port

/-- The order `ORDER BY host, port, type` on results. -/
def host_port_type_le (a b : Int × results_row) : Bool :=
  if a.2.host = b.2.host then port_type_le a b else sql_le a.2.host b.2.host

/-- The clause `LIMIT limit OFFSET offset`: a negative limit is no limit, a
negative offset is 0. -/
def sql_limit_offset {α : Type} (limit offset : Int) (rows : List α) : List α :=
  if limit < 0 then rows.drop offset.toNat else (rows.drop offset.toNat).take limit.toNat

/-- A text column value as a value of a result row. -/
def sql_text (v : Option (List Nat)) : sql_value :=
  match v with
  | some t => sql_value.text t
  | none => sql_value.null

/-- An integer column value as a value of a result row. -/
def sql_integer (v : Option Int) : sql_value :=
  match v with
  | some i => sql_value.integer i
  | none => sql_value.null

/-- The columns `subnet, host, port, nvt, type, description` of a result. -/
def result_columns (r : results_row) : List sql_value :=
  [sql_text r.subnet, sql_text r.host, sql_text r.port, sql_text r.nvt, sql_text r.type,
   sql_text r.description]

/-- Embedding of `init_result_iterator (iterator, report, host, first_result,
max_results)`: the iterator it sets up.  With a report and a host the rows
are the results of the report on the host, `ORDER BY port, type`; with a
report only, the results of the report, `ORDER BY host, port, type`; with
report 0 the statement is `SELECT * FROM results LIMIT %i OFFSET %i;`, whose
rows are all columns of `results` in the order of the table.  The sort keeps
rows that compare equal in the order of the scan. -/
def init_result_iterator (report : Int) (host : Option (List Nat))
    (first_result max_results : Int) (s : State) : Option iterator_t :=
  if report ≠ 0 then
    match host with
    | some host =>
      (sql_raw_literal host).map (fun host =>
        { stmt := prepare_rows
            ((sql_limit_offset max_results first_result
              (((report_result_rows (some report) s).filter
                (fun r => sql_eq r.2.host (some host))).insertionSort
                  (fun a b => port_type_le a b = true))).map
              (fun r => result_columns r.2)),
          done := false })
    | none =>
      some
        { stmt := prepare_rows
            ((sql_limit_offset max_results first_result
              ((report_result_rows (some report) s).insertionSort
                (fun a b => host_port_type_le a b = true))).map
              (fun r => result_columns r.2)),
          done := false }
  else
    some
      { stmt := prepare_rows
          ((sql_limit_offset max_results first_result s.db.results).map
            (fun r => sql_integer r.2.task :: result_columns r.2)),
        done := false }

/-- Embedding of the macro `DEF_ACCESS (name, col)`: the text of column `col` of the
current row, NULL when the iterator is done. -/
def DEF_ACCESS (col : Nat) (iterator : iterator_t) : Option (List Nat) :=
  if iterator.done then none else sqlite3_column_text iterator.stmt col

/-- Embedding of `DEF_ACCESS (subnet, 0)`. -/
def result_iterator_subnet (iterator : iterator_t) : Option (List Nat) := DEF_ACCESS 0 iterator

/-- Embedding of `DEF_ACCESS (host, 1)`. -/
def result_iterator_host (iterator : iterator_t) : Option (List Nat) := DEF_ACCESS 1 iterator

/-- Embedding of `DEF_ACCESS (port, 2)`. -/
def result_iterator_port (iterator : iterator_t) : Option (List Nat) := DEF_ACCESS 2 iterator

/-- Embedding of `DEF_ACCESS (nvt, 3)`. -/
def result_iterator_nvt (iterator : iterator_t) : Option (List Nat) := DEF_ACCESS 3 iterator

/-- Embedding of `DEF_ACCESS (type, 4)`. -/
def result_iterator_type (iterator : iterator_t) : Option (List Nat) := DEF_ACCESS 4 iterator

/-- Embedding of `DEF_ACCESS (descr, 5)`. -/
def result_iterator_descr (iterator : iterator_t) : Option (List Nat) := DEF_ACCESS 5 iterator

/-- The values an iterator yields: `f` of the iterator after each call of
`next` that returns TRUE, up to the first call that returns FALSE, with a
bound on the number of calls. -/
def iterate {α : Type} (f : iterator_t → α) : Nat → iterator_t → Option (List α)
  | 0, _ => none
  | fuel + 1, iterator =>
    match next iterator with
    | none => none
    | some (false, _) => some []
    | some (true, iterator2) => (iterate f fuel iterator2).map (f iterator2 :: ·)

/-! ## Task parameters and deletion -/

/-- Embedding of `%llu` applied to a `long long`: the decimal digits of the value read as
unsigned. -/
def format_llu (v : Int) : List Nat := (Nat.toDigits 10 (size_t v)).map Char.toNat

/-- Embedding of `set_task_parameter (task, parameter, value)`: the return code and the
text of the statement handed to `sql`, if any.  `g_base64_decode` is the
decoder of GLib. -/
def set_task_parameter (g_base64_decode : List Nat → List Nat) (task : Int)
    (parameter value : Option (List Nat)) : Option (Int × Option (List Nat)) :=
  match value, parameter with
  | none, _ => some (-3, none)
  | some _, none => some (-2, none)
  | some value, some parameter =>
    if strcasecmp_eq (str "RCFILE") parameter then
      let out := g_base64_decode value
      (sql_nquote (out ++ [0]) out.length).map (fun quote =>
        (0, some (str "UPDATE tasks SET description = '" ++ quote
                    ++ str "' WHERE ROWID = " ++ format_llu task ++ str ";")))
    else if strcasecmp_eq (str "NAME") parameter then
      (sql_nquote (value ++ [0]) value.length).map (fun _quote =>
        (0, some (str "UPDATE tasks SET name = '" ++ value
                    ++ str "' WHERE ROWID = " ++ format_llu task ++ str ";")))
    else if strcasecmp_eq (str "COMMENT") parameter then
      (sql_nquote (value ++ [0]) value.length).map (fun _quote =>
        (0, some (str "UPDATE tasks SET comment = '" ++ value
                    ++ str "' WHERE ROWID = " ++ format_llu task ++ str ";")))
    else some (-2, none)

/-- The query `SELECT hidden from tasks WHERE ROWID = %llu;` of
`request_delete_task` and `delete_task`, through `sql_int`. -/
def task_hidden (task : Int) (s : State) : Option Int :=
  sql_int ((s.db.tasks.filter (fun r => decide (r.1 = task))).map (fun r => r.2.hidden))

/-- Embedding of `delete_task (task)`: the return code and the state afterwards.
`delete_reports` is declared outside this file. -/
def delete_task (delete_reports : Int → State → Option (Int × State)) (task : Int)
    (s : State) : Option (Int × State) :=
  match task_hidden task s with
  | none => none
  | some hidden =>
    if hidden ≠ 0 then some (-1, s)
    else if s.username = none then some (-1, s)
    else
      -- task_uuid (task, &tsk_uuid) returns 0
      match delete_reports task s with
      | none => none
      | some (ret, s) =>
        if ret ≠ 0 then some (-1, s)
        else
          some (0, { s with db := { s.db with
            results := s.db.results.delete (fun r => sql_eq r.2.task (some task))
            tasks := s.db.tasks.delete (fun r => decide (r.1 = task)) } })

/-- Embedding of `request_delete_task (task_pointer)`: the return code and the state
afterwards.  `stop_task` and `delete_reports` are declared outside this
file; `ndebug` tells whether assertions are compiled out. -/
def request_delete_task (stop_task : Int → State → Option (Int × State))
    (delete_reports : Int → State → Option (Int × State)) (ndebug : Bool) (task : Int)
    (s : State) : Option (Int × State) :=
  match task_hidden task s with
  | none => none
  | some hidden =>
    if hidden ≠ 0 then some (2, s)
    else if s.username = none then some (-1, s)
    else
      match stop_task task s with
      | none => none
      | some (ret, s) =>
        if ret = 0 then
          -- the return value of delete_task is not checked
          (delete_task delete_reports task s).map (fun r => (0, r.2))
        else if ret = 1 then
          some (1, set_task_run_status task TASK_STATUS_DELETE_REQUESTED s)
        else if ret = -1 then some (-1, s)
        else if ndebug then some (-1, s)
        else none

/-- Modelled from the spec: `stop_task` is defined outside this file.
Section 4.5, Stop: a task that is REQUESTED or RUNNING goes to STOP_REQUESTED
(answer 1, stop requested); for a task that is not active stop is a
success without effect (answer 0). -/
def stop_task (task : Int) (s : State) : Option (Int × State) :=
  match task_run_status task s with
  | none => none
  | some TASK_STATUS_REQUESTED =>
    some (1, set_task_run_status task TASK_STATUS_STOP_REQUESTED s)
  | some TASK_STATUS_RUNNING =>
    some (1, set_task_run_status task TASK_STATUS_STOP_REQUESTED s)
  | some _ => some (0, s)

/-! ## Report hosts -/

/-- The conversion `%i` applies to an `unsigned int` argument: the value is
printed as a signed 32 bit number. -/
def format_i (v : Nat) : Int :=
  if v % 2 ^ 32 < 2 ^ 31 then ((v % 2 ^ 32 : Nat) : Int) else ((v % 2 ^ 32 : Nat) : Int) - 2 ^ 32

/-- The condition `report = %llu AND host = '%s'` on a row of
`report_hosts`. -/
def report_host_is (report : Int) (host : List Nat) (r : Int × report_hosts_row) : Bool :=
  sql_eq r.2.report (some report) && sql_eq r.2.host (some host)

/-- Embedding of `set_scan_host_end_time (report, host, timestamp)`: an UPDATE
of `end_time` when `report_hosts` has a row for the report and host, else an
INSERT of the report, the host and the end time.  Host and timestamp are not
quoted: with a host for which the first statement does not parse `sql_x`
returns -1 and `sql_int` calls `abort ()`; with a timestamp for which the
second statement does not parse `sql` calls `abort ()`.  The report is
printed with `%llu`: a negative report gives a number of 2^63 or more, which
SQLite reads as a floating point number; this is not described here. -/
def set_scan_host_end_time (report : Int) (host timestamp : List Nat) (s : State) :
    Option State :=
  if report < 0 then none
  else
    match sql_raw host with
    | raw_statement.literal host =>
      match sql_int (s.db.report_hosts.count (report_host_is report host)) with
      | none => none
      | some count =>
        match sql_raw timestamp with
        | raw_statement.literal timestamp =>
          if count ≠ 0 then
            some { s with db := { s.db with
              report_hosts := s.db.report_hosts.update (report_host_is report host)
                (fun r => { r with end_time := some timestamp }) } }
          else
            some { s with db := { s.db with
              report_hosts := s.db.report_hosts.insert
                { report := some report, host := some host, start_time := none,
                  end_time := some timestamp, attack_state := none, current_port := none,
                  max_port := none } } }
        | _ => none
    | _ => none

/-- Embedding of `set_scan_host_start_time (report, host, timestamp)`: an
UPDATE of `start_time` when `report_hosts` has a row for the report and host,
else an INSERT of the report, the host and the start time.  Host and
timestamp are not quoted: with a host for which the first statement does not
parse `sql_x` returns -1 and `sql_int` calls `abort ()`; with a timestamp for
which the second statement does not parse `sql` calls `abort ()`.  The report
is printed with `%llu`: a negative report gives a number of 2^63 or more,
which SQLite reads as a floating point number; this is not described here. -/
def set_scan_host_start_time (report : Int) (host timestamp : List Nat) (s : State) :
    Option State :=
  if report < 0 then none
  else
    match sql_raw host with
    | raw_statement.literal host =>
      match sql_int (s.db.report_hosts.count (report_host_is report host)) with
      | none => none
      | some count =>
        match sql_raw timestamp with
        | raw_statement.literal timestamp =>
          if count ≠ 0 then
            some { s with db := { s.db with
              report_hosts := s.db.report_hosts.update (report_host_is report host)
                (fun r => { r with start_time := some timestamp }) } }
          else
            some { s with db := { s.db with
              report_hosts := s.db.report_hosts.insert
                { report := some report, host := some host, start_time := some timestamp,
                  end_time := none, attack_state := none, current_port := none,
                  max_port := none } } }
        | _ => none
    | _ => none

/-- Embedding of `set_scan_attack_state (report, host, state)`: the single
statement `UPDATE report_hosts SET attack_state = '%s' WHERE host = '%s' AND
report = %llu;`. -/
def set_scan_attack_state (report : Int) (host state : List Nat) (s : State) : Option State :=
  match sql_raw_literal host, sql_raw_literal state with
  | some host, some state =>
    some { s with db := { s.db with
      report_hosts := s.db.report_hosts.update (report_host_is report host)
        (fun r => { r with attack_state := some state }) } }
  | _, _ => none

/-- Embedding of `set_scan_ports (report, host, current, max)`: the single
statement `UPDATE report_hosts SET current_port = %i, max_port = %i WHERE
host = '%s' AND report = %llu;`. -/
def set_scan_ports (report : Int) (host : List Nat) (current max : Nat) (s : State) :
    Option State :=
  match sql_raw_literal host with
  | some host =>
    some { s with db := { s.db with
      report_hosts := s.db.report_hosts.update (report_host_is report host)
        (fun r => { r with current_port := some (format_i current),
                           max_port := some (format_i max) }) } }
  | none => none

/-! ## NVT selectors -/

/-- NVT selector type for the "all" rule. -/
def NVT_SELECTOR_TYPE_ALL : Int := 0

/-- NVT selector type for the "family" rule. -/
def NVT_SELECTOR_TYPE_FAMILY : Int := 1

/-- NVT selector type for the "NVT" rule. -/
def NVT_SELECTOR_TYPE_NVT : Int := 2

/-- Embedding of `nvt_cache_present ()`:
`sql_int (0, 0, "SELECT count(value) FROM meta WHERE name = 'nvts_md5sum' LIMIT 1;")`;
`count(value)` counts the rows whose value is not NULL. -/
def nvt_cache_present (s : State) : Option Int :=
  sql_int (s.db.meta.count
    (fun r => sql_eq r.2.name (some (str "nvts_md5sum")) && r.2.value.isSome))

/-- Embedding of `nvts_size ()`: `sql_int (0, 0, "SELECT count(*) FROM nvts;")`. -/
def nvts_size (s : State) : Option Int :=
  sql_int (s.db.nvts.count (fun _ => true))

/-- Embedding of `nvt_selector_families_growing (selector)`: 1 when the query
for a row of the selector with type ALL and `exclude = 0` gives a string,
else 0.  The name is not quoted: when the statement does not parse `sql_x`
returns -1, `sql_string` returns NULL and the answer is 0. -/
def nvt_selector_families_growing (selector : List Nat) (s : State) : Option Int :=
  match sql_raw selector with
  | raw_statement.literal name =>
    some (match sql_string ((s.db.nvt_selectors.filter (fun r =>
        sql_eq r.2.name (some name) && sql_eq r.2.type (some NVT_SELECTOR_TYPE_ALL)
          && sql_eq r.2.exclude (some 0))).map (fun r => r.2.name)) with
    | none => 0
    | some _ => 1)
  | raw_statement.malformed => some 0
  | _ => none

/-- Embedding of `nvt_selector_nvts_growing (selector)`: 1 when the query for
a row of the selector with `exclude = 0` and type ALL or FAMILY gives a
string, else 0.  The name is not quoted: when the statement does not parse
`sql_x` returns -1, `sql_string` returns NULL and the answer is 0. -/
def nvt_selector_nvts_growing (selector : List Nat) (s : State) : Option Int :=
  match sql_raw selector with
  | raw_statement.literal name =>
    some (match sql_string ((s.db.nvt_selectors.filter (fun r =>
        sql_eq r.2.name (some name) && sql_eq r.2.exclude (some 0)
          && (sql_eq r.2.type (some NVT_SELECTOR_TYPE_ALL)
              || sql_eq r.2.type (some NVT_SELECTOR_TYPE_FAMILY)))).map (fun r => r.2.name)) with
    | none => 0
    | some _ => 1)
  | raw_statement.malformed => some 0
  | _ => none

/-- Embedding of `config_nvts_growing (config)`:
`sql_int (0, 0, "SELECT nvts_growing FROM configs WHERE name = '%s' LIMIT 1;", config)`. -/
def config_nvts_growing (config : List Nat) (s : State) : Option Int :=
  (sql_raw_literal config).bind (fun name =>
    sql_int ((s.db.configs.filter (fun r => sql_eq r.2.name (some name))).map
      (fun r => r.2.nvts_growing)))

/-- Embedding of `config_families_growing (config)`:
`sql_int (0, 0, "SELECT families_growing FROM configs WHERE name = '%s' LIMIT 1;", config)`. -/
def config_families_growing (config : List Nat) (s : State) : Option Int :=
  (sql_raw_literal config).bind (fun name =>
    sql_int ((s.db.configs.filter (fun r => sql_eq r.2.name (some name))).map
      (fun r => r.2.families_growing)))

/-- The two counts that `nvt_selector_nvt_count` and
`nvt_selector_family_count` compare with 1: the number of rules of the
selector and the number of its rules of type ALL. -/
def selector_rule_counts (name : List Nat) (s : State) : Option Int × Option Int :=
  (sql_int (s.db.nvt_selectors.count (fun r => sql_eq r.2.name (some name))),
   sql_int (s.db.nvt_selectors.count (fun r =>
     sql_eq r.2.name (some name) && sql_eq r.2.type (some NVT_SELECTOR_TYPE_ALL))))

/-- Embedding of `nvt_selector_nvt_count (selector, config)`: for a config
marked growing the number of rows of `nvts` when the cache is present and
the selector consists of one rule of type ALL, else -1; for another config
the cached `nvt_count`. -/
def nvt_selector_nvt_count (selector config : List Nat) (s : State) : Option Int :=
  match config_nvts_growing config s with
  | none => none
  | some growing =>
    if growing ≠ 0 then
      match nvt_cache_present s with
      | none => none
      | some present =>
        if present ≠ 0 then
          match sql_raw_literal selector with
          | none => none
          | some name =>
            if (selector_rule_counts name s).1 = some 1
                ∧ (selector_rule_counts name s).2 = some 1 then
              sql_int (s.db.nvts.count (fun _ => true))
            else some (-1)
        else some (-1)
    else
      (sql_raw_literal config).bind (fun name =>
        sql_int ((s.db.configs.filter (fun r => sql_eq r.2.name (some name))).map
          (fun r => r.2.nvt_count)))

/-- Embedding of `sqlite3_column_int (stmt, col)`: the low 32 bits of the integer, read
as a signed number. -/
def sqlite3_column_int (stmt : sqlite3_stmt) (col : Nat) : Int :=
  let v := sqlite3_column_int64 stmt col % 2 ^ 32
  if v < 2 ^ 31 then v else v - 2 ^ 32

/-- Embedding of `init_nvt_selector_iterator (iterator, selector, type)`: the iterator
on `SELECT * FROM nvt_selectors WHERE name = '%s' AND type = %i;`, whose
columns are name, exclude, type and family_or_nvt; `none` when the assertion
`type >= 0 && type <= 2` fails.  `ndebug` tells whether assertions are
compiled out. -/
def init_nvt_selector_iterator (ndebug : Bool) (selector : List Nat) (type : Int)
    (s : State) : Option iterator_t :=
  if ¬ ndebug ∧ ¬ (0 ≤ type ∧ type ≤ 2) then none
  else
    (sql_raw_literal selector).map (fun name =>
      { stmt := prepare_rows
          ((s.db.nvt_selectors.filter (fun r =>
              sql_eq r.2.name (some name) && sql_eq r.2.type (some type))).map
            (fun r => [sql_text r.2.name, sql_integer r.2.exclude, sql_integer r.2.type,
                       r.2.family_or_nvt])),
        done := false })

/-- Embedding of `nvt_selector_iterator_include (iterator)`: -1 when the iteration is
complete, 1 for an include rule (column `exclude` is 0), else 0. -/
def nvt_selector_iterator_include (iterator : iterator_t) : Int :=
  if iterator.done then -1
  else if sqlite3_column_int iterator.stmt 1 = 0 then 1 else 0

/-- Embedding of `DEF_ACCESS (nvt_selector_iterator_nvt, 3)`. -/
def nvt_selector_iterator_nvt (iterator : iterator_t) : Option (List Nat) :=
  DEF_ACCESS 3 iterator

/-- What the two accessors give on the row of a rule: the include flag and
the family or NVT. -/
def selector_rule (r : nvt_selectors_row) : Int × Option (List Nat) :=
  (nvt_selector_iterator_include
     { stmt := { pending := [], row := [sql_text r.name, sql_integer r.exclude,
                   sql_integer r.type, r.family_or_nvt], steps := 0 },
       done := false },
   nvt_selector_iterator_nvt
     { stmt := { pending := [], row := [sql_text r.name, sql_integer r.exclude,
                   sql_integer r.type, r.family_or_nvt], steps := 0 },
       done := false })

/-- Modelled from the spec: the function that resolves a selector to its
set of NVTs is not in `tasks_sql.h`, which has the iterator on the rules of
one type and its two accessors only.  This is the first step of the
resolution of section 4.3: the rules of one type of the selector, read with
that iterator, each as its include flag and its family or NVT. -/
def nvt_selector_rules (ndebug : Bool) (selector : List Nat) (type : Int) (s : State) :
    Option (List (Int × Option (List Nat))) :=
  (init_nvt_selector_iterator ndebug selector type s).bind (fun iterator =>
    iterate (fun i => (nvt_selector_iterator_include i, nvt_selector_iterator_nvt i))
      (iterator.stmt.pending.length + 1) iterator)

/-- Modelled from the spec: what the rules of one type say about a target,
for the resolution that is missing from `tasks_sql.h`.  `applies` tells
whether a rule is for the target.  Section 9: among contradictory rules of
one type the last one in insertion order decides; without a rule for the
target the type says nothing. -/
def rules_decision (rules : List (Int × Option (List Nat)))
    (applies : Option (List Nat) → Bool) : Option Bool :=
  (rules.filter (fun r => applies r.2)).getLast?.map (fun r => decide (r.1 = 1))

/-- Modelled from the spec: whether the rules select an NVT, for the
resolution that is missing from `tasks_sql.h`.  Section 4.3: the rule types
are, in increasing specificity, ALL, FAMILY (the NVTs of one family) and NVT
(one NVT by OID), and a more specific rule overrides a less specific one for
the same target; an NVT that no rule is for is not selected. -/
def rules_select (all families nvts : List (Int × Option (List Nat))) (nvt : nvts_row) :
    Bool :=
  match rules_decision nvts (fun t => sql_eq t nvt.oid) with
  | some d => d
  | none =>
    match rules_decision families (fun t => sql_eq t nvt.family) with
    | some d => d
    | none => (rules_decision all (fun _ => true)).getD false

/-- Modelled from the spec: the effective set of NVTs of a selector (section
4.3), whose computation is missing from `tasks_sql.h`: the rows of `nvts`
that the rules of the selector select. -/
def nvt_selector_nvts (ndebug : Bool) (selector : List Nat) (s : State) :
    Option (List (Int × nvts_row)) :=
  match nvt_selector_rules ndebug selector NVT_SELECTOR_TYPE_ALL s,
        nvt_selector_rules ndebug selector NVT_SELECTOR_TYPE_FAMILY s,
        nvt_selector_rules ndebug selector NVT_SELECTOR_TYPE_NVT s with
  | some all, some families, some nvts =>
    some (s.db.nvts.filter (fun r => rules_select all families nvts r.2))
  | _, _, _ => none

/-! ## Example stores -/

/-- The database with no row in any table. -/
def empty_tables : Tables :=
  { meta := [], users := [], nvt_selectors := [], configs := [], config_preferences := [],
    tasks := [], results := [], reports := [], report_hosts := [], report_results := [],
    targets := [], nvts := [] }

/-- The empty database, outside a transaction, with no current user, task or
report. -/
def empty_store : State :=
  { db := empty_tables, transaction := none, username := none, current_server_task := 0,
    current_report := 0 }

/-- An RC text that enables new plugins automatically and switches one NVT
off. -/
def auto_enable_rc : List Nat :=
  str ("auto_enable_new_plugins = yes\n"
    ++ "begin(PLUGIN_SET)\n"
    ++ " 1.3.6.1.4.1.25623.1.0.10330 = no\n"
    ++ "end(PLUGIN_SET)\n")

/-- A task row with the given owner, hidden flag, run status and config. -/
def task_row (owner : Option Int) (hidden : Int) (run_status : task_status_t)
    (config : List Nat) : tasks_row :=
  { uuid := none, name := some (str "scan"), hidden := some hidden, time := some 0,
    comment := some [], description := none, owner := owner, run_status := run_status,
    start_time := none, end_time := none, config := some config,
    target := some (str "Localhost") }

/-- A store of schema version 0 with two users and one task in each of the
seven run states, owned by different users or by nobody. -/
def restart_store : State :=
  { empty_store with db := { empty_tables with
      meta := [(1, { name := some (str "database_version"), value := some (str "0") })]
      users := [(1, { name := some (str "om"), password := some [] }),
                (2, { name := some (str "alice"), password := none })]
      tasks := [(1, task_row (some 1) 0 TASK_STATUS_REQUESTED (str "Full and fast")),
                (2, task_row (some 2) 0 TASK_STATUS_RUNNING (str "Full and fast")),
                (3, task_row (some 2) 0 TASK_STATUS_STOP_REQUESTED (str "Full and fast")),
                (4, task_row none 0 TASK_STATUS_DELETE_REQUESTED (str "Full and fast")),
                (5, task_row (some 1) 1 TASK_STATUS_DONE (str "Full and fast")),
                (6, task_row (some 2) 0 TASK_STATUS_STOPPED (str "Full and fast")),
                (9, task_row none 0 TASK_STATUS_NEW (str "Full and fast"))] } }

/-- A store where user alice is logged in and owns the running task 1, which
has a report in progress with one result; task 2 is a hidden task. -/
def running_store : State :=
  { empty_store with
    username := some (str "alice")
    db := { empty_tables with
      users := [(1, { name := some (str "alice"), password := none })]
      configs := [(1, { name := some (str "Full and fast"), nvt_selector := some (str "All"),
                        comment := some [], family_count := none, nvt_count := none,
                        families_growing := some 1, nvts_growing := some 1 })]
      config_preferences := [(1, { config := some 1, type := some (str "SERVER_PREFS"),
                                   name := some (str "max_hosts"), value := some (str "20") })]
      nvt_selectors := [(1, { name := some (str "All"), exclude := some 0, type := some 0,
                              family_or_nvt := sql_value.null })]
      tasks := [(1, task_row (some 1) 0 TASK_STATUS_RUNNING (str "Full and fast")),
                (2, task_row none 1 TASK_STATUS_DONE (str "Full and fast"))]
      reports := [(1, { uuid := some (str "r1"), hidden := some 0, task := some 1,
                        date := some 1251236905, start_time := some (str "now"),
                        end_time := none, nbefile := some [], comment := some [],
                        scan_run_status := some TASK_STATUS_RUNNING })]
      results := [(1, { task := some 1, subnet := some [], host := some (str "localhost"),
                        port := some (str "telnet (23/tcp)"), nvt := some (str "1.2.3"),
                        type := some (str "Security Note"), description := some [] })]
      report_results := [(1, { report := some 1, result := some 1 })] } }

/-- An iterator on a statement that answers BUSY, one row, BUSY and then
DONE. -/
def example_iterator : iterator_t :=
  { stmt := { pending := [(SQLITE_BUSY, []), (SQLITE_ROW, [sql_value.integer 7]),
                          (SQLITE_BUSY, [sql_value.integer 7]), (SQLITE_DONE, [])],
              row := [], steps := 0 },
    done := false }

/-- The rows of the tables `tasks`, `reports`, `report_results`,
`report_hosts` and `results` of `s` all exist in `s2`: no ROWID of `tasks` or
`reports` is gone, and the other three tables are the same. -/
def nothing_deleted (s s2 : State) : Prop :=
  s2.db.tasks.map Prod.fst = s.db.tasks.map Prod.fst
    ∧ s2.db.reports.map Prod.fst = s.db.reports.map Prod.fst
    ∧ s2.db.results = s.db.results
    ∧ s2.db.report_results = s.db.report_results
    ∧ s2.db.report_hosts = s.db.report_hosts

/-- The number of reports of a task that have a NULL `end_time`. -/
def reports_in_progress (task : Int) (s : State) : Nat :=
  (s.db.reports.filter
    (fun r => sql_eq r.2.task (some task) && decide (r.2.end_time = none))).length

/-- A row of `nvts` with the given OID and family. -/
def nvt_row (oid family : List Nat) : nvts_row :=
  { oid := some oid, version := some (str "1"), name := some oid, summary := some [],
    description := some [], copyright := some [], cve := some [], bid := some [],
    xref := some [], tag := some [], sign_key_ids := some [], category := some (str "3"),
    family := some family }

/-- A store with a cache of two NVTs of family Web but no `nvts_md5sum` row in
`meta`, and a config "cfg" marked growing whose selector "sel" has one rule,
the ALL include rule.  The cached `nvt_count` of the config is 7. -/
def growing_store_no_cache : State :=
  { empty_store with db := { empty_tables with
      configs := [(1, { name := some (str "cfg"), nvt_selector := some (str "sel"),
                        comment := some [], family_count := some 3, nvt_count := some 7,
                        families_growing := some 1, nvts_growing := some 1 })]
      nvt_selectors := [(1, { name := some (str "sel"), exclude := some 0,
                              type := some NVT_SELECTOR_TYPE_ALL,
                              family_or_nvt := sql_value.integer 0 })]
      nvts := [(1, nvt_row (str "1.3.6.1") (str "Web")),
               (2, nvt_row (str "1.3.6.2") (str "Web"))] } }

/-- The store `growing_store_no_cache` with the cache marked present. -/
def growing_store : State :=
  { growing_store_no_cache with db := { growing_store_no_cache.db with
      meta := [(1, { name := some (str "nvts_md5sum"), value := some (str "d41d8cd9") })] } }

/-- The store `growing_store` with one more rule in the selector: an NVT
exclude rule for the first cached NVT. -/
def growing_store_exclude : State :=
  { growing_store with db := { growing_store.db with
      nvt_selectors := growing_store.db.nvt_selectors ++
        [(2, { name := some (str "sel"), exclude := some 1,
               type := some NVT_SELECTOR_TYPE_NVT,
               family_or_nvt := sql_value.text (str "1.3.6.1") })] } }

/-- The store `restart_store` with schema version 1 in `meta`. -/
def wrong_version_store : State :=
  { restart_store with db := { restart_store.db with
      meta := [(1, { name := some (str "database_version"), value := some (str "1") })] } }

/-- The store `running_store` with a host row for report 1 and localhost
that has a start time, and a host row of another report. -/
def host_store : State :=
  { running_store with db := { running_store.db with
      report_hosts :=
        [(1, { report := some 1, host := some (str "localhost"),
               start_time := some (str "Tue Aug 25 21:48:26 2009"), end_time := none,
               attack_state := none, current_port := none, max_port := none }),
         (2, { report := some 2, host := some (str "localhost"),
               start_time := none, end_time := some (str "Tue Aug 25 21:52:15 2009"),
               attack_state := none, current_port := none, max_port := none })] } }

/-- An RC text without the preference auto_enable_new_plugins that switches
one NVT on in a PLUGIN_SET section and another NVT of the same family on in a
SCANNER_SET section, and one NVT off. -/
def two_section_rc : List Nat :=
  str ("begin(PLUGIN_SET)\n"
    ++ " 1.3.6.1 = yes\n"
    ++ " 1.3.6.9 = no\n"
    ++ "end(PLUGIN_SET)\n"
    ++ "begin(SCANNER_SET)\n"
    ++ " 1.3.6.2 = yes\n"
    ++ "end(SCANNER_SET)\n")

/-- The rule of type NVT that `clude` inserts for the pointer `ptr` into the
buffer. -/
def clude_row (selector : List Nat) (buf : List Nat) (exclude : Int) (ptr : Nat) :
    nvt_selectors_row :=
  { name := some selector, exclude := some exclude, type := some 2,
    family_or_nvt :=
      match c_string (buf.drop ptr) with
      | some id => sql_value.text id
      | none => sql_value.null }

/-- The buffer of a `key = value` line: the bytes `head` before the line,
`a` spaces, the key, `b` spaces, the equals sign, the byte `c` after it, the
bytes `value` up to the newline, and the bytes `tail` after the newline. -/
def rc_line_buffer (head : List Nat) (a : Nat) (key : List Nat) (b : Nat) (c : Nat)
    (value tail : List Nat) : List Nat :=
  head ++ (List.replicate a 32 ++ (key ++ (List.replicate b 32
    ++ 61 :: c :: (value ++ 10 :: tail))))

/-- The state of the reader after the preference `name`, `value` of section
`type` was inserted for `config`. -/
def rc_store_preference (config : Int) (type : Option (List Nat)) (name value : List Nat)
    (st : rc_state) : rc_state :=
  { st with s := { st.s with db := { st.s.db with
      config_preferences := st.s.db.config_preferences.insert
        { config := some config, type := type, name := some name, value := some value } } } }

/-- An RC text with spaces around keys and values, outside a section and
inside the generic section S. -/
def spaced_rc : List Nat :=
  str ("key =  value \n"
    ++ "begin(S)\n"
    ++ "  a b  =  c d  \n"
    ++ "end(S)\n")

/-- An RC text whose PLUGIN_SET section switches on two NVTs of one family. -/
def one_section_rc : List Nat :=
  str ("begin(PLUGIN_SET)\n"
    ++ " 1.3.6.1 = yes\n"
    ++ " 1.3.6.2 = yes\n"
    ++ "end(PLUGIN_SET)\n")

/-- An RC text that switches the same NVT on in its PLUGIN_SET section and
in its SCANNER_SET section. -/
def repeated_nvt_rc : List Nat :=
  str ("begin(PLUGIN_SET)\n"
    ++ " 1.3.6.1 = yes\n"
    ++ "end(PLUGIN_SET)\n"
    ++ "begin(SCANNER_SET)\n"
    ++ " 1.3.6.1 = yes\n"
    ++ "end(SCANNER_SET)\n")

/-- The state of the reader at the start of the text `rc`, on the store `s`. -/
def rc_start (rc : List Nat) (s : State) : rc_state :=
  { buf := rc ++ [0], yes := [], no := [], family_count := 0, s := s }

/-- A result of task 7 in subnet "net" with the given host, port, NVT, type
and description. -/
def result_row (host port nvt type description : List Nat) : results_row :=
  { task := some 7, subnet := some (str "net"), host := some host, port := some port,
    nvt := some nvt, type := some type, description := some description }

/-- A report of task 7 with the given UUID. -/
def report_row (uuid : List Nat) : reports_row :=
  { uuid := some uuid, hidden := some 0, task := some 7, date := some 1251236905,
    start_time := none, end_time := none, nbefile := some [], comment := some [],
    scan_run_status := none }

/-- A store with the report "r1", which has one debug message, two holes, one
warning, two notes and three log messages, and the report "r2", which has one
warning. -/
def counts_store : State :=
  { empty_store with db := { empty_tables with
      reports := [(1, report_row (str "r1")), (2, report_row (str "r2"))]
      results :=
        [(1, result_row (str "h") (str "p") (str "1.3.6.1") (str "Debug Message") []),
         (2, result_row (str "h") (str "p") (str "1.3.6.2") (str "Security Hole") []),
         (3, result_row (str "h") (str "p") (str "1.3.6.3") (str "Security Hole") []),
         (4, result_row (str "h") (str "p") (str "1.3.6.4") (str "Security Warning") []),
         (5, result_row (str "h") (str "p") (str "1.3.6.5") (str "Security Note") []),
         (6, result_row (str "h") (str "p") (str "1.3.6.6") (str "Security Note") []),
         (7, result_row (str "h") (str "p") (str "1.3.6.7") (str "Log Message") []),
         (8, result_row (str "h") (str "p") (str "1.3.6.8") (str "Log Message") []),
         (9, result_row (str "h") (str "p") (str "1.3.6.9") (str "Log Message") []),
         (10, result_row (str "h") (str "p") (str "1.3.6.4") (str "Security Warning") [])]
      report_results :=
        [(1, { report := some 1, result := some 1 }), (2, { report := some 1, result := some 2 }),
         (3, { report := some 1, result := some 3 }), (4, { report := some 1, result := some 4 }),
         (5, { report := some 1, result := some 5 }), (6, { report := some 1, result := some 6 }),
         (7, { report := some 1, result := some 7 }), (8, { report := some 1, result := some 8 }),
         (9, { report := some 1, result := some 9 }),
         (10, { report := some 2, result := some 10 })] } }

/-- A store with report 1 and its two results: result 1 on host "b", result 2
on host "a". -/
def order_store : State :=
  { empty_store with db := { empty_tables with
      reports := [(1, report_row (str "r1"))]
      results :=
        [(1, result_row (str "b") (str "80") (str "1.3.6.1") (str "Security Note") (str "d1")),
         (2, result_row (str "a") (str "22") (str "1.3.6.2") (str "Security Hole") (str "d2"))]
      report_results :=
        [(1, { report := some 1, result := some 1 }),
         (2, { report := some 1, result := some 2 })] } }

/-- The six accessors of the result iterator, in the order subnet, host,
port, nvt, type, descr. -/
def result_iterator_all (iterator : iterator_t) : List (Option (List Nat)) :=
  [result_iterator_subnet iterator, result_iterator_host iterator,
   result_iterator_port iterator, result_iterator_nvt iterator,
   result_iterator_type iterator, result_iterator_descr iterator]

/-- A store with four cached NVTs, three of family Web and one of family
Misc, and the selector "web", which includes the family Web and excludes the
NVT 1.3.6.2; the selector "All" of another config includes everything. -/
def web_store : State :=
  { empty_store with db := { empty_tables with
      nvt_selectors :=
        [(1, { name := some (str "All"), exclude := some 0, type := some NVT_SELECTOR_TYPE_ALL,
               family_or_nvt := sql_value.null }),
         (2, { name := some (str "web"), exclude := some 0,
               type := some NVT_SELECTOR_TYPE_FAMILY,
               family_or_nvt := sql_value.text (str "Web") }),
         (3, { name := some (str "web"), exclude := some 1, type := some NVT_SELECTOR_TYPE_NVT,
               family_or_nvt := sql_value.text (str "1.3.6.2") })]
      nvts := [(1, nvt_row (str "1.3.6.1") (str "Web")),
               (2, nvt_row (str "1.3.6.2") (str "Web")),
               (3, nvt_row (str "1.3.6.3") (str "Misc")),
               (4, nvt_row (str "1.3.6.4") (str "Web"))] } }

/-- An RC text that gives the key `a` twice outside a section and the key
`k` twice inside the section S, each time with two values. -/
def dup_key_rc : List Nat :=
  str ("a = 1\n"
    ++ "a = 2\n"
    ++ "begin(S)\n"
    ++ "k = x\n"
    ++ "k = y\n"
    ++ "end(S)\n")

/-- A store with two configs that each have the general preference
max_hosts, with the values 20 and 30. -/
def pref_store : State :=
  { empty_store with db := { empty_tables with
      configs :=
        [(1, { name := some (str "a"), nvt_selector := some (str "a"), comment := some [],
               family_count := some 0, nvt_count := some 0, families_growing := some 0,
               nvts_growing := some 0 }),
         (2, { name := some (str "b"), nvt_selector := some (str "b"), comment := some [],
               family_count := some 0, nvt_count := some 0, families_growing := some 0,
               nvts_growing := some 0 })]
      config_preferences :=
        [(1, { config := some 1, type := none, name := some (str "max_hosts"),
               value := some (str "20") }),
         (2, { config := some 2, type := none, name := some (str "max_hosts"),
               value := some (str "30") })] } }

/-- A store whose selector `a'b` has the ALL include rule and whose selector
`o'neil` has a FAMILY include rule. -/
def quote_selector_store : State :=
  { empty_store with db := { empty_tables with
      nvt_selectors :=
        [(1, { name := some (str "a'b"), exclude := some 0, type := some NVT_SELECTOR_TYPE_ALL,
               family_or_nvt := sql_value.integer 0 }),
         (2, { name := some (str "o'neil"), exclude := some 0,
               type := some NVT_SELECTOR_TYPE_FAMILY,
               family_or_nvt := sql_value.text (str "Web") })] } }

/-- A store whose only task is the example task, with ROWID 4. -/
def example_task_store : State :=
  { empty_store with db := { empty_tables with tasks := [(4, example_task)] } }

/-- A `key = value` line of an RC text: `a` spaces, the key, `b` spaces, the
equals sign, the byte `c` after it, the bytes `value` and the newline. -/
def rc_line (a : Nat) (key : List Nat) (b c : Nat) (value : List Nat) : List Nat :=
  List.replicate a 32 ++ (key ++ (List.replicate b 32 ++ 61 :: c :: (value ++ [10])))

/-- A `key = value` line by its parts. -/
structure key_value_line where
  a : Nat
  key : List Nat
  b : Nat
  c : Nat
  value : List Nat
  deriving DecidableEq, Repr

/-- The bytes of a `key = value` line. -/
def key_value_line.text (l : key_value_line) : List Nat :=
  rc_line l.a l.key l.b l.c l.value

/-- The conditions under which the parts of a line are its key and its
value: the key is not empty, does not start or end with a space and has no
NUL, newline or equals sign; the byte after the equals sign is no NUL or
newline; the value has no NUL or newline. -/
def key_value_line.ok (l : key_value_line) : Prop :=
  l.key ≠ [] ∧ l.key.head? ≠ some 32 ∧ l.key.getLast? ≠ some 32
    ∧ 0 ∉ l.key ∧ 10 ∉ l.key ∧ 61 ∉ l.key
    ∧ l.c ≠ 0 ∧ l.c ≠ 10 ∧ 0 ∉ l.value ∧ 10 ∉ l.value

instance (l : key_value_line) : Decidable l.ok :=
  inferInstanceAs (Decidable (_ ∧ _))

/-- The RC text made of the given lines. -/
def rc_text (lines : List key_value_line) : List Nat :=
  (lines.map key_value_line.text).flatten

/-- The RC text of a section: `begin(name)`, the lines of `body` and
`end(name)`, each with its newline. -/
def rc_section_text (name body : List Nat) : List Nat :=
  (str "begin(" ++ name ++ [41, 10]) ++ (body ++ (str "end(" ++ name ++ [41, 10]))

/-- The state of the reader after the preferences of the given lines were
inserted for `config` with the type `type`, in order. -/
def rc_store_lines (config : Int) (type : Option (List Nat)) (lines : List key_value_line)
    (st : rc_state) : rc_state :=
  lines.foldl (fun st l => rc_store_preference config type l.key l.value st) st

/-- The table `config_preferences` with one more row for each of the given
lines, in order: the name is the key and the value is the value of the line. -/
def insert_lines (config : Int) (type : Option (List Nat)) (lines : List key_value_line)
    (t : Table config_preferences_row) : Table config_preferences_row :=
  lines.foldl (fun t l =>
    t.insert { config := some config, type := type, name := some l.key,
               value := some l.value }) t

/-! ### Lemmas on the SQL helpers -/

theorem strlen_append_nul (s : List Nat) (hs : 0 ∉ s) : strlen (s ++ [0]) = some s.length := by
  induction s with
  | nil => simp [strlen]
  | cons c rest ih =>
    have hc : c ≠ 0 := fun h => hs (by simp [h])
    have hr : 0 ∉ rest := fun h => hs (by simp [h])
    simp [strlen, hc, ih hr]

theorem c_string_append_nul (s t : List Nat) (hs : 0 ∉ s) : c_string (s ++ 0 :: t) = some s := by
  induction s with
  | nil => simp [c_string]
  | cons c rest ih =>
    have hc : c ≠ 0 := fun h => hs (by simp [h])
    have hr : 0 ∉ rest := fun h => hs (by simp [h])
    simp [c_string, hc, ih hr]

theorem count_apostrophes_append_nul (s : List Nat) (hs : 0 ∉ s) :
    count_apostrophes (s ++ [0]) = some (s.count APOSTROPHE) := by
  induction s with
  | nil => simp [count_apostrophes]
  | cons c rest ih =>
    have hc : c ≠ 0 := fun h => hs (by simp [h])
    have hr : 0 ∉ rest := fun h => hs (by simp [h])
    by_cases h : c = APOSTROPHE
    · subst h
      simp [count_apostrophes, ih hr, APOSTROPHE]
    · simp [count_apostrophes, ih hr, hc, h, List.count_cons, Ne.symm h]

theorem nquote_copy_length (s : List Nat) :
    (nquote_copy s).length = s.length + s.count APOSTROPHE := by
  induction s with
  | nil => simp [nquote_copy]
  | cons c rest ih =>
    by_cases h : c = APOSTROPHE
    · subst h
      simp [nquote_copy, ih]
      omega
    · simp [nquote_copy, ih, h, List.count_cons, Ne.symm h]
      omega

theorem nquote_copy_no_nul (s : List Nat) (hs : 0 ∉ s) : 0 ∉ nquote_copy s := by
  induction s with
  | nil => simp [nquote_copy]
  | cons c rest ih =>
    have hc : c ≠ 0 := fun h => hs (by simp [h])
    have hr : 0 ∉ rest := fun h => hs (by simp [h])
    by_cases h : c = APOSTROPHE
    · subst h
      simp [nquote_copy, ih hr, APOSTROPHE]
    · simp [nquote_copy, h, ih hr, Ne.symm hc]

theorem sql_unquote_cons_ne (c : Nat) (l : List Nat) (h : c ≠ APOSTROPHE) :
    sql_unquote (c :: l) = (sql_unquote l).map (c :: ·) := by
  cases l with
  | nil => simp [sql_unquote, h]
  | cons d rest => simp [sql_unquote, h]

theorem sql_unquote_cons_pair (l : List Nat) :
    sql_unquote (APOSTROPHE :: APOSTROPHE :: l) = (sql_unquote l).map (APOSTROPHE :: ·) := by
  simp [sql_unquote]

theorem sql_unquote_nquote_copy (s : List Nat) : sql_unquote (nquote_copy s) = some s := by
  induction s with
  | nil => simp [nquote_copy, sql_unquote]
  | cons c rest ih =>
    by_cases h : c = APOSTROPHE
    · subst h
      simp [nquote_copy, sql_unquote_cons_pair, ih]
    · simp [nquote_copy, sql_unquote_cons_ne, h, ih]

theorem count_take_le (s : List Nat) (n a : Nat) : (s.take n).count a ≤ s.count a :=
  (List.take_sublist n s).count_le a

/-- On a NUL terminated string without inner NUL, `sql_nquote` returns the
copy of the first `n` bytes with every apostrophe doubled. -/
theorem sql_nquote_eq (s : List Nat) (n : Nat) (hs : 0 ∉ s) (hn : n ≤ s.length) :
    sql_nquote (s ++ [0]) n = some (nquote_copy (s.take n)) := by
  have htake : (s ++ [0]).take n = s.take n := List.take_append_of_le_length hn
  have hlen : (nquote_copy (s.take n)).length ≤ n + s.count APOSTROPHE + 1 := by
    rw [nquote_copy_length, List.length_take]
    have := count_take_le s n APOSTROPHE
    omega
  have hnul : 0 ∉ nquote_copy (s.take n) :=
    nquote_copy_no_nul _ (fun h => hs (List.mem_of_mem_take h))
  have hpos : 0 < n + s.count APOSTROPHE + 1 - (nquote_copy (s.take n)).length := by
    rw [nquote_copy_length, List.length_take]
    have := count_take_le s n APOSTROPHE
    omega
  obtain ⟨k, hk⟩ : ∃ k, n + s.count APOSTROPHE + 1 - (nquote_copy (s.take n)).length = k + 1 :=
    ⟨_, (Nat.succ_pred_eq_of_pos hpos).symm⟩
  have hn2 : n ≤ s.length + 1 := by omega
  simp only [sql_nquote, sql_nquote_buffer, sql_nquote_alloc, count_apostrophes_append_nul s hs,
    Option.map_some', htake, List.length_append, List.length_singleton]
  rw [if_pos ⟨hn2, hlen⟩, hk, List.replicate_succ]
  simpa using c_string_append_nul _ _ hnul

theorem sql_quote_eq (s : List Nat) (hs : 0 ∉ s) :
    sql_quote (s ++ [0]) = some (nquote_copy s) := by
  simp [sql_quote, strlen_append_nul s hs, sql_nquote_eq s s.length hs (le_refl _)]

theorem sql_quoted_literal_nquote (s : List Nat) (hs : 0 ∉ s) :
    sql_quoted_literal (sql_nquote (s ++ [0]) s.length) = some s := by
  simp [sql_quoted_literal, sql_nquote_eq s s.length hs (le_refl _), sql_unquote_nquote_copy]

theorem sql_quoted_literal_quote (s : List Nat) (hs : 0 ∉ s) :
    sql_quoted_literal (sql_quote (s ++ [0])) = some s := by
  simp [sql_quoted_literal, sql_quote_eq s hs, sql_unquote_nquote_copy]

/-! ### Lemmas on iterators -/

theorem next_done (iterator : iterator_t) (h : iterator.done = true) :
    next iterator = some (false, iterator) := by
  simp [next, h]

theorem next_false (iterator iterator2 : iterator_t)
    (h : next iterator = some (false, iterator2)) : iterator2.done = true := by
  unfold next at h
  split at h
  · rename_i hd
    simp only [Option.some.injEq, Prod.mk.injEq, true_and] at h
    rw [← h]; exact hd
  · split at h
    · simp at h
    · split at h
      · simp only [Option.some.injEq, Prod.mk.injEq, true_and] at h
        rw [← h]
      · split at h <;> simp at h

theorem next_task_done (iterator : task_iterator_t) (task : Int) (h : iterator.done = true) :
    next_task iterator task = some (false, iterator, task) := by
  simp [next_task, h]

theorem next_task_false (iterator iterator2 : task_iterator_t) (task task2 : Int)
    (h : next_task iterator task = some (false, iterator2, task2)) : iterator2.done = true := by
  unfold next_task at h
  split at h
  · rename_i hd
    simp only [Option.some.injEq, Prod.mk.injEq, true_and] at h
    rw [← h.1]; exact hd
  · split at h
    · simp at h
    · split at h
      · simp only [Option.some.injEq, Prod.mk.injEq, true_and] at h
        rw [← h.1]
      · split at h <;> simp at h

theorem next_report_done (iterator : iterator_t) (report : Int) (h : iterator.done = true) :
    next_report iterator report = some (false, iterator, report) := by
  simp [next_report, h]

theorem next_report_false (iterator iterator2 : iterator_t) (report report2 : Int)
    (h : next_report iterator report = some (false, iterator2, report2)) :
    iterator2.done = true := by
  unfold next_report at h
  split at h
  · rename_i hd
    simp only [Option.some.injEq, Prod.mk.injEq, true_and] at h
    rw [← h.1]; exact hd
  · split at h
    · simp at h
    · split at h
      · simp only [Option.some.injEq, Prod.mk.injEq, true_and] at h
        rw [← h.1]
      · split at h <;> simp at h

theorem later_call_fixed {σ : Type} (f : σ → Option (Bool × σ)) (st : σ)
    (h : f st = some (false, st)) (n : Nat) : later_call f n st = some (false, st) := by
  induction n with
  | zero => simpa [later_call] using h
  | succ n ih => simp [later_call, h, ih]

/-! ### Lemmas on tables -/

theorem foldl_max_ge (rs : List Int) (r : Int) :
    r ≤ rs.foldl max r ∧ ∀ x ∈ rs, x ≤ rs.foldl max r := by
  induction rs generalizing r with
  | nil => simp
  | cons y ys ih =>
    obtain ⟨h1, h2⟩ := ih (max r y)
    refine ⟨le_trans (le_max_left r y) h1, ?_⟩
    intro x hx
    rcases List.mem_cons.mp hx with rfl | hx
    · exact le_trans (le_max_right r x) h1
    · exact h2 x hx

theorem Table.lt_next_rowid {α : Type} (t : Table α) (x : Int × α) (h : x ∈ t) :
    x.1 < t.next_rowid := by
  unfold Table.next_rowid
  cases t with
  | nil => simp at h
  | cons y ys =>
    simp only [List.map_cons]
    obtain ⟨h1, h2⟩ := foldl_max_ge (ys.map Prod.fst) y.1
    rcases List.mem_cons.mp h with rfl | hx
    · omega
    · have := h2 x.1 (List.mem_map_of_mem Prod.fst hx)
      omega

theorem Table.next_rowid_not_mem {α : Type} (t : Table α) :
    t.next_rowid ∉ t.map Prod.fst := by
  intro h
  obtain ⟨x, hx, hx2⟩ := List.mem_map.mp h
  have := Table.lt_next_rowid t x hx
  omega

theorem Table.insert_nodup {α : Type} (t : Table α) (row : α)
    (h : (t.map Prod.fst).Nodup) : ((t.insert row).map Prod.fst).Nodup := by
  unfold Table.insert
  rw [List.map_append, List.nodup_append]
  refine ⟨h, by simp, ?_⟩
  intro a ha hb
  simp only [List.map_cons, List.map_nil, List.mem_singleton] at hb
  exact Table.next_rowid_not_mem t (hb ▸ ha)

theorem Table.update_rowids {α : Type} (t : Table α) (p : Int × α → Bool) (f : α → α) :
    (t.update p f).map Prod.fst = t.map Prod.fst := by
  unfold Table.update
  rw [List.map_map]
  apply List.map_congr_left
  intro r _
  by_cases h : p r = true <;> simp [h]

theorem Table.filter_rowid {α : Type} (t : Table α) (h : (t.map Prod.fst).Nodup)
    (r : Int × α) (hr : r ∈ t) : t.filter (fun x => decide (x.1 = r.1)) = [r] := by
  induction t with
  | nil => simp at hr
  | cons x xs ih =>
    rw [List.map_cons, List.nodup_cons] at h
    rcases List.mem_cons.mp hr with rfl | hx
    · have hnone : xs.filter (fun x => decide (x.1 = r.1)) = [] := by
        rw [List.filter_eq_nil_iff]
        intro a ha
        simp only [decide_eq_true_eq]
        intro hEq
        exact h.1 (hEq ▸ List.mem_map_of_mem Prod.fst ha)
      simp [List.filter_cons, hnone]
    · have hne : x.1 ≠ r.1 := by
        intro hEq
        exact h.1 (hEq ▸ List.mem_map_of_mem Prod.fst hx)
      simp [List.filter_cons, hne, ih h.2 hx]

/-! ### Lemmas on init_manage -/

theorem restart_status_idem (st : task_status_t) :
    restart_status (restart_status st) = restart_status st := by
  cases st <;> rfl

theorem task_run_status_of_mem (s : State) (h : (s.db.tasks.map Prod.fst).Nodup)
    (r : Int × tasks_row) (hr : r ∈ s.db.tasks) :
    task_run_status r.1 s = some r.2.run_status := by
  unfold task_run_status
  rw [Table.filter_rowid s.db.tasks h r hr]
  rfl

theorem restart_tasks_nil (t : Table tasks_row) : restart_tasks [] t = t := by
  simp [restart_tasks]

theorem restart_tasks_rowids (ids : List Int) (t : Table tasks_row) :
    (restart_tasks ids t).map Prod.fst = t.map Prod.fst := by
  unfold restart_tasks
  rw [List.map_map]
  apply List.map_congr_left
  intro r _
  by_cases h : r.1 ∈ ids <;> simp [h]

theorem restart_tasks_cons (id : Int) (ids : List Int) (t : Table tasks_row) :
    restart_tasks ids (restart_tasks [id] t) = restart_tasks (id :: ids) t := by
  unfold restart_tasks
  rw [List.map_map]
  apply List.map_congr_left
  intro r _
  by_cases h1 : r.1 = id
  · by_cases h2 : r.1 ∈ ids <;> simp [h1, h2, restart_status_idem]
  · by_cases h2 : r.1 ∈ ids <;> simp [h1, h2]

theorem Table.eq_of_rowid_eq {α : Type} (t : Table α) (h : (t.map Prod.fst).Nodup)
    (r x : Int × α) (hr : r ∈ t) (hx : x ∈ t) (hEq : x.1 = r.1) : x = r := by
  have hmem : x ∈ t.filter (fun y => decide (y.1 = r.1)) := by
    rw [List.mem_filter]
    exact ⟨hx, by simpa using hEq⟩
  rw [Table.filter_rowid t h r hr] at hmem
  simpa using hmem

theorem update_stopped_eq (t : Table tasks_row) (h : (t.map Prod.fst).Nodup)
    (r : Int × tasks_row) (hr : r ∈ t)
    (hact : restart_status r.2.run_status = TASK_STATUS_STOPPED) :
    t.update (fun x => decide (x.1 = r.1)) (fun x => { x with run_status := TASK_STATUS_STOPPED })
      = restart_tasks [r.1] t := by
  unfold Table.update restart_tasks
  apply List.map_congr_left
  intro x hx
  by_cases hEq : x.1 = r.1
  · have hxr : x = r := Table.eq_of_rowid_eq t h r x hr hx hEq
    subst hxr
    simp [hact]
  · simp [hEq]

theorem restart_one_inactive (t : Table tasks_row) (h : (t.map Prod.fst).Nodup)
    (r : Int × tasks_row) (hr : r ∈ t)
    (hin : restart_status r.2.run_status = r.2.run_status) :
    restart_tasks [r.1] t = t := by
  unfold restart_tasks
  conv_rhs => rw [← List.map_id t]
  apply List.map_congr_left
  intro x hx
  by_cases hEq : x.1 = r.1
  · have hxr : x = r := Table.eq_of_rowid_eq t h r x hr hx hEq
    subst hxr
    simp [hin]
  · simp [hEq]

theorem set_task_run_status_no_report (task : Int) (status : task_status_t) (s : State)
    (h : s.current_report = 0) :
    set_task_run_status task status s
      = { s with db := { s.db with
            tasks := s.db.tasks.update (fun r => decide (r.1 = task))
              (fun r => { r with run_status := status }) } } := by
  simp [set_task_run_status, h]

theorem init_manage_loop_spec (ids : List Int) :
    ∀ (fuel : Nat) (row : List sql_value) (steps : Nat) (index : Int) (s : State),
      ids.length + 1 ≤ fuel → s.current_report = 0 → (s.db.tasks.map Prod.fst).Nodup →
      (∀ id ∈ ids, id ∈ s.db.tasks.map Prod.fst) →
      init_manage_loop fuel
          { stmt := { pending := ids.map (fun id => (SQLITE_ROW, [sql_value.integer id])),
                      row := row, steps := steps },
            done := false } index s
        = some { s with db := { s.db with tasks := restart_tasks ids s.db.tasks } } := by
  induction ids with
  | nil =>
    intro fuel row steps index s hfuel _ _ _
    cases fuel with
    | zero => omega
    | succ fuel =>
      simp [init_manage_loop, next_task, step_while_busy, sqlite3_step, SQLITE_DONE,
        SQLITE_BUSY, restart_tasks_nil]
  | cons id rest ih =>
    intro fuel row steps index s hfuel hcr hnd hids
    cases fuel with
    | zero => omega
    | succ fuel =>
      obtain ⟨r, hr, hrid⟩ := List.mem_map.mp (hids id (List.mem_cons_self _ _))
      have hst : task_run_status id s = some r.2.run_status := by
        rw [← hrid]; exact task_run_status_of_mem s hnd r hr
      have hnext : next_task
          { stmt := { pending := (id :: rest).map (fun id => (SQLITE_ROW, [sql_value.integer id])),
                      row := row, steps := steps },
            done := false } index
          = some (true,
              { stmt := { pending := rest.map (fun id => (SQLITE_ROW, [sql_value.integer id])),
                          row := [sql_value.integer id], steps := steps + 1 },
                done := false }, id) := by
        simp [next_task, step_while_busy, sqlite3_step, SQLITE_DONE, SQLITE_BUSY, SQLITE_ROW,
          SQLITE_ERROR, SQLITE_MISUSE, sqlite3_column_int64]
      have hbody : ∃ s2 : State,
          init_manage_loop (fuel + 1)
              { stmt := { pending :=
                            (id :: rest).map (fun id => (SQLITE_ROW, [sql_value.integer id])),
                          row := row, steps := steps },
                done := false } index s
            = init_manage_loop fuel
              { stmt := { pending := rest.map (fun id => (SQLITE_ROW, [sql_value.integer id])),
                          row := [sql_value.integer id], steps := steps + 1 },
                done := false } id s2
          ∧ s2 = { s with db := { s.db with tasks := restart_tasks [id] s.db.tasks } } := by
        rw [init_manage_loop, hnext]
        simp only [hst]
        have hupd := update_stopped_eq s.db.tasks hnd r hr
        have hin := restart_one_inactive s.db.tasks hnd r hr
        rw [hrid] at hupd hin
        cases hrs : r.2.run_status <;> simp only [hrs, restart_status, forall_true_left] at hupd hin
        all_goals first
          | exact ⟨_, rfl, by rw [set_task_run_status_no_report _ _ _ hcr, hupd]⟩
          | exact ⟨s, rfl, by rw [hin]⟩
      obtain ⟨s2, hloop, hs2⟩ := hbody
      rw [hloop]
      have hcr2 : s2.current_report = 0 := by rw [hs2]; exact hcr
      have hnd2 : (s2.db.tasks.map Prod.fst).Nodup := by
        rw [hs2]; simpa [restart_tasks_rowids] using hnd
      have hids2 : ∀ id ∈ rest, id ∈ s2.db.tasks.map Prod.fst := by
        intro i hi
        rw [hs2]
        simpa [restart_tasks_rowids] using hids i (List.mem_cons_of_mem _ hi)
      have hfuel2 : rest.length + 1 ≤ fuel := by
        simp only [List.length_cons] at hfuel; omega
      rw [ih fuel [sql_value.integer id] (steps + 1) id s2 hfuel2 hcr2 hnd2 hids2, hs2]
      simp [restart_tasks_cons]

theorem set_database_version_frame (s : State) :
    (set_database_version s).db.tasks = s.db.tasks
      ∧ (set_database_version s).username = s.username
      ∧ (set_database_version s).current_report = s.current_report := by
  simp [set_database_version]

theorem ensure_om_user_frame (s : State) :
    (ensure_om_user s).db.tasks = s.db.tasks
      ∧ (ensure_om_user s).username = s.username
      ∧ (ensure_om_user s).current_report = s.current_report := by
  unfold ensure_om_user
  split <;> simp

theorem ensure_all_selector_frame (s : State) :
    (ensure_all_selector s).db.tasks = s.db.tasks
      ∧ (ensure_all_selector s).username = s.username
      ∧ (ensure_all_selector s).current_report = s.current_report := by
  unfold ensure_all_selector
  split <;> simp

theorem ensure_config_frame (name comment safe_checks optimize_test port_range : List Nat)
    (s : State) :
    (ensure_config name comment safe_checks optimize_test port_range s).db.tasks = s.db.tasks
      ∧ (ensure_config name comment safe_checks optimize_test port_range s).username
          = s.username
      ∧ (ensure_config name comment safe_checks optimize_test port_range s).current_report
          = s.current_report := by
  unfold ensure_config
  split <;> simp [setup_full_config_prefs]

theorem ensure_localhost_target_frame (s : State) :
    (ensure_localhost_target s).db.tasks = s.db.tasks
      ∧ (ensure_localhost_target s).username = s.username
      ∧ (ensure_localhost_target s).current_report = s.current_report := by
  unfold ensure_localhost_target
  split <;> simp

theorem ensure_example_task_frame (s : State) :
    ((ensure_example_task s).db.tasks = s.db.tasks
        ∨ (ensure_example_task s).db.tasks = s.db.tasks.insert example_task)
      ∧ (ensure_example_task s).username = s.username
      ∧ (ensure_example_task s).current_report = s.current_report := by
  unfold ensure_example_task
  split <;> simp

theorem find_task_switch_sql_int64 (rows : List (Option Int)) (task : Int) :
    ∃ found, find_task_switch (sql_int64 (some rows)) task = some (false, found) := by
  unfold sql_int64
  simp only []
  cases rows.head? with
  | none => exact ⟨0, by simp [find_task_switch]⟩
  | some v => exact ⟨v.getD 0, by simp [find_task_switch]⟩

theorem ensure_example_report_frame (s : State) :
    ∃ s1, ensure_example_report s = some s1 ∧ s1.db.tasks = s.db.tasks
      ∧ s1.username = s.username ∧ s1.current_report = s.current_report := by
  unfold ensure_example_report
  split
  · have hraw : sql_raw (str "343435d6-91b0-11de-9478-ffd71f4c6f29")
        = raw_statement.literal (str "343435d6-91b0-11de-9478-ffd71f4c6f29") := by decide
    obtain ⟨found, hfound⟩ := find_task_switch_sql_int64
      ((s.db.tasks.filter (fun r => sql_eq r.2.uuid
        (some (str "343435d6-91b0-11de-9478-ffd71f4c6f29")))).map (fun r => some r.1)) 0
    have hfind : find_task (str "343435d6-91b0-11de-9478-ffd71f4c6f29") 0 s
        = some (false, found) := by
      unfold find_task
      rw [hraw]
      exact hfound
    rw [hfind]
    exact ⟨_, rfl, rfl, rfl, rfl⟩
  · exact ⟨s, rfl, rfl, rfl, rfl⟩

theorem init_manage_setup_spec (s : State) :
    ∃ s1, init_manage_setup s = some s1
      ∧ (s1.db.tasks = s.db.tasks ∨ s1.db.tasks = s.db.tasks.insert example_task)
      ∧ s1.username = s.username ∧ s1.current_report = s.current_report := by
  unfold init_manage_setup
  simp only []
  generalize hs8 : ensure_localhost_target
    (ensure_config (str "Full and very deep ultimate")
      (str ("All NVT's including those that can stop services/hosts;"
        ++ " don't trust previously collected information; slow."))
      (str "no") (str "no") (str "1-65535")
      (ensure_config (str "Full and very deep")
        (str "All NVT's; don't trust previously collected information; slow.")
        (str "yes") (str "no") (str "1-65535")
        (ensure_config (str "Full and fast ultimate")
          (str ("All NVT's including those that can stop services/hosts;"
            ++ " optimized by using previously collected information."))
          (str "no") (str "yes") (str "default")
          (ensure_config (str "Full and fast")
            (str "All NVT's; optimized by using previously collected information.")
            (str "yes") (str "yes") (str "default")
            (ensure_all_selector (ensure_om_user (set_database_version s))))))) = s8
  have h8 : s8.db.tasks = s.db.tasks ∧ s8.username = s.username
      ∧ s8.current_report = s.current_report := by
    rw [← hs8]
    simp only [ensure_localhost_target_frame, ensure_config_frame, ensure_all_selector_frame,
      ensure_om_user_frame, set_database_version_frame, and_self]
  obtain ⟨h9a, h9b, h9c⟩ := ensure_example_task_frame s8
  obtain ⟨s1, h1, h1a, h1b, h1c⟩ := ensure_example_report_frame (ensure_example_task s8)
  refine ⟨s1, h1, ?_, ?_, ?_⟩
  · rw [h1a]
    rcases h9a with h | h
    · left; rw [h, h8.1]
    · right; rw [h, h8.1]
  · rw [h1b, h9b, h8.2.1]
  · rw [h1c, h9c, h8.2.2]

theorem init_task_iterator_all (s : State) (h : s.username = none) :
    init_task_iterator s
      = some { stmt := { pending := (s.db.tasks.map Prod.fst).map
                           (fun id => (SQLITE_ROW, [sql_value.integer id])),
                         row := [], steps := 0 },
               done := false } := by
  simp [init_task_iterator, h, prepare_rows, List.map_map, Function.comp_def]

theorem mem_restart_tasks (t : Table tasks_row) (r : Int × tasks_row) (hr : r ∈ t) :
    (r.1, { r.2 with run_status := restart_status r.2.run_status })
      ∈ restart_tasks (t.map Prod.fst) t := by
  unfold restart_tasks
  refine List.mem_map.mpr ⟨r, hr, ?_⟩
  simp [List.mem_map_of_mem Prod.fst hr]

/-- What `init_manage` does on a store that passes the version check, with
no current user and no current report. -/
theorem init_manage_spec (ndebug : Bool) (s : State)
    (hversion : ∀ v, database_version s = some v → v = DATABASE_VERSION)
    (huser : s.username = none) (hreport : s.current_report = 0)
    (hrowid : (s.db.tasks.map Prod.fst).Nodup) :
    ∃ s1 s2 : State, init_manage ndebug s = some (0, s2)
      ∧ (s1.db.tasks = s.db.tasks ∨ s1.db.tasks = s.db.tasks.insert example_task)
      ∧ s2.db.tasks = restart_tasks (s1.db.tasks.map Prod.fst) s1.db.tasks := by
  obtain ⟨s1, hsetup, htasks, hu, hc⟩ := init_manage_setup_spec s
  have hnd1 : (s1.db.tasks.map Prod.fst).Nodup := by
    rcases htasks with h | h
    · rw [h]; exact hrowid
    · rw [h]; exact Table.insert_nodup _ _ hrowid
  have hrest : init_manage_rest ndebug s
      = some (0, { s1 with db := { s1.db with
          tasks := restart_tasks (s1.db.tasks.map Prod.fst) s1.db.tasks } }) := by
    unfold init_manage_rest
    rw [hsetup]
    have hassert : ¬ (¬ ndebug = true ∧ s1.username ≠ none) := by simp [hu.trans huser]
    simp only []
    rw [if_neg hassert, init_task_iterator_all s1 (hu.trans huser)]
    simp only []
    rw [init_manage_loop_spec (s1.db.tasks.map Prod.fst) _ [] 0 0 s1 (by simp)
      (hc.trans hreport) hnd1 (fun _ h => h)]
    rfl
  refine ⟨s1, { s1 with db := { s1.db with
    tasks := restart_tasks (s1.db.tasks.map Prod.fst) s1.db.tasks } }, ?_, htasks, rfl⟩
  unfold init_manage
  cases hv : database_version s with
  | none => simpa using hrest
  | some v => simpa [hversion v hv] using hrest

/-! ### Lemmas on deletion and configs -/

theorem task_run_status_set (task : Int) (status : task_status_t) (s : State)
    (h : task ∈ s.db.tasks.map Prod.fst) :
    task_run_status task (set_task_run_status task status s) = some status := by
  unfold task_run_status set_task_run_status Table.update
  simp only []
  generalize s.db.tasks = t at h
  induction t with
  | nil => simp at h
  | cons x xs ih =>
    by_cases hx : x.1 = task
    · simp [hx]
    · have hmem : task ∈ xs.map Prod.fst := by
        rcases List.mem_cons.mp h with h1 | h1
        · exact absurd h1.symm hx
        · exact h1
      simp only [List.map_cons, hx, decide_False, Bool.false_eq_true, if_false,
        List.filter_cons]
      exact ih hmem

theorem task_hidden_mem (task : Int) (s : State) (h : Int) (hh : task_hidden task s = some h) :
    task ∈ s.db.tasks.map Prod.fst := by
  unfold task_hidden sql_int at hh
  cases hf : (s.db.tasks.filter (fun r => decide (r.1 = task))) with
  | nil => simp [hf] at hh
  | cons x xs =>
    have hx : x ∈ s.db.tasks.filter (fun r => decide (r.1 = task)) := by
      rw [hf]; exact List.mem_cons_self _ _
    rw [List.mem_filter] at hx
    have hx1 : x.1 = task := by simpa using hx.2
    exact hx1 ▸ List.mem_map_of_mem Prod.fst hx.1

theorem set_task_run_status_nothing_deleted (task : Int) (status : task_status_t) (s : State) :
    nothing_deleted s (set_task_run_status task status s) := by
  unfold nothing_deleted set_task_run_status
  simp only [and_true]
  refine ⟨Table.update_rowids _ _ _, ?_⟩
  split
  · exact Table.update_rowids _ _ _
  · rfl

theorem nothing_deleted_trans (s s1 s2 : State) (h1 : nothing_deleted s s1)
    (h2 : nothing_deleted s1 s2) : nothing_deleted s s2 := by
  obtain ⟨a1, a2, a3, a4, a5⟩ := h1
  obtain ⟨b1, b2, b3, b4, b5⟩ := h2
  exact ⟨b1.trans a1, b2.trans a2, b3.trans a3, b4.trans a4, b5.trans a5⟩

theorem count_ne_zero {α : Type} (t : Table α) (p : Int × α → Bool) (r : Int × α)
    (hr : r ∈ t) (hp : p r = true) : sql_int (t.count p) ≠ some 0 := by
  have hmem : r ∈ t.filter p := List.mem_filter.mpr ⟨hr, hp⟩
  have hpos : 0 < (t.filter p).length := List.length_pos_of_mem hmem
  simp only [sql_int, Table.count, List.head?_cons, Option.map_some', Option.getD_some, ne_eq,
    Option.some.injEq]
  omega

theorem config_preference_null (config : Int) (preference : List Nat) (s : State) :
    config_preference config none preference s = none := by
  simp [config_preference, sql_eq, sql_string]

/-! ### Lemmas on selectors and report hosts -/

theorem sql_eq_some_iff {α : Type} [DecidableEq α] (a : Option α) (b : α) :
    sql_eq a (some b) = true ↔ a = some b := by
  cases a <;> simp [sql_eq]

theorem sql_raw_of_not_mem (raw : List Nat) (h : APOSTROPHE ∉ raw) :
    sql_raw raw = raw_statement.literal raw := by
  simp [sql_raw, h]

theorem sql_raw_literal_of_not_mem (raw : List Nat) (h : APOSTROPHE ∉ raw) :
    sql_raw_literal raw = some raw := by
  simp [sql_raw_literal, h]

theorem sql_string_filter_name {α : Type} (t : Table α) (p : Int × α → Bool)
    (col : Int × α → Option (List Nat)) (name : List Nat)
    (hcol : ∀ r ∈ t, p r = true → col r = some name) :
    (sql_string ((t.filter p).map col) = some name ∧ ∃ r ∈ t, p r = true)
      ∨ (sql_string ((t.filter p).map col) = none ∧ ∀ r ∈ t, p r = false) := by
  cases hf : t.filter p with
  | nil =>
    right
    refine ⟨by simp [sql_string], ?_⟩
    intro r hr
    by_contra hp
    have hmem : r ∈ t.filter p := List.mem_filter.mpr ⟨hr, by simpa using hp⟩
    rw [hf] at hmem
    simp at hmem
  | cons x xs =>
    left
    have hx : x ∈ t.filter p := by rw [hf]; exact List.mem_cons_self _ _
    obtain ⟨hx1, hx2⟩ := List.mem_filter.mp hx
    exact ⟨by simp [sql_string, hcol x hx1 hx2], x, hx1, hx2⟩

theorem Table.update_of_no_match {α : Type} (t : Table α) (p : Int × α → Bool) (f : α → α)
    (h : ∀ r ∈ t, p r = false) : t.update p f = t := by
  unfold Table.update
  conv_rhs => rw [← List.map_id t]
  apply List.map_congr_left
  intro r hr
  simp [h r hr]

theorem count_eq_zero_iff {α : Type} (t : Table α) (p : Int × α → Bool) :
    sql_int (t.count p) = some 0 ↔ ∀ r ∈ t, p r = false := by
  simp only [sql_int, Table.count, List.head?_cons, Option.map_some', Option.getD_some,
    Option.some.injEq]
  constructor
  · intro h r hr
    by_contra hp
    have hmem : r ∈ t.filter p := List.mem_filter.mpr ⟨hr, by simpa using hp⟩
    have hpos : 0 < (t.filter p).length := List.length_pos_of_mem hmem
    omega
  · intro h
    have hnil : t.filter p = [] := by
      rw [List.filter_eq_nil_iff]
      intro r hr
      simp [h r hr]
    simp [hnil]

theorem report_host_is_iff (report : Int) (host : List Nat) (r : Int × report_hosts_row) :
    report_host_is report host r = true ↔ r.2.report = some report ∧ r.2.host = some host := by
  simp [report_host_is, sql_eq_some_iff]

/-- For a selector name without apostrophe and
any content of `nvt_selectors`, `nvt_selector_nvts_growing` returns 1 or 0,
and 1 exactly when the selector has a rule with `exclude = 0` of type ALL or
FAMILY; rules of type NVT and exclude rules do not count. -/
theorem nvt_selector_nvts_growing_plain (selector : List Nat) (s : State)
    (hsel : APOSTROPHE ∉ selector) :
    (nvt_selector_nvts_growing selector s = some 1
        ∨ nvt_selector_nvts_growing selector s = some 0)
      ∧ (nvt_selector_nvts_growing selector s = some 1 ↔
          ∃ r ∈ s.db.nvt_selectors, r.2.name = some selector ∧ r.2.exclude = some 0
            ∧ (r.2.type = some NVT_SELECTOR_TYPE_ALL
                ∨ r.2.type = some NVT_SELECTOR_TYPE_FAMILY)) := by
  unfold nvt_selector_nvts_growing
  rw [sql_raw_of_not_mem selector hsel]
  simp only []
  rcases sql_string_filter_name s.db.nvt_selectors
      (fun r => sql_eq r.2.name (some selector) && sql_eq r.2.exclude (some 0)
        && (sql_eq r.2.type (some NVT_SELECTOR_TYPE_ALL)
            || sql_eq r.2.type (some NVT_SELECTOR_TYPE_FAMILY)))
      (fun r => r.2.name) selector
      (by intro r _ hp
          simp only [Bool.and_eq_true, sql_eq_some_iff] at hp
          exact hp.1.1) with ⟨hstr, r, hr, hp⟩ | ⟨hstr, hall⟩
  · simp only [Option.map_some', hstr, true_or, true_iff]
    simp only [Bool.and_eq_true, Bool.or_eq_true, sql_eq_some_iff] at hp
    exact ⟨trivial, r, hr, hp.1.1, hp.1.2, hp.2⟩
  · simp only [Option.map_some', hstr, Option.some.injEq, zero_ne_one, or_true, false_iff,
      true_and, not_exists, not_and]
    intro r hr hname hexcl htype
    have hfalse := hall r hr
    have htrue : (sql_eq r.2.name (some selector) && sql_eq r.2.exclude (some 0)
        && (sql_eq r.2.type (some NVT_SELECTOR_TYPE_ALL)
            || sql_eq r.2.type (some NVT_SELECTOR_TYPE_FAMILY))) = true := by
      simp only [Bool.and_eq_true, Bool.or_eq_true, sql_eq_some_iff]
      exact ⟨⟨hname, hexcl⟩, htype⟩
    rw [htrue] at hfalse
    exact Bool.noConfusion hfalse

/-- For a selector name without apostrophe and
any content of `nvt_selectors`, `nvt_selector_families_growing` returns 1 or
0, and 1 exactly when the selector has a rule of type ALL with `exclude = 0`;
a FAMILY include rule or an ALL exclude rule alone gives 0. -/
theorem nvt_selector_families_growing_plain (selector : List Nat) (s : State)
    (hsel : APOSTROPHE ∉ selector) :
    (nvt_selector_families_growing selector s = some 1
        ∨ nvt_selector_families_growing selector s = some 0)
      ∧ (nvt_selector_families_growing selector s = some 1 ↔
          ∃ r ∈ s.db.nvt_selectors, r.2.name = some selector
            ∧ r.2.type = some NVT_SELECTOR_TYPE_ALL ∧ r.2.exclude = some 0) := by
  unfold nvt_selector_families_growing
  rw [sql_raw_of_not_mem selector hsel]
  simp only []
  rcases sql_string_filter_name s.db.nvt_selectors
      (fun r => sql_eq r.2.name (some selector) && sql_eq r.2.type (some NVT_SELECTOR_TYPE_ALL)
        && sql_eq r.2.exclude (some 0))
      (fun r => r.2.name) selector
      (by intro r _ hp
          simp only [Bool.and_eq_true, sql_eq_some_iff] at hp
          exact hp.1.1) with ⟨hstr, r, hr, hp⟩ | ⟨hstr, hall⟩
  · simp only [Option.map_some', hstr, true_or, true_iff]
    simp only [Bool.and_eq_true, sql_eq_some_iff] at hp
    exact ⟨trivial, r, hr, hp.1.1, hp.1.2, hp.2⟩
  · simp only [Option.map_some', hstr, Option.some.injEq, zero_ne_one, or_true, false_iff,
      true_and, not_exists, not_and]
    intro r hr hname htype hexcl
    have hfalse := hall r hr
    have htrue : (sql_eq r.2.name (some selector)
        && sql_eq r.2.type (some NVT_SELECTOR_TYPE_ALL)
        && sql_eq r.2.exclude (some 0)) = true := by
      simp only [Bool.and_eq_true, sql_eq_some_iff]
      exact ⟨⟨hname, htype⟩, hexcl⟩
    rw [htrue] at hfalse
    exact Bool.noConfusion hfalse

/-- For a UUID without apostrophe `find_task`
returns FALSE in both cases where the query runs: with `*task` the ROWID of
the first task of that UUID when there is one, and with `*task` 0 when there
is none; on the result of `sql_int64` it returns TRUE exactly for the code
-1, leaving `*task` as it was. -/
theorem find_task_plain (uuid : List Nat) (task : Int) (s : State)
    (huuid : APOSTROPHE ∉ uuid) :
    (∀ r rest, s.db.tasks.filter (fun r => sql_eq r.2.uuid (some uuid)) = r :: rest →
        find_task uuid task s = some (false, r.1))
      ∧ (s.db.tasks.filter (fun r => sql_eq r.2.uuid (some uuid)) = [] →
        find_task uuid task s = some (false, 0))
      ∧ (∀ (code : Int × Option Int) (out : Int),
          find_task_switch code task = some (true, out) ↔ code.1 = -1 ∧ out = task) := by
  refine ⟨?_, ?_, ?_⟩
  · intro r rest h
    unfold find_task
    rw [sql_raw_of_not_mem uuid huuid]
    simp only [h]
    simp [sql_int64, find_task_switch]
  · intro h
    unfold find_task
    rw [sql_raw_of_not_mem uuid huuid]
    simp only [h]
    simp [sql_int64, find_task_switch]
  · intro code out
    unfold find_task_switch
    by_cases h0 : code.1 = 0
    · simp [h0]
    · by_cases h1 : code.1 = 1
      · simp [h1]
      · by_cases h2 : code.1 = -1
        · simp [h2]
          exact eq_comm
        · simp [h0, h1, h2]

/-- For a report that is not negative and a host and a timestamp without
apostrophe, `set_scan_host_start_time` leaves a row for the report and host
with that start time.  When no such row existed the table is the old one
followed by one new row; when one existed no row is added and the rows of the
report and host differ from before in `start_time` only, all other rows
staying as they were.  The other tables do not change.
`set_scan_host_end_time` does the same with `end_time`. -/
theorem set_scan_host_time_plain (report : Int) (host timestamp : List Nat) (s : State)
    (hreport : 0 ≤ report) (hhost : APOSTROPHE ∉ host) (htime : APOSTROPHE ∉ timestamp) :
    (∃ s2, set_scan_host_start_time report host timestamp s = some s2
        ∧ s2 = { s with db := { s.db with report_hosts := s2.db.report_hosts } }
        ∧ (∃ r ∈ s2.db.report_hosts, r.2.report = some report ∧ r.2.host = some host
            ∧ r.2.start_time = some timestamp)
        ∧ ((∀ r ∈ s.db.report_hosts, ¬ (r.2.report = some report ∧ r.2.host = some host)) →
            s2.db.report_hosts = s.db.report_hosts ++
              [(s.db.report_hosts.next_rowid,
                { report := some report, host := some host, start_time := some timestamp,
                  end_time := none, attack_state := none, current_port := none,
                  max_port := none })])
        ∧ ((∃ r ∈ s.db.report_hosts, r.2.report = some report ∧ r.2.host = some host) →
            s2.db.report_hosts = s.db.report_hosts.map (fun r =>
              if r.2.report = some report ∧ r.2.host = some host then
                (r.1, { r.2 with start_time := some timestamp })
              else r)))
      ∧ (∃ s2, set_scan_host_end_time report host timestamp s = some s2
        ∧ s2 = { s with db := { s.db with report_hosts := s2.db.report_hosts } }
        ∧ (∃ r ∈ s2.db.report_hosts, r.2.report = some report ∧ r.2.host = some host
            ∧ r.2.end_time = some timestamp)
        ∧ ((∀ r ∈ s.db.report_hosts, ¬ (r.2.report = some report ∧ r.2.host = some host)) →
            s2.db.report_hosts = s.db.report_hosts ++
              [(s.db.report_hosts.next_rowid,
                { report := some report, host := some host, start_time := none,
                  end_time := some timestamp, attack_state := none, current_port := none,
                  max_port := none })])
        ∧ ((∃ r ∈ s.db.report_hosts, r.2.report = some report ∧ r.2.host = some host) →
            s2.db.report_hosts = s.db.report_hosts.map (fun r =>
              if r.2.report = some report ∧ r.2.host = some host then
                (r.1, { r.2 with end_time := some timestamp })
              else r))) := by
  have hmap : ∀ f : report_hosts_row → report_hosts_row,
      s.db.report_hosts.update (report_host_is report host) f
        = s.db.report_hosts.map (fun r =>
            if r.2.report = some report ∧ r.2.host = some host then (r.1, f r.2) else r) := by
    intro f
    unfold Table.update
    apply List.map_congr_left
    intro r _
    by_cases h : r.2.report = some report ∧ r.2.host = some host
    · simp [h, (report_host_is_iff report host r).mpr h]
    · have hf : report_host_is report host r = false := by
        cases hb : report_host_is report host r with
        | false => rfl
        | true => exact absurd ((report_host_is_iff report host r).mp hb) h
      simp [h, hf]
  by_cases hex : ∃ r ∈ s.db.report_hosts, r.2.report = some report ∧ r.2.host = some host
  · obtain ⟨r, hr, hrh⟩ := hex
    have hcount : sql_int (s.db.report_hosts.count (report_host_is report host)) ≠ some 0 :=
      count_ne_zero _ _ r hr ((report_host_is_iff report host r).mpr hrh)
    obtain ⟨count, hc⟩ : ∃ count,
        sql_int (s.db.report_hosts.count (report_host_is report host)) = some count :=
      ⟨_, rfl⟩
    have hc0 : count ≠ 0 := fun h0 => hcount (by rw [hc, h0])
    constructor
    · refine ⟨{ s with db := { s.db with
          report_hosts := s.db.report_hosts.update (report_host_is report host)
            (fun r => { r with start_time := some timestamp }) } }, ?_, rfl, ?_, ?_, ?_⟩
      · unfold set_scan_host_start_time
        rw [if_neg (not_lt.mpr hreport), sql_raw_of_not_mem host hhost,
          sql_raw_of_not_mem timestamp htime]
        simp only [hc, if_pos hc0]
      · refine ⟨(r.1, { r.2 with start_time := some timestamp }), ?_, hrh.1, hrh.2, rfl⟩
        simp only [hmap]
        exact List.mem_map.mpr ⟨r, hr, by simp [hrh]⟩
      · intro hno
        exact absurd hrh (hno r hr)
      · intro _
        exact hmap (fun r => { r with start_time := some timestamp })
    · refine ⟨{ s with db := { s.db with
          report_hosts := s.db.report_hosts.update (report_host_is report host)
            (fun r => { r with end_time := some timestamp }) } }, ?_, rfl, ?_, ?_, ?_⟩
      · unfold set_scan_host_end_time
        rw [if_neg (not_lt.mpr hreport), sql_raw_of_not_mem host hhost,
          sql_raw_of_not_mem timestamp htime]
        simp only [hc, if_pos hc0]
      · refine ⟨(r.1, { r.2 with end_time := some timestamp }), ?_, hrh.1, hrh.2, rfl⟩
        simp only [hmap]
        exact List.mem_map.mpr ⟨r, hr, by simp [hrh]⟩
      · intro hno
        exact absurd hrh (hno r hr)
      · intro _
        exact hmap (fun r => { r with end_time := some timestamp })
  · have hno : ∀ r ∈ s.db.report_hosts, report_host_is report host r = false := by
      intro r hr
      cases hb : report_host_is report host r with
      | false => rfl
      | true => exact absurd ⟨r, hr, (report_host_is_iff report host r).mp hb⟩ hex
    have hcount : sql_int (s.db.report_hosts.count (report_host_is report host)) = some 0 :=
      (count_eq_zero_iff _ _).mpr hno
    constructor
    · refine ⟨{ s with db := { s.db with
          report_hosts := s.db.report_hosts.insert
            { report := some report, host := some host, start_time := some timestamp,
              end_time := none, attack_state := none, current_port := none,
              max_port := none } } }, ?_, rfl, ?_, ?_, ?_⟩
      · unfold set_scan_host_start_time
        rw [if_neg (not_lt.mpr hreport), sql_raw_of_not_mem host hhost,
          sql_raw_of_not_mem timestamp htime]
        simp only [hcount, ne_eq, not_true_eq_false, if_false]
      · exact ⟨_, List.mem_append_right _ (List.mem_singleton_self _), rfl, rfl, rfl⟩
      · intro _
        rfl
      · intro h
        exact absurd h hex
    · refine ⟨{ s with db := { s.db with
          report_hosts := s.db.report_hosts.insert
            { report := some report, host := some host, start_time := none,
              end_time := some timestamp, attack_state := none, current_port := none,
              max_port := none } } }, ?_, rfl, ?_, ?_, ?_⟩
      · unfold set_scan_host_end_time
        rw [if_neg (not_lt.mpr hreport), sql_raw_of_not_mem host hhost,
          sql_raw_of_not_mem timestamp htime]
        simp only [hcount, ne_eq, not_true_eq_false, if_false]
      · exact ⟨_, List.mem_append_right _ (List.mem_singleton_self _), rfl, rfl, rfl⟩
      · intro _
        rfl
      · intro h
        exact absurd h hex

/-! ### Lemmas on the RC file reader -/

theorem foldl_insert_rows {α β : Type} (f : β → α) (l : List β) (t : Table α) :
    (l.foldl (fun t x => t.insert (f x)) t).map Prod.snd = t.map Prod.snd ++ l.map f := by
  induction l generalizing t with
  | nil => simp
  | cons x xs ih =>
    rw [List.foldl_cons, ih]
    simp [Table.insert]

theorem clude_rows (selector buf : List Nat) (array : List Nat) (exclude : Int) (s : State) :
    (clude selector buf array exclude s).db.nvt_selectors.map Prod.snd
        = s.db.nvt_selectors.map Prod.snd ++ array.map (clude_row selector buf exclude)
      ∧ (clude selector buf array exclude s).db.configs = s.db.configs := by
  constructor
  · exact foldl_insert_rows (clude_row selector buf exclude) array s.db.nvt_selectors
  · rfl

theorem rc_finish_static (config : Int) (selector : List Nat) (st : rc_state) :
    (rc_finish config selector st).db.nvt_selectors.map Prod.snd
        = st.s.db.nvt_selectors.map Prod.snd
            ++ st.yes.map (clude_row selector st.buf 0)
            ++ st.no.map (clude_row selector st.buf 1)
      ∧ (rc_finish config selector st).db.configs
        = st.s.db.configs.update (fun r => sql_eq r.2.name (some selector))
            (fun r => { r with nvt_count := some (st.yes.length : Int),
                               family_count := some st.family_count,
                               families_growing := some 0, nvts_growing := some 0 }) := by
  unfold rc_finish
  simp only [config_preference_null, Option.isSome_none, Bool.false_eq_true, false_and,
    if_false]
  constructor
  · rw [(clude_rows selector st.buf st.no 1 _).1, (clude_rows selector st.buf st.yes 0 _).1]
  · rw [(clude_rows selector st.buf st.no 1 _).2, (clude_rows selector st.buf st.yes 0 _).2]

theorem count_apostrophes_append (a b : List Nat) (ha : 0 ∉ a) :
    count_apostrophes (a ++ b) = (count_apostrophes b).map (· + a.count APOSTROPHE) := by
  induction a with
  | nil => simp
  | cons c rest ih =>
    have hc : c ≠ 0 := fun h => ha (by simp [h])
    have hr : 0 ∉ rest := fun h => ha (by simp [h])
    show count_apostrophes (c :: (rest ++ b)) = _
    by_cases h : c = APOSTROPHE
    · subst h
      rw [count_apostrophes, if_neg hc, if_pos rfl, ih hr]
      cases count_apostrophes b with
      | none => rfl
      | some k => simp [Nat.add_assoc]
    · rw [count_apostrophes, if_neg hc, if_neg h, ih hr]
      cases count_apostrophes b with
      | none => rfl
      | some k => simp [List.count_cons, Ne.symm h]

theorem count_apostrophes_of_mem (l : List Nat) (h : 0 ∈ l) : ∃ k, count_apostrophes l = some k := by
  induction l with
  | nil => simp at h
  | cons c rest ih =>
    by_cases hc : c = 0
    · exact ⟨0, by simp [count_apostrophes, hc]⟩
    · have hr : 0 ∈ rest := by
        rcases List.mem_cons.mp h with h1 | h1
        · exact absurd h1.symm hc
        · exact h1
      obtain ⟨k, hk⟩ := ih hr
      by_cases ha : c = APOSTROPHE
      · exact ⟨k + 1, by rw [count_apostrophes, if_neg hc, if_pos ha, hk]; rfl⟩
      · exact ⟨k, by rw [count_apostrophes, if_neg hc, if_neg ha, hk]⟩

/-- On memory that starts with the NUL free bytes `a`, `sql_nquote` with
length `a.length` returns the quoted copy of `a`, whatever follows as long
as the memory has a terminator. -/
theorem sql_nquote_prefix (a b : List Nat) (ha : 0 ∉ a) (hb : 0 ∈ b) :
    sql_nquote (a ++ b) a.length = some (nquote_copy a) := by
  obtain ⟨k, hk⟩ := count_apostrophes_of_mem b hb
  have hlen : (nquote_copy a).length ≤ a.length + (k + a.count APOSTROPHE) + 1 := by
    rw [nquote_copy_length]; omega
  have hnul : 0 ∉ nquote_copy a := nquote_copy_no_nul _ ha
  obtain ⟨j, hj⟩ : ∃ j, a.length + (k + a.count APOSTROPHE) + 1 - (nquote_copy a).length
      = j + 1 := ⟨k, by rw [nquote_copy_length]; omega⟩
  simp only [sql_nquote, sql_nquote_buffer, sql_nquote_alloc, count_apostrophes_append a b ha,
    hk, Option.map_some', List.take_left', List.length_append]
  rw [if_pos ⟨by omega, hlen⟩, hj, List.replicate_succ]
  simpa using c_string_append_nul _ _ hnul

theorem sql_quoted_literal_prefix (a b : List Nat) (ha : 0 ∉ a) (hb : 0 ∈ b) :
    sql_quoted_literal (sql_nquote (a ++ b) a.length) = some a := by
  simp [sql_quoted_literal, sql_nquote_prefix a b ha hb, sql_unquote_nquote_copy]

theorem strchr_append (a b : List Nat) (c : Nat) (hc : c ∉ a) (h0 : 0 ∉ a) :
    strchr (a ++ c :: b) c = some a.length := by
  induction a with
  | nil => simp [strchr]
  | cons x rest ih =>
    have hx : x ≠ c := fun h => hc (by simp [h])
    have hx0 : x ≠ 0 := fun h => h0 (by simp [h])
    have hr : c ∉ rest := fun h => hc (by simp [h])
    have hr0 : 0 ∉ rest := fun h => h0 (by simp [h])
    simp [strchr, hx, hx0, ih hr hr0]

theorem memchr_append (a b : List Nat) (c n : Nat) (hc : c ∉ a) (hn : a.length < n) :
    memchr (a ++ c :: b) c n = some a.length := by
  induction a generalizing n with
  | nil =>
    cases n with
    | zero => simp at hn
    | succ n => simp [memchr]
  | cons x rest ih =>
    have hx : x ≠ c := fun h => hc (by simp [h])
    have hr : c ∉ rest := fun h => hc (by simp [h])
    cases n with
    | zero => simp at hn
    | succ n =>
      have hn2 : rest.length < n := by simp only [List.length_cons] at hn; omega
      simp [memchr, hx, ih n hr hn2]

theorem get?_append_length (a b : List Nat) (x : Nat) : (a ++ x :: b).get? a.length = some x := by
  induction a with
  | nil => rfl
  | cons y ys ih => simpa using ih

theorem trim_back_spaces (x : List Nat) (k n : Nat) (rest : List Nat) (hk : k ≠ 32) :
    trim_back (x ++ k :: (List.replicate n 32 ++ rest)) (x.length + 1 + n)
      = some (x.length + 1) := by
  induction n generalizing rest with
  | zero =>
    simp only [List.replicate_zero, List.nil_append, Nat.add_zero]
    rw [trim_back, get?_append_length]
    simp [hk]
  | succ n ih =>
    have hbuf : x ++ k :: (List.replicate (n + 1) 32 ++ rest)
        = x ++ k :: (List.replicate n 32 ++ 32 :: rest) := by
      rw [List.replicate_succ']
      simp
    have hget : (x ++ k :: (List.replicate n 32 ++ 32 :: rest)).get? (x.length + 1 + n)
        = some 32 := by
      have hl : x.length + 1 + n = (x ++ k :: List.replicate n 32).length := by
        simp only [List.length_append, List.length_cons, List.length_replicate]
        omega
      have hb : x ++ k :: (List.replicate n 32 ++ 32 :: rest)
          = (x ++ k :: List.replicate n 32) ++ 32 :: rest := by simp
      rw [hl, hb]
      exact get?_append_length _ _ _
    rw [hbuf, ← Nat.add_assoc, trim_back, hget]
    simp only [if_true]
    exact ih (32 :: rest)

theorem skip_spaces_eq (head : List Nat) (n k : Nat) (rest : List Nat) (hk : k ≠ 32) :
    skip_spaces (head ++ (List.replicate n 32 ++ k :: rest)) head.length = head.length + n := by
  unfold skip_spaces
  rw [List.drop_left]
  congr 1
  induction n with
  | zero => simp [hk]
  | succ n ih => simpa [List.replicate_succ] using ih

theorem size_t_of_nat (n : Nat) (h : n < 2 ^ 64) : size_t (n : Int) = n := by
  unfold size_t
  have h2 : ((n : Int) % 2 ^ 64) = (n : Int) := by
    apply Int.emod_eq_of_lt
    · exact Int.ofNat_nonneg n
    · exact_mod_cast h
  rw [h2]
  simp

/-- What the body of `if (eq)` does on a `key = value` line: the name is the
key without the spaces around it, the value is the bytes from the second
byte after the equals sign to the newline. -/
theorem rc_preference_line (config : Int) (type : Option (List Nat)) (st : rc_state)
    (head : List Nat) (a : Nat) (key : List Nat) (b c : Nat) (value tail : List Nat)
    (hbuf : st.buf = rc_line_buffer head a key b c value tail)
    (hkey : key ≠ []) (hfirst : key.head? ≠ some 32) (hlast : key.getLast? ≠ some 32)
    (hkey0 : 0 ∉ key) (hvalue0 : 0 ∉ value) (htail : 0 ∈ tail)
    (hsize : st.buf.length < 2 ^ 64) :
    rc_preference config type st head.length (head.length + a + key.length + b)
        (some (head.length + a + key.length + b + 2 + value.length))
      = some (rc_store_preference config type key value st) := by
  obtain ⟨k0, krest, hk0⟩ := List.exists_cons_of_ne_nil hkey
  have hk032 : k0 ≠ 32 := by
    intro h; apply hfirst; rw [hk0, h]; rfl
  have hkl : key = key.dropLast ++ [key.getLast hkey] := (List.dropLast_append_getLast hkey).symm
  have hkl32 : key.getLast hkey ≠ 32 := by
    intro h; apply hlast; rw [List.getLast?_eq_getLast _ hkey, h]
  have hklen : key.length = key.dropLast.length + 1 := by
    conv_lhs => rw [hkl]
    simp
  -- the three scans
  have htrim : trim_back st.buf (head.length + a + key.length + b)
      = some (head.length + a + key.length) := by
    have hb : st.buf = (head ++ List.replicate a 32 ++ key.dropLast)
        ++ key.getLast hkey :: (List.replicate b 32
          ++ 61 :: c :: (value ++ 10 :: tail)) := by
      rw [hbuf, rc_line_buffer]
      conv_lhs => rw [hkl]
      simp [List.append_assoc]
    have hl : head.length + a + key.length + b
        = (head ++ List.replicate a 32 ++ key.dropLast).length + 1 + b := by
      simp only [List.length_append, List.length_replicate]; omega
    have hl2 : head.length + a + key.length
        = (head ++ List.replicate a 32 ++ key.dropLast).length + 1 := by
      simp only [List.length_append, List.length_replicate]; omega
    rw [hb, hl, hl2]
    exact trim_back_spaces _ _ _ _ hkl32
  have hskip : skip_spaces st.buf head.length = head.length + a := by
    have hb : st.buf = head ++ (List.replicate a 32 ++ k0 :: (krest
        ++ (List.replicate b 32 ++ 61 :: c :: (value ++ 10 :: tail)))) := by
      rw [hbuf, rc_line_buffer, hk0]
      simp
    rw [hb]
    exact skip_spaces_eq _ _ _ _ hk032
  have hdrop1 : st.buf.drop (head.length + a)
      = key ++ (List.replicate b 32 ++ 61 :: c :: (value ++ 10 :: tail)) := by
    have hb : st.buf = (head ++ List.replicate a 32)
        ++ (key ++ (List.replicate b 32 ++ 61 :: c :: (value ++ 10 :: tail))) := by
      rw [hbuf, rc_line_buffer]; simp
    rw [hb]
    exact List.drop_left' (by simp)
  have hdrop2 : st.buf.drop (head.length + a + key.length + b + 2) = value ++ 10 :: tail := by
    have hb : st.buf = (head ++ List.replicate a 32 ++ key ++ List.replicate b 32 ++ [61, c])
        ++ (value ++ 10 :: tail) := by
      rw [hbuf, rc_line_buffer]; simp
    rw [hb]
    exact List.drop_left' (by
      simp only [List.length_append, List.length_replicate, List.length_cons,
        List.length_nil])
  have hname : sql_quoted_literal (sql_nquote (st.buf.drop (head.length + a))
      (head.length + a + key.length - (head.length + a))) = some key := by
    rw [hdrop1, Nat.add_sub_cancel_left]
    exact sql_quoted_literal_prefix key _ hkey0
      (by simp only [List.mem_append, List.mem_cons]; right; right; right; right; right
          exact htail)
  have hvlen : value.length < 2 ^ 64 := by
    have : value.length ≤ st.buf.length := by
      rw [hbuf, rc_line_buffer]; simp only [List.length_append, List.length_cons]; omega
    omega
  have hsz : size_t (((head.length + a + key.length + b + 2 + value.length : Nat) : Int)
      - (((head.length + a + key.length + b : Nat) : Int) + 2)) = value.length := by
    have : ((head.length + a + key.length + b + 2 + value.length : Nat) : Int)
        - (((head.length + a + key.length + b : Nat) : Int) + 2) = (value.length : Int) := by
      push_cast; ring
    rw [this]
    exact size_t_of_nat _ hvlen
  have hvalue : sql_quoted_literal (sql_nquote (st.buf.drop (head.length + a + key.length + b + 2))
      value.length) = some value := by
    rw [hdrop2]
    exact sql_quoted_literal_prefix value _ hvalue0 (by simp [htail])
  have hlt : head.length + a < head.length + a + key.length := by omega
  unfold rc_preference
  simp only [htrim, hskip, if_pos hlt, hsz, Option.some_bind, hname, hvalue]
  rfl

/-- The two scans at the start of a `key = value` line: `strchr` finds the
newline of the line and `memchr` the equals sign after the key. -/
theorem rc_line_scans (st : rc_state)
    (head : List Nat) (a : Nat) (key : List Nat) (b c : Nat) (value tail : List Nat)
    (hbuf : st.buf = rc_line_buffer head a key b c value tail)
    (hkey0 : 0 ∉ key) (hkey10 : 10 ∉ key) (hkey61 : 61 ∉ key)
    (hc0 : c ≠ 0) (hc10 : c ≠ 10) (hvalue0 : 0 ∉ value) (hvalue10 : 10 ∉ value) :
    (strchr (st.buf.drop head.length) 10).map (· + head.length)
        = some (head.length + a + key.length + b + 2 + value.length)
      ∧ (memchr (st.buf.drop head.length) 61
            (head.length + a + key.length + b + 2 + value.length - head.length)).map
          (· + head.length)
        = some (head.length + a + key.length + b) := by
  have hdrop : st.buf.drop head.length
      = List.replicate a 32 ++ (key ++ (List.replicate b 32
          ++ 61 :: c :: (value ++ 10 :: tail))) := by
    rw [hbuf, rc_line_buffer]
    exact List.drop_left _ _
  constructor
  · have hb : st.buf.drop head.length
        = (List.replicate a 32 ++ key ++ List.replicate b 32 ++ 61 :: c :: value)
            ++ 10 :: tail := by
      rw [hdrop]; simp
    have h10 : 10 ∉ List.replicate a 32 ++ key ++ List.replicate b 32 ++ 61 :: c :: value := by
      simp only [List.mem_append, List.mem_replicate, List.mem_cons, not_or, not_and]
      exact ⟨⟨⟨fun _ => by decide, hkey10⟩, fun _ => by decide⟩, by decide, Ne.symm hc10,
        hvalue10⟩
    have h0 : 0 ∉ List.replicate a 32 ++ key ++ List.replicate b 32 ++ 61 :: c :: value := by
      simp only [List.mem_append, List.mem_replicate, List.mem_cons, not_or, not_and]
      exact ⟨⟨⟨fun _ => by decide, hkey0⟩, fun _ => by decide⟩, by decide, Ne.symm hc0,
        hvalue0⟩
    rw [hb, strchr_append _ _ _ h10 h0]
    simp only [Option.map_some', Option.some.injEq, List.length_append, List.length_replicate,
      List.length_cons]
    omega
  · have hb : st.buf.drop head.length
        = (List.replicate a 32 ++ key ++ List.replicate b 32)
            ++ 61 :: (c :: (value ++ 10 :: tail)) := by
      rw [hdrop]; simp
    have h61 : 61 ∉ List.replicate a 32 ++ key ++ List.replicate b 32 := by
      simp only [List.mem_append, List.mem_replicate, not_or, not_and]
      exact ⟨⟨fun _ => by decide, hkey61⟩, fun _ => by decide⟩
    have hn : (List.replicate a 32 ++ key ++ List.replicate b 32).length
        < head.length + a + key.length + b + 2 + value.length - head.length := by
      simp only [List.length_append, List.length_replicate]
      omega
    rw [hb, memchr_append _ _ _ _ h61 hn]
    simp only [Option.map_some', Option.some.injEq, List.length_append, List.length_replicate]
    omega

/-- One round of the `while (1)` loop of `insert_rc_into_config` on a
`key = value` line outside a section. -/
theorem rc_lines_key_value (fuel : Nat) (config : Int) (st : rc_state)
    (head : List Nat) (a : Nat) (key : List Nat) (b c : Nat) (value tail : List Nat)
    (hbuf : st.buf = rc_line_buffer head a key b c value tail)
    (hkey : key ≠ []) (hfirst : key.head? ≠ some 32) (hlast : key.getLast? ≠ some 32)
    (hkey0 : 0 ∉ key) (hkey10 : 10 ∉ key) (hkey61 : 61 ∉ key)
    (hc0 : c ≠ 0) (hc10 : c ≠ 10) (hvalue0 : 0 ∉ value) (hvalue10 : 10 ∉ value)
    (htail : 0 ∈ tail) (hsize : st.buf.length < 2 ^ 64) :
    rc_lines (fuel + 1) config st head.length
      = rc_lines fuel config (rc_store_preference config none key value st)
          (head.length + a + key.length + b + 2 + value.length + 1) := by
  obtain ⟨hseek, heq⟩ := rc_line_scans st head a key b c value tail hbuf hkey0 hkey10 hkey61
    hc0 hc10 hvalue0 hvalue10
  have hpref := rc_preference_line config none st head a key b c value tail hbuf hkey hfirst
    hlast hkey0 hvalue0 htail hsize
  rw [rc_lines]
  simp only [hseek, heq, hpref, Option.map_some']

/-- One round of the loop over the lines of a generic section on a
`key = value` line that does not start with `end(`. -/
theorem rc_section_key_value (fuel : Nat) (config : Int) (type : Option (List Nat))
    (st : rc_state)
    (head : List Nat) (a : Nat) (key : List Nat) (b c : Nat) (value tail : List Nat)
    (hbuf : st.buf = rc_line_buffer head a key b c value tail)
    (hkey : key ≠ []) (hfirst : key.head? ≠ some 32) (hlast : key.getLast? ≠ some 32)
    (hkey0 : 0 ∉ key) (hkey10 : 10 ∉ key) (hkey61 : 61 ∉ key)
    (hc0 : c ≠ 0) (hc10 : c ≠ 10) (hvalue0 : 0 ∉ value) (hvalue10 : 10 ∉ value)
    (htail : 0 ∈ tail) (hsize : st.buf.length < 2 ^ 64)
    (hend : strncmp_eq (st.buf.drop head.length) (str "end(") = false) :
    rc_section (fuel + 1) config type st head.length
      = rc_section fuel config type (rc_store_preference config type key value st)
          (head.length + a + key.length + b + 2 + value.length + 1) := by
  obtain ⟨hseek, heq⟩ := rc_line_scans st head a key b c value tail hbuf hkey0 hkey10 hkey61
    hc0 hc10 hvalue0 hvalue10
  have hpref := rc_preference_line config type st head a key b c value tail hbuf hkey hfirst
    hlast hkey0 hvalue0 htail hsize
  rw [rc_section]
  simp only [hseek, heq, hpref, hend, Bool.false_eq_true, and_false, if_false]

theorem rc_finish_config_preferences (config : Int) (selector : List Nat) (st : rc_state) :
    (rc_finish config selector st).db.config_preferences = st.s.db.config_preferences := by
  unfold rc_finish
  simp only [config_preference_null, Option.isSome_none, Bool.false_eq_true, false_and,
    if_false]
  rfl

/-- At the terminator of the text the `while (1)` loop ends. -/
theorem rc_lines_at_end (fuel : Nat) (config : Int) (st : rc_state) (rc : Nat)
    (h : st.buf.drop rc = [0]) :
    rc_lines (fuel + 1) config st rc = some st := by
  rw [rc_lines]
  simp [h, strchr, is_plugin_begin]

theorem rc_line_length (a : Nat) (key : List Nat) (b c : Nat) (value : List Nat) :
    (rc_line a key b c value).length = a + key.length + b + 2 + value.length + 1 := by
  simp [rc_line]
  omega

theorem memchr_none (l : List Nat) (c : Nat) :
    ∀ n : Nat, c ∉ l.take n → memchr l c n = none := by
  induction l with
  | nil => intro n _; cases n <;> rfl
  | cons x rest ih =>
    intro n h
    cases n with
    | zero => rfl
    | succ n =>
      have hx : x ≠ c := fun hxc => h (by simp [hxc])
      have hr : c ∉ rest.take n := fun hm => h (by simp [hm])
      simp [memchr, hx, ih n hr]

theorem strncmp_eq_append (a b lit : List Nat) (h : lit.length ≤ a.length) :
    strncmp_eq (a ++ b) lit = strncmp_eq a lit := by
  unfold strncmp_eq
  rw [List.take_append_of_le_length h]

/-- The round of the loop over a generic section on the line `end(name)`:
the loop ends at the newline of that line. -/
theorem rc_section_end_line (fuel : Nat) (config : Int) (type : Option (List Nat))
    (st : rc_state) (p : Nat) (name tail : List Nat)
    (hdrop : st.buf.drop p = (str "end(" ++ name ++ [41]) ++ 10 :: tail)
    (hn : name ≠ []) (hn0 : 0 ∉ name) (hn10 : 10 ∉ name) :
    rc_section (fuel + 1) config type st p = some (st, some (p + 5 + name.length)) := by
  have hstr : str "end(" = [101, 110, 100, 40] := by decide
  have h10 : 10 ∉ str "end(" ++ name ++ [41] := by
    rw [hstr]; simp [hn10]
  have h0 : 0 ∉ str "end(" ++ name ++ [41] := by
    rw [hstr]; simp [hn0]
  have hlen : (str "end(" ++ name ++ [41]).length = 5 + name.length := by
    rw [hstr]; simp; omega
  have hpos : 0 < name.length := List.length_pos.mpr hn
  have hcmp : strncmp_eq (str "end(" ++ name ++ [41] ++ 10 :: tail) (str "end(") = true := by
    rw [hstr]; simp [strncmp_eq]
  rw [rc_section, hdrop, strchr_append _ _ _ h10 h0, hlen]
  simp only [Option.map_some', hcmp, and_true]
  rw [if_pos (by omega)]
  congr 3
  omega

theorem rc_line_append (head : List Nat) (l : key_value_line) (tail : List Nat) :
    head ++ (l.text ++ tail) = rc_line_buffer head l.a l.key l.b l.c l.value tail := by
  simp [key_value_line.text, rc_line, rc_line_buffer]

theorem key_value_line_length (l : key_value_line) :
    l.text.length = l.a + l.key.length + l.b + 2 + l.value.length + 1 :=
  rc_line_length _ _ _ _ _

theorem rc_text_cons (l : key_value_line) (rest : List key_value_line) :
    rc_text (l :: rest) = l.text ++ rc_text rest := by
  simp [rc_text]

theorem rc_text_length (lines : List key_value_line) :
    lines.length ≤ (rc_text lines).length := by
  induction lines with
  | nil => simp
  | cons l rest ih =>
    rw [rc_text_cons, List.length_append, key_value_line_length, List.length_cons]
    omega

theorem rc_store_lines_buf (config : Int) (type : Option (List Nat))
    (lines : List key_value_line) (st : rc_state) :
    (rc_store_lines config type lines st).buf = st.buf := by
  induction lines generalizing st with
  | nil => rfl
  | cons l rest ih =>
    show (rc_store_lines config type rest _).buf = st.buf
    rw [ih]
    rfl

theorem rc_store_lines_preferences (config : Int) (type : Option (List Nat))
    (lines : List key_value_line) (st : rc_state) :
    (rc_store_lines config type lines st).s.db.config_preferences
      = insert_lines config type lines st.s.db.config_preferences := by
  induction lines generalizing st with
  | nil => rfl
  | cons l rest ih =>
    show (rc_store_lines config type rest _).s.db.config_preferences = _
    rw [ih]
    rfl

/-- The rounds of the `while (1)` loop on a run of `key = value` lines
outside a section. -/
theorem rc_lines_text (config : Int) (tail : List Nat) (htail : 0 ∈ tail)
    (lines : List key_value_line) :
    ∀ (fuel : Nat) (head : List Nat) (st : rc_state),
      st.buf = head ++ (rc_text lines ++ tail) → (∀ l ∈ lines, l.ok) →
      st.buf.length < 2 ^ 64 →
      rc_lines (fuel + lines.length) config st head.length
        = rc_lines fuel config (rc_store_lines config none lines st)
            (head.length + (rc_text lines).length) := by
  induction lines with
  | nil =>
    intro fuel head st _ _ _
    rfl
  | cons l rest ih =>
    intro fuel head st hbuf hok hsize
    obtain ⟨h1, h2, h3, h4, h5, h6, h7, h8, h9, h10⟩ := hok l (List.mem_cons_self _ _)
    have hbuf1 : st.buf = rc_line_buffer head l.a l.key l.b l.c l.value (rc_text rest ++ tail) := by
      rw [hbuf, rc_text_cons, List.append_assoc]
      exact rc_line_append head l _
    have hstep := rc_lines_key_value (fuel + rest.length) config st head l.a l.key l.b l.c
      l.value (rc_text rest ++ tail) hbuf1 h1 h2 h3 h4 h5 h6 h7 h8 h9 h10
      (List.mem_append_right _ htail) hsize
    have hpos : head.length + l.a + l.key.length + l.b + 2 + l.value.length + 1
        = (head ++ l.text).length := by
      rw [List.length_append, key_value_line_length]; omega
    have hbuf2 : (rc_store_preference config none l.key l.value st).buf
        = (head ++ l.text) ++ (rc_text rest ++ tail) := by
      show st.buf = _
      rw [hbuf, rc_text_cons]
      simp
    rw [List.length_cons, ← Nat.add_assoc, hstep, hpos,
      ih fuel (head ++ l.text) _ hbuf2 (fun x hx => hok x (List.mem_cons_of_mem _ hx)) hsize]
    congr 1
    rw [rc_text_cons, List.length_append, List.length_append]
    omega

/-- The rounds of the loop over a generic section on a run of `key = value`
lines none of which starts with `end(`. -/
theorem rc_section_text_lines (config : Int) (type : Option (List Nat)) (tail : List Nat)
    (htail : 0 ∈ tail) (lines : List key_value_line) :
    ∀ (fuel : Nat) (head : List Nat) (st : rc_state),
      st.buf = head ++ (rc_text lines ++ tail) → (∀ l ∈ lines, l.ok) →
      (∀ l ∈ lines, strncmp_eq l.text (str "end(") = false) →
      st.buf.length < 2 ^ 64 →
      rc_section (fuel + lines.length) config type st head.length
        = rc_section fuel config type (rc_store_lines config type lines st)
            (head.length + (rc_text lines).length) := by
  induction lines with
  | nil =>
    intro fuel head st _ _ _ _
    rfl
  | cons l rest ih =>
    intro fuel head st hbuf hok hnoend hsize
    obtain ⟨h1, h2, h3, h4, h5, h6, h7, h8, h9, h10⟩ := hok l (List.mem_cons_self _ _)
    have hbuf1 : st.buf = rc_line_buffer head l.a l.key l.b l.c l.value (rc_text rest ++ tail) := by
      rw [hbuf, rc_text_cons, List.append_assoc]
      exact rc_line_append head l _
    have hkpos : 0 < l.key.length := List.length_pos.mpr h1
    have hend : strncmp_eq (st.buf.drop head.length) (str "end(") = false := by
      have hstr : str "end(" = [101, 110, 100, 40] := by decide
      rw [hbuf, List.drop_left, rc_text_cons, List.append_assoc,
        strncmp_eq_append _ _ _ (by rw [key_value_line_length, hstr]; simp; omega)]
      exact hnoend l (List.mem_cons_self _ _)
    have hstep := rc_section_key_value (fuel + rest.length) config type st head l.a l.key l.b
      l.c l.value (rc_text rest ++ tail) hbuf1 h1 h2 h3 h4 h5 h6 h7 h8 h9 h10
      (List.mem_append_right _ htail) hsize hend
    have hpos : head.length + l.a + l.key.length + l.b + 2 + l.value.length + 1
        = (head ++ l.text).length := by
      rw [List.length_append, key_value_line_length]; omega
    have hbuf2 : (rc_store_preference config type l.key l.value st).buf
        = (head ++ l.text) ++ (rc_text rest ++ tail) := by
      show st.buf = _
      rw [hbuf, rc_text_cons]
      simp
    rw [List.length_cons, ← Nat.add_assoc, hstep, hpos,
      ih fuel (head ++ l.text) _ hbuf2 (fun x hx => hok x (List.mem_cons_of_mem _ hx))
        (fun x hx => hnoend x (List.mem_cons_of_mem _ hx)) hsize]
    congr 1
    rw [rc_text_cons, List.length_append, List.length_append]
    omega

/-- The run of the loop on a text made of `key = value` lines. -/
theorem rc_lines_all_lines (config : Int) (s : State) (lines : List key_value_line)
    (hok : ∀ l ∈ lines, l.ok) (hsize : (rc_text lines).length + 1 < 2 ^ 64) :
    rc_lines ((rc_text lines).length + 2) config (rc_start (rc_text lines) s) 0
      = some (rc_store_lines config none lines (rc_start (rc_text lines) s)) := by
  have hlen := rc_text_length lines
  have hfuel : (rc_text lines).length + 2
      = ((rc_text lines).length - lines.length + 1) + 1 + lines.length := by omega
  have hstep := rc_lines_text config [0] (by simp) lines
    ((rc_text lines).length - lines.length + 1 + 1) [] (rc_start (rc_text lines) s)
    (by simp [rc_start]) hok (by simpa [rc_start] using hsize)
  simp only [List.length_nil, Nat.zero_add] at hstep
  rw [hfuel, hstep]
  apply rc_lines_at_end
  rw [rc_store_lines_buf]
  exact List.drop_left _ _

/-- The run of the loop on a text that is one generic section of
`key = value` lines. -/
theorem rc_lines_one_section (config : Int) (s : State) (name : List Nat)
    (lines : List key_value_line)
    (hn : name ≠ []) (hn0 : 0 ∉ name) (hn10 : 10 ∉ name) (hn61 : 61 ∉ name)
    (hp1 : is_plugin_begin (rc_section_text name (rc_text lines) ++ [0]) 0
      (some (7 + name.length)) (str "PLUGIN_SET") = false)
    (hp2 : is_plugin_begin (rc_section_text name (rc_text lines) ++ [0]) 0
      (some (7 + name.length)) (str "SCANNER_SET") = false)
    (hok : ∀ l ∈ lines, l.ok)
    (hnoend : ∀ l ∈ lines, strncmp_eq l.text (str "end(") = false)
    (hsize : (rc_section_text name (rc_text lines)).length + 1 < 2 ^ 64) :
    rc_lines ((rc_section_text name (rc_text lines)).length + 2) config
        (rc_start (rc_section_text name (rc_text lines)) s) 0
      = some (rc_store_lines config (some name) lines
          (rc_start (rc_section_text name (rc_text lines)) s)) := by
  have hbegin : str "begin(" = [98, 101, 103, 105, 110, 40] := by decide
  have hendstr : str "end(" = [101, 110, 100, 40] := by decide
  have hpos : 0 < name.length := List.length_pos.mpr hn
  have hlines := rc_text_length lines
  -- the buffer, seen from the first line and from the lines of the section
  have hb1 : (rc_start (rc_section_text name (rc_text lines)) s).buf
      = (str "begin(" ++ name ++ [41]) ++ 10 :: (rc_text lines
          ++ (str "end(" ++ name ++ [41, 10] ++ [0])) := by
    simp [rc_start, rc_section_text]
  have hb2 : (rc_start (rc_section_text name (rc_text lines)) s).buf
      = (str "begin(" ++ name ++ [41, 10]) ++ (rc_text lines
          ++ (str "end(" ++ name ++ [41, 10] ++ [0])) := by
    simp [rc_start, rc_section_text]
  have hb3 : (rc_start (rc_section_text name (rc_text lines)) s).buf
      = (str "begin(" ++ name ++ [41, 10] ++ rc_text lines)
          ++ ((str "end(" ++ name ++ [41]) ++ 10 :: [0]) := by
    simp [rc_start, rc_section_text]
  have hb4 : (rc_start (rc_section_text name (rc_text lines)) s).buf
      = rc_section_text name (rc_text lines) ++ [0] := rfl
  have hhead : (str "begin(" ++ name ++ [41, 10]).length = 7 + name.length + 1 := by
    rw [hbegin]; simp; omega
  have hl1 : (str "begin(" ++ name ++ [41]).length = 7 + name.length := by
    rw [hbegin]; simp; omega
  have htotal : (rc_section_text name (rc_text lines)).length
      = 7 + name.length + 1 + (rc_text lines).length + 5 + name.length + 1 := by
    simp only [rc_section_text, List.length_append, hhead, hendstr, List.length_cons,
      List.length_nil]
    omega
  have h10 : 10 ∉ str "begin(" ++ name ++ [41] := by
    rw [hbegin]; simp [hn10]
  have h0 : 0 ∉ str "begin(" ++ name ++ [41] := by
    rw [hbegin]; simp [hn0]
  have h61 : 61 ∉ str "begin(" ++ name ++ [41] := by
    rw [hbegin]; simp [hn61]
  have hseek : (strchr ((rc_start (rc_section_text name (rc_text lines)) s).buf.drop 0)
      10).map (· + 0) = some (7 + name.length) := by
    rw [List.drop_zero, hb1, strchr_append _ _ _ h10 h0, hl1]
    rfl
  have heq : (memchr ((rc_start (rc_section_text name (rc_text lines)) s).buf.drop 0)
      61 (7 + name.length - 0)).map (· + 0) = none := by
    rw [List.drop_zero, hb1, memchr_none]
    · rfl
    · rw [Nat.sub_zero, ← hl1, List.take_left]
      exact h61
  have hcmp : strncmp_eq ((rc_start (rc_section_text name (rc_text lines)) s).buf.drop 0)
      (str "begin(") = true := by
    rw [List.drop_zero, hb1, hbegin]
    simp [strncmp_eq]
  have hquote : sql_nquote
      ((rc_start (rc_section_text name (rc_text lines)) s).buf.drop (0 + 6))
      (7 + name.length - (0 + 6) - 1) = some (nquote_copy name) := by
    have hd : (rc_start (rc_section_text name (rc_text lines)) s).buf.drop (0 + 6)
        = name ++ (41 :: 10 :: (rc_text lines
            ++ (str "end(" ++ name ++ [41, 10] ++ [0]))) := by
      rw [hb1, hbegin]
      simp
    have hlen : 7 + name.length - (0 + 6) - 1 = name.length := by omega
    rw [hd, hlen]
    exact sql_nquote_prefix name _ hn0 (by simp)
  have hsz : (rc_start (rc_section_text name (rc_text lines)) s).buf.length < 2 ^ 64 := by
    rw [hb4, List.length_append]; simpa using hsize
  have hblen : (rc_start (rc_section_text name (rc_text lines)) s).buf.length
      = (rc_section_text name (rc_text lines)).length + 1 := by
    rw [hb4, List.length_append]; rfl
  -- the fuel of the section loop: one round for each line and one for `end(`
  obtain ⟨m, hm⟩ : ∃ m, (rc_start (rc_section_text name (rc_text lines)) s).buf.length + 1
      = m + 1 + lines.length :=
    ⟨(rc_section_text name (rc_text lines)).length + 1 - lines.length, by
      rw [hblen, htotal]; omega⟩
  have hline := rc_section_text_lines config (some name)
    (str "end(" ++ name ++ [41, 10] ++ [0]) (by simp) lines (m + 1)
    (str "begin(" ++ name ++ [41, 10])
    (rc_start (rc_section_text name (rc_text lines)) s) hb2 hok hnoend hsz
  rw [hhead] at hline
  have hendline := rc_section_end_line m config (some name)
    (rc_store_lines config (some name) lines
      (rc_start (rc_section_text name (rc_text lines)) s))
    (7 + name.length + 1 + (rc_text lines).length) name [0]
    (by
      rw [rc_store_lines_buf, hb3]
      have hl : 7 + name.length + 1 + (rc_text lines).length
          = (str "begin(" ++ name ++ [41, 10] ++ rc_text lines).length := by
        rw [List.length_append, hhead]
      rw [hl]
      exact List.drop_left _ _)
    hn hn0 hn10
  rw [rc_lines]
  simp only [hseek, heq, hb4 ▸ hp1, hb4 ▸ hp2, Bool.or_self, Bool.false_eq_true,
    if_false, hcmp, and_true, hquote, sql_unquote_nquote_copy]
  rw [if_pos (by omega)]
  rw [hm, hline, hendline]
  simp only []
  apply rc_lines_at_end
  rw [rc_store_lines_buf, hb4]
  have hl : 7 + name.length + 1 + (rc_text lines).length + 5 + name.length + 1
      = (rc_section_text name (rc_text lines)).length := htotal.symm
  rw [hl]
  exact List.drop_left _ _

/-! ### Lemmas on sql_x -/

theorem sql_x_outcome_nil (row : Nat) : sql_x_outcome row [] = 1 := by
  simp [sql_x_outcome, rows_before_end]

theorem sql_x_outcome_done (row : Nat) (cs : List Int) :
    sql_x_outcome row (SQLITE_DONE :: cs) = 1 := by
  simp [sql_x_outcome, rows_before_end]

theorem sql_x_outcome_error (row : Nat) (c : Int) (cs : List Int)
    (h : c = SQLITE_ERROR ∨ c = SQLITE_MISUSE) :
    sql_x_outcome row (c :: cs) = -1 := by
  rcases h with h | h <;> subst h <;> simp [sql_x_outcome, rows_before_end] <;> decide

theorem sql_x_outcome_row_zero (c : Int) (cs : List Int)
    (h1 : c ≠ SQLITE_DONE) (h2 : c ≠ SQLITE_ERROR) (h3 : c ≠ SQLITE_MISUSE) :
    sql_x_outcome 0 (c :: cs) = 0 := by
  simp [sql_x_outcome, rows_before_end, h1, h2, h3]

theorem sql_x_outcome_row_succ (row : Nat) (c : Int) (cs : List Int)
    (h1 : c ≠ SQLITE_DONE) (h2 : c ≠ SQLITE_ERROR) (h3 : c ≠ SQLITE_MISUSE) :
    sql_x_outcome (row + 1) (c :: cs) = sql_x_outcome row cs := by
  simp [sql_x_outcome, rows_before_end, h1, h2, h3]

theorem sql_x_run_spec (pending : List (Int × List sql_value)) :
    ∀ (fuel row : Nat) (cur : List sql_value) (steps : Nat), pending.length < fuel →
      (sql_x_run fuel row { pending := pending, row := cur, steps := steps }).map Prod.fst
        = some (sql_x_outcome row
            ((pending.map Prod.fst).filter (fun c => decide (c ≠ SQLITE_BUSY)))) := by
  induction pending with
  | nil =>
    intro fuel row cur steps h
    cases fuel with
    | zero => exact absurd h (by simp)
    | succ fuel =>
      have hdb : SQLITE_DONE ≠ SQLITE_BUSY := by decide
      simp [sql_x_run, sqlite3_step, sql_x_outcome_nil, hdb]
  | cons p rest ih =>
    intro fuel row cur steps h
    cases fuel with
    | zero => exact absurd h (by simp)
    | succ fuel =>
      have hf : rest.length < fuel := by simpa using h
      obtain ⟨code, r⟩ := p
      by_cases hb : code = SQLITE_BUSY
      · simp [sql_x_run, sqlite3_step, hb, ih fuel row r (steps + 1) hf]
      · by_cases hd : code = SQLITE_DONE
        · subst hd
          simp [sql_x_run, sqlite3_step, sql_x_outcome_done, hb]
        · by_cases he : code = SQLITE_ERROR ∨ code = SQLITE_MISUSE
          · simp [sql_x_run, sqlite3_step, hb, hd, he, sql_x_outcome_error]
          · have h2 : code ≠ SQLITE_ERROR := fun h => he (Or.inl h)
            have h3 : code ≠ SQLITE_MISUSE := fun h => he (Or.inr h)
            cases row with
            | zero =>
              simp [sql_x_run, sqlite3_step, hb, hd, h2, h3, sql_x_outcome_row_zero]
            | succ row =>
              simp [sql_x_run, sqlite3_step, hb, hd, h2, h3, sql_x_outcome_row_succ,
                ih fuel row r (steps + 1) hf]

/-! ### Lemmas on the selector rules -/

theorem iterate_prepare_rows {α : Type} (f : iterator_t → α) (g : List sql_value → α)
    (hf : ∀ i : iterator_t, i.done = false → f i = g i.stmt.row)
    (rows : List (List sql_value)) :
    ∀ (fuel : Nat) (cur : List sql_value) (steps : Nat), rows.length < fuel →
      iterate f fuel
          { stmt := { pending := rows.map (fun r => (SQLITE_ROW, r)), row := cur,
                      steps := steps },
            done := false }
        = some (rows.map g) := by
  have hrb : SQLITE_ROW ≠ SQLITE_BUSY := by decide
  have hrd : SQLITE_ROW ≠ SQLITE_DONE := by decide
  have hre : SQLITE_ROW ≠ SQLITE_ERROR := by decide
  have hrm : SQLITE_ROW ≠ SQLITE_MISUSE := by decide
  have hdb : SQLITE_DONE ≠ SQLITE_BUSY := by decide
  induction rows with
  | nil =>
    intro fuel cur steps h
    cases fuel with
    | zero => exact absurd h (by simp)
    | succ fuel => simp [iterate, next, step_while_busy, sqlite3_step, hdb]
  | cons r rest ih =>
    intro fuel cur steps h
    cases fuel with
    | zero => exact absurd h (by simp)
    | succ fuel =>
      have hfuel : rest.length < fuel := by simpa using h
      simp [iterate, next, step_while_busy, sqlite3_step, hrb, hrd, hre, hrm,
        ih fuel r (steps + 1) hfuel, hf]

theorem nvt_selector_rules_eq (ndebug : Bool) (selector : List Nat) (type : Int) (s : State)
    (hsel : APOSTROPHE ∉ selector) (htype : 0 ≤ type ∧ type ≤ 2) :
    nvt_selector_rules ndebug selector type s
      = some (((s.db.nvt_selectors.filter (fun r =>
            sql_eq r.2.name (some selector) && sql_eq r.2.type (some type))).map Prod.snd).map
          selector_rule) := by
  unfold nvt_selector_rules init_nvt_selector_iterator
  rw [sql_raw_literal_of_not_mem selector hsel, if_neg (by simp [htype])]
  simp only [Option.map_some', Option.some_bind, prepare_rows]
  rw [iterate_prepare_rows _
    (fun row => (if sqlite3_column_int { pending := [], row := row, steps := 0 } 1 = 0
                   then 1 else 0,
                 sqlite3_column_text { pending := [], row := row, steps := 0 } 3))]
  · simp [List.map_map, Function.comp_def, selector_rule, nvt_selector_iterator_include,
      nvt_selector_iterator_nvt, DEF_ACCESS]
  · intro i hi
    simp [nvt_selector_iterator_include, nvt_selector_iterator_nvt, DEF_ACCESS, hi,
      sqlite3_column_int, sqlite3_column_int64, sqlite3_column_text]
  · simp

/-! ## Claims -/

/-- C1: for a string `s` without NUL bytes and `n ≤ strlen (s)`, reading
`sql_nquote (s, n)` back as the body of a single-quoted literal gives the first
`n` bytes of `s`, and reading `sql_quote (s)` back gives `s`. -/
theorem sql_nquote_roundtrip (s : List Nat) (n : Nat) (hs : 0 ∉ s) (hn : n ≤ s.length) :
    (sql_nquote (s ++ [0]) n).bind sql_unquote = some (s.take n)
      ∧ (sql_quote (s ++ [0])).bind sql_unquote = some s := by
  constructor
  · simp [sql_nquote_eq s n hs hn, sql_unquote_nquote_copy]
  · simp [sql_quote_eq s hs, sql_unquote_nquote_copy]

/-- Instance of C1 on a string of six bytes, three of them apostrophes, with
n = 3. -/
theorem sql_nquote_roundtrip_witness :
    0 ∉ [79, 39, 66, 39, 39, 114] ∧ 3 ≤ [79, 39, 66, 39, 39, 114].length
      ∧ ((sql_nquote ([79, 39, 66, 39, 39, 114] ++ [0]) 3).bind sql_unquote
            = some ([79, 39, 66, 39, 39, 114].take 3)
          ∧ (sql_quote ([79, 39, 66, 39, 39, 114] ++ [0])).bind sql_unquote
            = some [79, 39, 66, 39, 39, 114]) :=
  ⟨by decide, by decide, sql_nquote_roundtrip [79, 39, 66, 39, 39, 114] 3 (by decide) (by decide)⟩

/-- C2 (the code differs): for NAME and COMMENT `set_task_parameter` builds
the quoted copy of the value and then fills the statement with the value
itself; with the value "it's" the statement text holds `'it's'`, where the
quoted form is `it''s`. -/
theorem set_task_parameter_name_not_quoted :
    set_task_parameter (fun v => v) 1 (some (str "NAME")) (some (str "it's"))
        = some (0, some (str "UPDATE tasks SET name = 'it's' WHERE ROWID = 1;"))
      ∧ set_task_parameter (fun v => v) 1 (some (str "COMMENT")) (some (str "it's"))
        = some (0, some (str "UPDATE tasks SET comment = 'it's' WHERE ROWID = 1;"))
      ∧ sql_nquote (str "it's" ++ [0]) 4 = some (str "it''s")
      ∧ sql_unquote (str "it's") = none := by
  decide

/-- C3: on a store that passes the version check, with no current user and
no current report, `init_manage` returns 0; afterwards every task row that
was REQUESTED, RUNNING, STOP_REQUESTED or DELETE_REQUESTED is the same row
with run status STOPPED, and every task row that was NEW, DONE or STOPPED is
unchanged.  All tasks are visited, whatever their owner. -/
theorem init_manage_stops_active_tasks (ndebug : Bool) (s : State)
    (hversion : ∀ v, database_version s = some v → v = DATABASE_VERSION)
    (huser : s.username = none) (hreport : s.current_report = 0)
    (hrowid : (s.db.tasks.map Prod.fst).Nodup) :
    ∃ s2, init_manage ndebug s = some (0, s2)
      ∧ (s2.db.tasks.map Prod.fst).Nodup
      ∧ ∀ id row, (id, row) ∈ s.db.tasks →
          ((row.run_status = TASK_STATUS_REQUESTED ∨ row.run_status = TASK_STATUS_RUNNING
              ∨ row.run_status = TASK_STATUS_STOP_REQUESTED
              ∨ row.run_status = TASK_STATUS_DELETE_REQUESTED) →
            (id, { row with run_status := TASK_STATUS_STOPPED }) ∈ s2.db.tasks)
          ∧ ((row.run_status = TASK_STATUS_NEW ∨ row.run_status = TASK_STATUS_DONE
              ∨ row.run_status = TASK_STATUS_STOPPED) →
            (id, row) ∈ s2.db.tasks) := by
  obtain ⟨s1, s2, hinit, htasks, hs2⟩ := init_manage_spec ndebug s hversion huser hreport hrowid
  have hnd1 : (s1.db.tasks.map Prod.fst).Nodup := by
    rcases htasks with h | h
    · rw [h]; exact hrowid
    · rw [h]; exact Table.insert_nodup _ _ hrowid
  refine ⟨s2, hinit, ?_, ?_⟩
  · rw [hs2, restart_tasks_rowids]; exact hnd1
  · intro id row hmem
    have hmem1 : (id, row) ∈ s1.db.tasks := by
      rcases htasks with h | h
      · rw [h]; exact hmem
      · rw [h]; exact List.mem_append_left _ hmem
    have hres : (id, ({ row with run_status := restart_status row.run_status } : tasks_row))
        ∈ s2.db.tasks := by
      rw [hs2]; exact mem_restart_tasks s1.db.tasks (id, row) hmem1
    constructor
    · intro hact
      have hEq : restart_status row.run_status = TASK_STATUS_STOPPED := by
        rcases hact with h | h | h | h <;> rw [h] <;> rfl
      rw [hEq] at hres
      exact hres
    · intro hin
      have hEq : ({ row with run_status := restart_status row.run_status } : tasks_row)
          = row := by
        cases row
        rcases hin with h | h | h <;> simp only at h <;> subst h <;> rfl
      rw [hEq] at hres
      exact hres

/-- Instance of C3 on a store with one task in each of the seven run states. -/
theorem init_manage_stops_active_tasks_witness :
    (∀ v, database_version restart_store = some v → v = DATABASE_VERSION)
      ∧ restart_store.username = none ∧ restart_store.current_report = 0
      ∧ (restart_store.db.tasks.map Prod.fst).Nodup
      ∧ ∃ s2, init_manage false restart_store = some (0, s2)
        ∧ (s2.db.tasks.map Prod.fst).Nodup
        ∧ ∀ id row, (id, row) ∈ restart_store.db.tasks →
            ((row.run_status = TASK_STATUS_REQUESTED ∨ row.run_status = TASK_STATUS_RUNNING
                ∨ row.run_status = TASK_STATUS_STOP_REQUESTED
                ∨ row.run_status = TASK_STATUS_DELETE_REQUESTED) →
              (id, { row with run_status := TASK_STATUS_STOPPED }) ∈ s2.db.tasks)
            ∧ ((row.run_status = TASK_STATUS_NEW ∨ row.run_status = TASK_STATUS_DONE
                ∨ row.run_status = TASK_STATUS_STOPPED) →
              (id, row) ∈ s2.db.tasks) :=
  have hv : ∀ v, database_version restart_store = some v → v = DATABASE_VERSION := by
    intro v h
    have h0 : database_version restart_store = some DATABASE_VERSION := by decide
    rw [h0] at h
    exact (Option.some.inj h).symm
  ⟨hv, rfl, rfl, by decide,
   init_manage_stops_active_tasks false restart_store hv rfl rfl (by decide)⟩

/-- C4 (the code differs): `config_preference` with a NULL type never finds a
preference, so `insert_rc_into_config` always takes the static branch.  For
the RC text with `auto_enable_new_plugins = yes` and one `oid = no` line,
`create_config` returns 0 and leaves the selector with the NVT exclude rule
only, no ALL rule, and the config with both growing flags 0. -/
theorem create_config_auto_enable_static :
    (∀ config preference s, config_preference config none preference s = none)
      ∧ (create_config (str "c") none (some auto_enable_rc) empty_store).map
          (fun r => (r.1, r.2.db.nvt_selectors,
            r.2.db.configs.map (fun c => (c.2.families_growing, c.2.nvts_growing))))
        = some (0,
            [(1, { name := some (str "c"), exclude := some 1, type := some 2,
                   family_or_nvt := sql_value.text (str "1.3.6.1.4.1.25623.1.0.10330") })],
            [(some 0, some 0)]) := by
  refine ⟨config_preference_null, ?_⟩
  decide

/-- C5 (the code differs): when `insert_rc_into_config` fails because the RC
text is NULL, `create_config` returns -1 after `END`, which commits: the
config row inserted before the import is in `configs` afterwards. -/
theorem create_config_failure_keeps_config :
    create_config (str "c") none none empty_store
      = some (-1, { empty_store with db := { empty_tables with
          configs := [(1, { name := some (str "c"), nvt_selector := some (str "c"),
                            comment := some [], family_count := none, nvt_count := none,
                            families_growing := none, nvts_growing := none })] } }) := by
  decide

/-- C6: once `next`, `next_task` or `next_report` has returned FALSE, every
later call returns FALSE again and leaves the iterator (its statement with
the count of `sqlite3_step` calls, its done flag) and the output variable
as they were. -/
theorem iterator_exhaustion_idempotent :
    (∀ iterator iterator2 : iterator_t, next iterator = some (false, iterator2) →
        ∀ n, later_call next n iterator2 = some (false, iterator2))
      ∧ (∀ (iterator iterator2 : task_iterator_t) (task task2 : Int),
          next_task iterator task = some (false, iterator2, task2) →
          ∀ n, later_call (fun st => next_task st.1 st.2) n (iterator2, task2)
            = some (false, iterator2, task2))
      ∧ (∀ (iterator iterator2 : iterator_t) (report report2 : Int),
          next_report iterator report = some (false, iterator2, report2) →
          ∀ n, later_call (fun st => next_report st.1 st.2) n (iterator2, report2)
            = some (false, iterator2, report2)) := by
  refine ⟨?_, ?_, ?_⟩
  · intro iterator iterator2 h n
    exact later_call_fixed next iterator2 (next_done _ (next_false _ _ h)) n
  · intro iterator iterator2 task task2 h n
    exact later_call_fixed (fun st => next_task st.1 st.2) (iterator2, task2)
      (next_task_done _ _ (next_task_false _ _ _ _ h)) n
  · intro iterator iterator2 report report2 h n
    exact later_call_fixed (fun st => next_report st.1 st.2) (iterator2, report2)
      (next_report_done _ _ (next_report_false _ _ _ _ h)) n

/-- Instance of C6: an iterator whose statement answers BUSY, a row, BUSY and
DONE is exhausted by its second call after four steps, and five later calls
leave it as it is. -/
theorem iterator_exhaustion_idempotent_witness :
    later_call next 1 example_iterator
        = some (false, { stmt := { pending := [], row := [], steps := 4 }, done := true })
      ∧ later_call next 5 { stmt := { pending := [], row := [], steps := 4 }, done := true }
        = some (false, { stmt := { pending := [], row := [], steps := 4 }, done := true }) :=
  ⟨by decide,
   iterator_exhaustion_idempotent.1
     { stmt := { pending := [(SQLITE_BUSY, [sql_value.integer 7]), (SQLITE_DONE, [])],
                 row := [sql_value.integer 7], steps := 2 }, done := false }
     { stmt := { pending := [], row := [], steps := 4 }, done := true } (by decide) 5⟩

/-- C7: for a task that is not hidden, with a current user and `stop_task`
answering 1 (stop requested) without deleting a row, as for a task in
RUNNING state, `request_delete_task` returns 1, leaves the task with run
status DELETE_REQUESTED and deletes nothing: every row of tasks and reports
is still there, and results, report_results and report_hosts are the same. -/
theorem request_delete_task_defers (stop_task delete_reports : Int → State → Option (Int × State))
    (ndebug : Bool) (task : Int) (s s1 : State)
    (hhidden : task_hidden task s = some 0)
    (huser : s.username ≠ none)
    (hstop : stop_task task s = some (1, s1))
    (hkeep : nothing_deleted s s1) :
    ∃ s2, request_delete_task stop_task delete_reports ndebug task s = some (1, s2)
      ∧ task_run_status task s2 = some TASK_STATUS_DELETE_REQUESTED
      ∧ nothing_deleted s s2 := by
  refine ⟨set_task_run_status task TASK_STATUS_DELETE_REQUESTED s1, ?_, ?_, ?_⟩
  · simp [request_delete_task, hhidden, huser, hstop]
  · apply task_run_status_set
    rw [hkeep.1]
    exact task_hidden_mem task s 0 hhidden
  · exact nothing_deleted_trans s s1 _ hkeep (set_task_run_status_nothing_deleted _ _ _)

/-- Instance of C7 on the running task 1 of `running_store`, with `stop_task`
as modelled from the spec. -/
theorem request_delete_task_defers_witness :
    task_hidden 1 running_store = some 0
      ∧ task_run_status 1 running_store = some TASK_STATUS_RUNNING
      ∧ running_store.username ≠ none
      ∧ stop_task 1 running_store
          = some (1, set_task_run_status 1 TASK_STATUS_STOP_REQUESTED running_store)
      ∧ ∃ s2, request_delete_task stop_task (fun _ s => some (0, s)) false 1 running_store
            = some (1, s2)
          ∧ task_run_status 1 s2 = some TASK_STATUS_DELETE_REQUESTED
          ∧ nothing_deleted running_store s2 :=
  ⟨by decide, by decide, by decide, by decide,
   request_delete_task_defers stop_task (fun _ s => some (0, s)) false 1 running_store
     (set_task_run_status 1 TASK_STATUS_STOP_REQUESTED running_store)
     (by decide) (by decide) (by decide)
     (set_task_run_status_nothing_deleted 1 TASK_STATUS_STOP_REQUESTED running_store)⟩

/-- C8: for a hidden task (its `hidden` column is not 0), whatever its run
status and the current user, `request_delete_task` returns 2 and
`delete_task` returns -1, a non-zero code, and both leave the state as it
was. -/
theorem hidden_task_delete_rejected
    (stop_task delete_reports : Int → State → Option (Int × State))
    (ndebug : Bool) (task : Int) (s : State) (hidden : Int)
    (hhidden : task_hidden task s = some hidden) (hne : hidden ≠ 0) :
    request_delete_task stop_task delete_reports ndebug task s = some (2, s)
      ∧ delete_task delete_reports task s = some (-1, s) ∧ (-1 : Int) ≠ 0 := by
  refine ⟨?_, ?_, by decide⟩
  · simp [request_delete_task, hhidden, hne]
  · simp [delete_task, hhidden, hne]

/-- Instance of C8 on the hidden task 2 of `running_store`. -/
theorem hidden_task_delete_rejected_witness :
    task_hidden 2 running_store = some 1 ∧ (1 : Int) ≠ 0
      ∧ request_delete_task stop_task (fun _ s => some (0, s)) false 2 running_store
          = some (2, running_store)
      ∧ delete_task (fun _ s => some (0, s)) 2 running_store = some (-1, running_store)
      ∧ (-1 : Int) ≠ 0 :=
  ⟨by decide, by decide,
   hidden_task_delete_rejected stop_task (fun _ s => some (0, s)) false 2 running_store 1
     (by decide) (by decide)⟩

/-- C9: when at least one task refers to the config `name`, `delete_config`,
called outside a transaction, returns 1 and leaves the state as it was, so
that the config row, its preferences and its selector rules still exist. -/
theorem delete_config_in_use (name : List Nat) (s : State) (r : Int × tasks_row)
    (hname : 0 ∉ name) (htxn : s.transaction = none)
    (hr : r ∈ s.db.tasks) (hconfig : r.2.config = some name) :
    delete_config name s = some (1, s) := by
  have hcount : sql_int (s.db.tasks.count (fun r => sql_eq r.2.config (some name))) ≠ some 0 :=
    count_ne_zero s.db.tasks _ r hr (by simp [sql_eq, hconfig])
  unfold delete_config
  simp only [sql_quoted_literal_nquote name hname, sql_begin, htxn]
  rw [if_pos hcount]
  simp only [sql_commit, Option.map_some', Option.some.injEq, Prod.mk.injEq, true_and]
  cases s
  simp_all

/-- Instance of C9: two tasks of `running_store` refer to the config Full and
fast. -/
theorem delete_config_in_use_witness :
    0 ∉ str "Full and fast" ∧ running_store.transaction = none
      ∧ (1, task_row (some 1) 0 TASK_STATUS_RUNNING (str "Full and fast"))
          ∈ running_store.db.tasks
      ∧ (2, task_row none 1 TASK_STATUS_DONE (str "Full and fast")) ∈ running_store.db.tasks
      ∧ delete_config (str "Full and fast") running_store = some (1, running_store) :=
  ⟨by decide, rfl, by decide, by decide,
   delete_config_in_use (str "Full and fast") running_store
     (1, task_row (some 1) 0 TASK_STATUS_RUNNING (str "Full and fast"))
     (by decide) rfl (by decide) rfl⟩

/-- C10, the claim as stated fails: with a report of task 1 that has a NULL
`end_time` in the store and `current_report` 0, `create_report` returns 0 and
inserts a second report with NULL `end_time` for the task. -/
theorem create_report_second_in_progress :
    running_store.current_report = 0
      ∧ reports_in_progress 1 running_store = 1
      ∧ (create_report false (some (str "r2")) 1251240000 1 running_store).map
          (fun r => (r.1, reports_in_progress 1 r.2, r.2.db.reports.length))
        = some (0, 2, 2) := by
  decide

/-- C10, amended: when `current_report` is set, `create_report` inserts no
report row: it returns -1 with the state as it was when assertions are
compiled out, and stops at its assertion otherwise. -/
theorem create_report_current_report_set (ndebug : Bool) (make_report_uuid : Option (List Nat))
    (now task : Int) (s : State) (h : s.current_report ≠ 0) :
    create_report ndebug make_report_uuid now task s
      = if ndebug then some (-1, s) else none := by
  cases ndebug <;> simp [create_report, h]

/-- Instance of the amended C10 with `current_report` 1 and assertions compiled
out. -/
theorem create_report_current_report_set_witness :
    ({ running_store with current_report := 1 } : State).current_report ≠ 0
      ∧ create_report true (some (str "r2")) 1251240000 1
          { running_store with current_report := 1 }
        = (if true then some (-1, { running_store with current_report := 1 }) else none) :=
  ⟨by decide,
   create_report_current_report_set true (some (str "r2")) 1251240000 1
     { running_store with current_report := 1 } (by decide)⟩

/-- C11 (the code differs in the family count): `insert_rc_into_config` ends
with one NVT include rule for each pointer of `yes` and one NVT exclude rule
for each pointer of `no`, and sets `nvt_count` to the size of `yes`,
`family_count` to its counter and both growing flags to 0.  The counter adds,
over the sections, the families that are new in the section: for the RC text
`two_section_rc`, whose PLUGIN_SET and SCANNER_SET sections each name an NVT
of the one family Web, the cached `family_count` is 2. -/
theorem insert_rc_static_family_count :
    (∀ (config : Int) (selector : List Nat) (st : rc_state),
        (rc_finish config selector st).db.nvt_selectors.map Prod.snd
            = st.s.db.nvt_selectors.map Prod.snd
                ++ st.yes.map (clude_row selector st.buf 0)
                ++ st.no.map (clude_row selector st.buf 1)
          ∧ (rc_finish config selector st).db.configs
            = st.s.db.configs.update (fun r => sql_eq r.2.name (some selector))
                (fun r => { r with nvt_count := some (st.yes.length : Int),
                                   family_count := some st.family_count,
                                   families_growing := some 0, nvts_growing := some 0 }))
      ∧ (growing_store.db.nvts.map (fun r => r.2.family)).dedup = [some (str "Web")]
      ∧ (create_config (str "c") none (some two_section_rc) growing_store).map
          (fun r => (r.1,
            (r.2.db.nvt_selectors.filter (fun x => sql_eq x.2.name (some (str "c")))).map
              (fun x => (x.2.exclude, x.2.family_or_nvt))))
        = some (0,
            [(some 0, sql_value.text (str "1.3.6.1")),
             (some 0, sql_value.text (str "1.3.6.2")),
             (some 1, sql_value.text (str "1.3.6.9"))])
      ∧ (create_config (str "c") none (some two_section_rc) growing_store).map
          (fun r =>
            (r.2.db.configs.filter (fun c => sql_eq c.2.name (some (str "c")))).map
              (fun c => (c.2.nvt_count, c.2.family_count)))
        = some [(some 2, some 2)] := by
  refine ⟨rc_finish_static, ?_, ?_, ?_⟩
  · decide
  · decide
  · decide

/-- C13 (the code differs): the selector name is put between quotes without
being quoted.  `create_config` stores a selector under the name `a'b`; for
that name the statement of `nvt_selector_nvts_growing` does not parse and the
answer is 0, also in `quote_selector_store`, where the selector `a'b` has the
ALL include rule and the selector `o'neil` a FAMILY include rule.  For the
selector "sel" of `growing_store_exclude`, with an ALL include rule, the
answer is 1. -/
theorem nvt_selector_nvts_growing_unquoted :
    sql_raw (str "a'b") = raw_statement.malformed
      ∧ sql_raw (str "o'neil") = raw_statement.malformed
      ∧ (create_config (str "a'b") none (some one_section_rc) growing_store).map
          (fun r => (r.1, (r.2.db.nvt_selectors.filter
            (fun x => sql_eq x.2.name (some (str "a'b")))).length))
        = some (0, 2)
      ∧ (quote_selector_store.db.nvt_selectors.filter (fun r =>
            sql_eq r.2.name (some (str "a'b")) && sql_eq r.2.exclude (some 0)
              && sql_eq r.2.type (some NVT_SELECTOR_TYPE_ALL))).length = 1
      ∧ nvt_selector_nvts_growing (str "a'b") quote_selector_store = some 0
      ∧ (quote_selector_store.db.nvt_selectors.filter (fun r =>
            sql_eq r.2.name (some (str "o'neil")) && sql_eq r.2.exclude (some 0)
              && sql_eq r.2.type (some NVT_SELECTOR_TYPE_FAMILY))).length = 1
      ∧ nvt_selector_nvts_growing (str "o'neil") quote_selector_store = some 0
      ∧ nvt_selector_nvts_growing (str "sel") growing_store_exclude = some 1 := by
  refine ⟨?_, ?_, ?_, ?_, ?_, ?_, ?_, ?_⟩ <;> decide

/-- C14 (the code differs): the selector name is put between quotes without
being quoted.  In `quote_selector_store` the selector `a'b` has the ALL
include rule, but for that name the statement of
`nvt_selector_families_growing` does not parse and the answer is 0.  For the
selector "sel" of `growing_store`, with an ALL include rule, the answer is 1,
and for the selector "web" of `web_store`, with a FAMILY include rule only,
it is 0. -/
theorem nvt_selector_families_growing_unquoted :
    sql_raw (str "a'b") = raw_statement.malformed
      ∧ (quote_selector_store.db.nvt_selectors.filter (fun r =>
            sql_eq r.2.name (some (str "a'b")) && sql_eq r.2.type (some NVT_SELECTOR_TYPE_ALL)
              && sql_eq r.2.exclude (some 0))).length = 1
      ∧ nvt_selector_families_growing (str "a'b") quote_selector_store = some 0
      ∧ nvt_selector_families_growing (str "sel") growing_store = some 1
      ∧ nvt_selector_families_growing (str "web") web_store = some 0 := by
  refine ⟨?_, ?_, ?_, ?_, ?_⟩ <;> decide

/-- C16, the claim as stated fails: with the cache of two NVTs present, a
config marked growing and a selector with the ALL include rule and one NVT
exclude rule for a cached NVT, `nvt_selector_nvt_count` returns -1, not 2 - 1. -/
theorem nvt_count_with_exclude :
    config_nvts_growing (str "cfg") growing_store_exclude = some 1
      ∧ nvt_cache_present growing_store_exclude = some 1
      ∧ nvts_size growing_store_exclude = some 2
      ∧ growing_store_exclude.db.nvt_selectors.map (fun r => (r.2.exclude, r.2.type))
          = [(some 0, some NVT_SELECTOR_TYPE_ALL), (some 1, some NVT_SELECTOR_TYPE_NVT)]
      ∧ nvt_selector_nvt_count (str "sel") (str "cfg") growing_store_exclude = some (-1) := by
  decide

/-- C16, amended: for a config marked growing whose selector (with a name
without apostrophe, the name is not quoted) has two or more rules, such as an
ALL include rule and k ≥ 1 NVT exclude rules, `nvt_selector_nvt_count`
returns -1, the answer for a count that is not known, whatever the cached
`nvt_count`, the rows of `nvts` and the state of the cache. -/
theorem nvt_count_unknown (selector config : List Nat) (s : State) (growing : Int)
    (hsel : APOSTROPHE ∉ selector)
    (hgrowing : config_nvts_growing config s = some growing) (hg : growing ≠ 0)
    (hrules : 2 ≤ (s.db.nvt_selectors.filter
      (fun r => sql_eq r.2.name (some selector))).length) :
    nvt_selector_nvt_count selector config s = some (-1) := by
  obtain ⟨present, hcache⟩ : ∃ present, nvt_cache_present s = some present := ⟨_, rfl⟩
  unfold nvt_selector_nvt_count
  simp only [hgrowing, hcache, sql_raw_literal_of_not_mem selector hsel, selector_rule_counts,
    sql_int, Table.count, List.head?_cons, Option.map_some', Option.getD_some,
    Option.some.injEq]
  have hne : ¬ (((s.db.nvt_selectors.filter
      (fun r => sql_eq r.2.name (some selector))).length : Int) = 1) := by omega
  simp [hg, hne]

/-- Instance of the amended C16 on `growing_store_exclude`. -/
theorem nvt_count_unknown_witness :
    2 ≤ (growing_store_exclude.db.nvt_selectors.filter
          (fun r => sql_eq r.2.name (some (str "sel")))).length
      ∧ nvt_selector_nvt_count (str "sel") (str "cfg") growing_store_exclude = some (-1) :=
  ⟨by decide,
   nvt_count_unknown (str "sel") (str "cfg") growing_store_exclude 1
     (by decide) (by decide) (by decide) (by decide)⟩

/-- C17: when `meta` holds a `database_version` other than "0", `init_manage`
returns -2 and the state afterwards is the state before: no row is inserted
or updated, no task status changes and the stored version stays. -/
theorem init_manage_wrong_version (ndebug : Bool) (s : State) (v : List Nat)
    (hv : database_version s = some v) (hne : v ≠ DATABASE_VERSION) :
    init_manage ndebug s = some (-2, s) := by
  simp [init_manage, hv, hne]

/-- Instance of C17 on a store with version "1" and tasks in active states. -/
theorem init_manage_wrong_version_witness :
    database_version wrong_version_store = some (str "1") ∧ str "1" ≠ DATABASE_VERSION
      ∧ init_manage false wrong_version_store = some (-2, wrong_version_store) :=
  ⟨by decide, by decide,
   init_manage_wrong_version false wrong_version_store (str "1") (by decide) (by decide)⟩

/-- C18 (the code differs): the UUID is put between quotes without being
quoted.  In `example_task_store` no task has the UUID `x' OR 'a'='a`, but with
it the condition of the statement is `uuid = 'x' OR 'a'='a'` and `find_task`
returns FALSE with `*task` 4, the example task.  With the UUID `a'b` the
statement does not parse, `sql_int64` returns -1 and `find_task` returns TRUE
with `*task` as it was.  With the UUID of the example task it returns FALSE
with `*task` 4, and with a UUID of no task FALSE with `*task` 0. -/
theorem find_task_unquoted :
    sql_raw (str "x' OR 'a'='a") = raw_statement.or_equal (str "x") (str "a") (str "a")
      ∧ example_task_store.db.tasks.filter
          (fun r => sql_eq r.2.uuid (some (str "x' OR 'a'='a"))) = []
      ∧ find_task (str "x' OR 'a'='a") 5 example_task_store = some (false, 4)
      ∧ sql_raw (str "a'b") = raw_statement.malformed
      ∧ find_task (str "a'b") 5 example_task_store = some (true, 5)
      ∧ find_task (str "343435d6-91b0-11de-9478-ffd71f4c6f29") 5 example_task_store
          = some (false, 4)
      ∧ find_task (str "343435d6-91b0-11de-9478-ffd71f4c6f28") 5 example_task_store
          = some (false, 0) := by
  refine ⟨?_, ?_, ?_, ?_, ?_, ?_, ?_⟩ <;> decide

/-- C19 (the code differs): host and timestamp are put between quotes
without being quoted.  For the host `o'neil` the statement that counts the
rows does not parse and `sql_int` aborts; for the timestamp `5 o'clock` the
UPDATE or INSERT does not parse and `sql` aborts: neither function returns
and no row is written.  For the host "localhost" and a timestamp without
apostrophe the row of report 1 of `host_store` gets the start time, and
report 3, which has no row, gets a new row with the end time. -/
theorem set_scan_host_time_unquoted :
    sql_raw (str "o'neil") = raw_statement.malformed
      ∧ sql_raw (str "5 o'clock") = raw_statement.malformed
      ∧ set_scan_host_start_time 1 (str "o'neil") (str "Tue Aug 25 21:50:00 2009") host_store
          = none
      ∧ set_scan_host_end_time 1 (str "o'neil") (str "Tue Aug 25 21:50:00 2009") host_store
          = none
      ∧ set_scan_host_start_time 1 (str "localhost") (str "5 o'clock") host_store = none
      ∧ set_scan_host_end_time 3 (str "localhost") (str "5 o'clock") host_store = none
      ∧ (set_scan_host_start_time 1 (str "localhost") (str "Tue Aug 25 21:50:00 2009")
            host_store).map (fun s2 => s2.db.report_hosts.map (fun r => (r.1, r.2.report)))
          = some [(1, some 1), (2, some 2)]
      ∧ (set_scan_host_start_time 1 (str "localhost") (str "Tue Aug 25 21:50:00 2009")
            host_store).map (fun s2 => s2.db.report_hosts.map (fun r => r.2.start_time))
          = some [some (str "Tue Aug 25 21:50:00 2009"), none]
      ∧ (set_scan_host_end_time 3 (str "localhost") (str "Tue Aug 25 21:50:00 2009")
            host_store).map (fun s2 => s2.db.report_hosts.map (fun r => (r.1, r.2.report)))
          = some [(1, some 1), (2, some 2), (3, some 3)]
      ∧ (set_scan_host_end_time 3 (str "localhost") (str "Tue Aug 25 21:50:00 2009")
            host_store).map (fun s2 => s2.db.report_hosts.map (fun r => r.2.end_time))
          = some [none, some (str "Tue Aug 25 21:52:15 2009"),
                  some (str "Tue Aug 25 21:50:00 2009")] := by
  refine ⟨?_, ?_, ?_, ?_, ?_, ?_, ?_, ?_, ?_, ?_⟩ <;> decide

/-- C21 (the code differs): the hash table that keeps a family from being
counted again is made anew for each PLUGIN_SET and SCANNER_SET section.  On a
cache whose NVTs 1.3.6.1 and 1.3.6.2 are of family Web, two lines of one
section count the family once, but for `repeated_nvt_rc`, which names the
NVT 1.3.6.1 in both sections, the counter ends at 2 and `create_config`
caches `family_count` 2, while the lines refer to one family. -/
theorem family_count_per_section :
    ((rc_lines (one_section_rc.length + 2) 1 (rc_start one_section_rc growing_store) 0).map
        (fun st => st.family_count)) = some 1
      ∧ ((rc_lines (repeated_nvt_rc.length + 2) 1 (rc_start repeated_nvt_rc growing_store) 0).map
        (fun st => st.family_count)) = some 2
      ∧ ((growing_store.db.nvts.filter
            (fun r => sql_eq r.2.oid (some (str "1.3.6.1")))).map
          (fun r => r.2.family)).dedup.length = 1
      ∧ (create_config (str "c") none (some repeated_nvt_rc) growing_store).map
          (fun r =>
            (r.2.db.configs.filter (fun c => sql_eq c.2.name (some (str "c")))).map
              (fun c => c.2.family_count))
        = some [some 2] := by
  refine ⟨?_, ?_, ?_, ?_⟩ <;> decide

/-- C22: for a prepared statement `sql_x` returns, and its return value is
the one its description gives for the answers of the statement with the BUSY
answers left out: 0 when `row + 1` rows come first, 1 when DONE comes before
that, -1 when ERROR or MISUSE comes before that.  So the value depends on the
answers other than BUSY only. -/
theorem sql_x_ignores_busy (row : Nat) (stmt : sqlite3_stmt) :
    (sql_x row (some stmt)).map Prod.fst
      = some (sql_x_outcome row
          ((stmt.pending.map Prod.fst).filter (fun c => decide (c ≠ SQLITE_BUSY)))) := by
  have h := sql_x_run_spec stmt.pending (stmt.pending.length + 1) row stmt.row stmt.steps
    (Nat.lt_succ_self _)
  simp only [sql_x, Option.map_map]
  exact h

/-- C24 (the code differs): `report_counts` counts the results of type
"Security Note" into `warnings` and those of type "Security Warning" into
`infos`.  For the report "r1" of `counts_store`, with one warning and two
notes, `warnings` is 2, while `report_warnings` gives 1 for the same report;
`debugs`, `holes` and `logs` are the numbers of debug messages, holes and log
messages. -/
theorem report_counts_warnings_are_notes :
    report_counts (str "r1") counts_store
        = some (0, { debugs := 1, holes := 2, infos := 1, logs := 3, warnings := 2 })
      ∧ report_warnings 1 none counts_store = some (0, 1)
      ∧ ((report_result_rows (some 1) counts_store).filter
          (fun r => sql_eq r.2.type (some (str "Security Warning")))).length = 1
      ∧ ((report_result_rows (some 1) counts_store).filter
          (fun r => sql_eq r.2.type (some (str "Security Note")))).length = 2 := by
  refine ⟨?_, ?_, ?_, ?_⟩ <;> decide

/-- C25 (the code differs): with report 0 the statement has no ORDER BY.  On
`order_store` the iterator for report 0 yields the result of host "b" before
the result of host "a" (the host is column 2 of `SELECT *`), while the
iterator for report 1 yields host "a" first; with `first_result` 1 the
iterator for report 0 starts at the result of host "a", the second row of the
table. -/
theorem result_iterator_all_results_unordered :
    (init_result_iterator 0 none 0 10 order_store).bind
        (iterate (fun iterator => sqlite3_column_text iterator.stmt 2) 5)
        = some [some (str "b"), some (str "a")]
      ∧ sql_le (some (str "b")) (some (str "a")) = false
      ∧ (init_result_iterator 1 none 0 10 order_store).bind (iterate result_iterator_host 5)
        = some [some (str "a"), some (str "b")]
      ∧ (init_result_iterator 0 none 1 10 order_store).bind
        (iterate (fun iterator => sqlite3_column_text iterator.stmt 2) 5)
        = some [some (str "a")]
      ∧ (init_result_iterator 1 none 1 10 order_store).bind (iterate result_iterator_host 5)
        = some [some (str "b")] := by
  refine ⟨?_, ?_, ?_, ?_, ?_⟩ <;> decide

/-- C26 (the code differs): `config_preferences` has no UNIQUE column, so
`INSERT OR REPLACE` replaces nothing.  For `dup_key_rc` the config gets two
rows for the general preference `a`, with the values 1 and 2, and two rows
for the preference `k` of section S, with the values x and y. -/
theorem rc_duplicate_key_two_rows :
    (create_config (str "c") none (some dup_key_rc) empty_store).map
        (fun r => (r.1, r.2.db.config_preferences.map (fun x => x.2.config)))
        = some (0, [some 1, some 1, some 1, some 1])
      ∧ (create_config (str "c") none (some dup_key_rc) empty_store).map
        (fun r => r.2.db.config_preferences.map (fun x => x.2.type))
        = some [none, none, some (str "S"), some (str "S")]
      ∧ (create_config (str "c") none (some dup_key_rc) empty_store).map
        (fun r => r.2.db.config_preferences.map (fun x => x.2.name))
        = some [some (str "a"), some (str "a"), some (str "k"), some (str "k")]
      ∧ (create_config (str "c") none (some dup_key_rc) empty_store).map
        (fun r => r.2.db.config_preferences.map (fun x => x.2.value))
        = some [some (str "1"), some (str "2"), some (str "x"), some (str "y")] := by
  refine ⟨?_, ?_, ?_, ?_⟩ <;> decide

/-- C27 (the code differs): with a NULL type the condition of the query is
`type = NULL`, which holds for no row, so `config_preference` gives NULL for
every config, name and store.  In `pref_store` config 1 has the general
preference max_hosts with the value 20, and the answer is NULL. -/
theorem config_preference_general_not_found :
    (∀ (config : Int) (preference : List Nat) (s : State),
        config_preference config none preference s = none)
      ∧ (pref_store.db.config_preferences.filter (fun r =>
            sql_eq r.2.config (some 1) && decide (r.2.type = none)
              && sql_eq r.2.name (some (str "max_hosts")))).map (fun r => r.2.value)
          = [some (str "20")]
      ∧ config_preference 1 none (str "max_hosts") pref_store = none :=
  ⟨config_preference_null, by decide, by decide⟩

/-- C28 (the code differs): with report 0 the statement is `SELECT *`, whose
first column is `task`, so each accessor reads the column before its own.  On
`order_store` the accessors give, for the first row of the iterator for
report 0, the task "7", the subnet "net", the host "b", the port "80", the NVT
and the type; for the first row of the iterator for report 1 they give the
subnet, host, port, NVT, type and description of the result. -/
theorem result_iterator_all_results_shifted :
    ((init_result_iterator 0 none 0 1 order_store).bind (iterate result_iterator_all 5))
        = some [[some (str "7"), some (str "net"), some (str "b"), some (str "80"),
                 some (str "1.3.6.1"), some (str "Security Note")]]
      ∧ ((init_result_iterator 1 none 0 1 order_store).bind (iterate result_iterator_all 5))
        = some [[some (str "net"), some (str "a"), some (str "22"), some (str "1.3.6.2"),
                 some (str "Security Hole"), some (str "d2")]]
      ∧ ((init_result_iterator 1 (some (str "b")) 0 1 order_store).bind
          (iterate result_iterator_all 5))
        = some [[some (str "net"), some (str "b"), some (str "80"), some (str "1.3.6.1"),
                 some (str "Security Note"), some (str "d1")]]
      ∧ order_store.db.results.map
          (fun r => [r.2.subnet, r.2.host, r.2.port, r.2.nvt, r.2.type, r.2.description])
        = [[some (str "net"), some (str "b"), some (str "80"), some (str "1.3.6.1"),
            some (str "Security Note"), some (str "d1")],
           [some (str "net"), some (str "a"), some (str "22"), some (str "1.3.6.2"),
            some (str "Security Hole"), some (str "d2")]] := by
  refine ⟨?_, ?_, ?_, ?_⟩ <;> decide

/-- C29 (the code differs): the count of `sql_nquote` stops at the first NUL
while the copy runs over `length` bytes.  For the three bytes NUL, apostrophe,
apostrophe (the decoding of the base64 text "ACcn") no apostrophe is counted
and 4 bytes are allocated, but the copy stores 5 bytes; the model has no result
for such a call, neither for `sql_nquote` nor for `set_task_parameter` with
RCFILE. -/
theorem sql_nquote_embedded_nul_overflow :
    count_apostrophes [0, 39, 39, 0] = some 0
      ∧ sql_nquote_alloc [0, 39, 39, 0] 3 = some 4
      ∧ (nquote_copy ([0, 39, 39, 0].take 3)).length = 5
      ∧ sql_nquote [0, 39, 39, 0] 3 = none
      ∧ set_task_parameter (fun _ => [0, 39, 39]) 1 (some (str "RCFILE")) (some (str "ACcn"))
          = none := by
  refine ⟨?_, ?_, ?_, ?_, ?_⟩ <;> decide

/-- C30 (the code differs): for the text of the one line `name =` with a
newline, the newline is at offset 6 and the equals sign at offset 5, so the
length `seek - (eq + 2)` is -1, which `sql_nquote` takes as the `size_t`
2^64 - 1, more than the bytes of the text: the call has no defined result,
and neither `rc_preference` nor `create_config` has one here.  Without the
newline the value starts after the terminator of the text, and
`create_config` has no result either. -/
theorem rc_line_end_after_equals :
    strchr (str "name =\n" ++ [0]) 10 = some 6
      ∧ memchr (str "name =\n" ++ [0]) 61 6 = some 5
      ∧ (6 : Int) - ((5 : Int) + 2) = -1
      ∧ size_t ((6 : Int) - ((5 : Int) + 2)) = 2 ^ 64 - 1
      ∧ sql_nquote ((str "name =\n" ++ [0]).drop (5 + 2)) (size_t ((6 : Int) - ((5 : Int) + 2)))
          = none
      ∧ rc_preference 1 none (rc_start (str "name =\n") empty_store) 0 5 (some 6) = none
      ∧ create_config (str "c") none (some (str "name =\n")) empty_store = none
      ∧ create_config (str "c") none (some (str "name =")) empty_store = none := by
  refine ⟨?_, ?_, ?_, ?_, ?_, ?_, ?_, ?_⟩ <;> decide

end TasksSql
